import Mathlib

/-!
# Blatter stress balance solver: node classification and parameter continuation

A shallow embedding of parts of `src/stressbalance/blatter/Blatter.cc`, of the grid
iterators of `src/base/util/IceGrid.hh` and of `src/inverse/IPTwoBlockVec.cc`.

* Floating point numbers (`double`) are modelled by an arbitrary linearly ordered
  field `K` (exact arithmetic, no NaN); concrete evaluations use `ℚ`, statements about
  the exact `std::log10`, `std::floor` and `std::pow` use `ℝ`. The functions of `<cmath>`
  are a parameter (`CMath`), so that their rounded values in double precision can be
  supplied as well (`test_cmath_double`).
* C arrays (`const double *F`, `const int *node_type`) are functions `Nat → _`.
* Distributed 2D fields (`IceModelVec2`) are wrapped functions `Int → Int → _` indexed
  by the grid indices `(i, j)`.
* Constants and tables declared outside of the translated files (`NODE_BOUNDARY`,
  `fem::q13d::incident_nodes`, PETSc's `SNES_DIVERGED_*`) are parameters.
-/

set_option autoImplicit false
set_option linter.unusedSectionVars false
set_option linter.unusedVariables false

namespace Blatter

/-! ## Element and face predicates -/

section predicates

variable {K : Type} [LinearOrder K]

/-- The state `(grounded, floating)` of the loop in `Blatter::grounding_line` after
processing the entries of `F` with indices in `ns`. -/
def grounding_line_loop [Zero K] (F : Nat → K) (ns : List Nat) : Bool × Bool :=
  ns.foldl
    (fun (s : Bool × Bool) n => if F n ≤ 0 then (true, s.2) else (s.1, true))
    (false, false)

/-- `Blatter::grounding_line(const double *F)`. -/
def grounding_line [Zero K] (F : Nat → K) : Bool :=
  let s := grounding_line_loop F (List.range 4)
  s.1 && s.2

/-- The state `(above, below)` of the loop in `Blatter::partially_submerged_face` after
processing the face nodes `nodes n` for `n` in `ns`. -/
def partially_submerged_face_loop (nodes : Nat → Nat) (z sea_level : Nat → K)
    (ns : List Nat) : Bool × Bool :=
  ns.foldl
    (fun (s : Bool × Bool) n =>
      let k := nodes n
      if z k > sea_level k then (true, s.2) else (s.1, true))
    (false, false)

/-- `Blatter::partially_submerged_face(int face, const double *z, const double *sea_level)`.
The table `fem::q13d::incident_nodes` (declared in `FEM.hh`) is a parameter:
`incident_nodes face n` is the element-local index of the node number `n` of the face
`face`. -/
def partially_submerged_face (incident_nodes : Nat → Nat → Nat) (face : Nat)
    (z sea_level : Nat → K) : Bool :=
  let nodes := incident_nodes face
  let s := partially_submerged_face_loop nodes z sea_level (List.range 4)
  s.1 && s.2

/-- `Blatter::marine_boundary(int face, const int *node_type, const double *ice_bottom,
const double *sea_level)`. The constant `NODE_BOUNDARY` and the table
`fem::q13d::incident_nodes` are parameters. -/
def marine_boundary (NODE_BOUNDARY : Int) (incident_nodes : Nat → Nat → Nat) (face : Nat)
    (node_type : Nat → Int) (ice_bottom sea_level : Nat → K) : Bool :=
  let nodes := incident_nodes face
  -- exclude faces that contain at least one node that is not a part of the boundary
  if (List.range 4).any (fun n => !decide (node_type (nodes n) = NODE_BOUNDARY)) then false
  -- check if ice_bottom is below sea_level at one of the nodes of this face
  else if (List.range 4).any (fun n => decide (ice_bottom (nodes n) < sea_level (nodes n)))
  then true
  else false

end predicates

/-! ## Node classification -/

/-- The values of the enumeration `NodeType` (declared in `node_types.hh`, which is not
among the translated files), taken as parameters. -/
structure NodeTypeValues where
  NODE_INTERIOR : Int
  NODE_BOUNDARY : Int
  NODE_EXTERIOR : Int

/-- The fields of `struct Parameters` used by the translated code; one entry of
`m_parameters` per map-plane node. -/
structure Parameters (K : Type) where
  tauc : K
  thickness : K
  sea_level : K
  bed : K
  node_type : Int
  floatation : K

/-- The fields of PETSc's `DMDALocalInfo` (after `grid_transpose`) used by
`compute_node_type`: the owned patch `[xs, xs + xm) × [ys, ys + ym)` and the ghosted patch
`[gxs, gxs + gxm) × [gys, gys + gym)` of the calling process. -/
structure DMDALocalInfo where
  xs : Int
  ys : Int
  xm : Int
  ym : Int
  gxs : Int
  gys : Int
  gxm : Int
  gym : Int

/-- The values taken by `k` in `for (int k = a; k < b; k++)`, in order. -/
def intRange (a b : Int) : List Int :=
  (List.range (b - a).toNat).map (fun (d : Nat) => a + (d : Int))

/-- A distributed 2D field (`IceModelVec2S`, `IceModelVec2Struct<Parameters>`), as seen
by one process: `f.get i j` is the value `f(i, j)` at the grid point `(i, j)`. -/
structure IceModelVec2 (α : Type) where
  get : Int → Int → α

/-- Assignment `f(i, j) = v` to one entry of a 2D field. -/
def IceModelVec2.set {α : Type} (f : IceModelVec2 α) (i j : Int) (v : α) :
    IceModelVec2 α :=
  ⟨fun a b => if a = i ∧ b = j then v else f.get a b⟩

/-- Modelled from the spec: the element class `fem::Q1Element2` is not among the
translated files. An element is "a horizontal quadrilateral of 4 nodes (map-plane)"; the
element `(i, j)` has the nodes `(i, j)`, `(i + 1, j)`, `(i + 1, j + 1)`, `(i, j + 1)`
(numbered counter-clockwise), so that the elements of the loop
`gxs ≤ i < gxs + gxm - 1` use the nodes `gxs ≤ i < gxs + gxm`. This is the offset in the
`x` direction of the node `k` of an element. -/
def i_offset (k : Nat) : Int :=
  match k with
  | 0 => 0
  | 1 => 1
  | 2 => 1
  | _ => 0

/-- Modelled from the spec: see `i_offset`; the offset in the `y` direction of the node
`k` of an element. -/
def j_offset (k : Nat) : Int :=
  match k with
  | 0 => 0
  | 1 => 0
  | 2 => 1
  | _ => 1

/-- `E.reset(i, j); E.nodal_values(x, p)`: the values `p[k]` of a 2D field at the 4 nodes
of the element `(i, j)`. -/
def nodal_values {α : Type} (x : IceModelVec2 α) (i j : Int) (k : Nat) : α :=
  x.get (i + i_offset k) (j + j_offset k)

section classification

variable {K : Type} [LinearOrder K]

/-- The flag `interior` computed by the first inner loop of `compute_node_type`: it
starts as `true` and is set to `false` at the first node with
`p[k].thickness < min_thickness`. -/
def element_interior (p : Nat → Parameters K) (min_thickness : K) : Bool :=
  if (List.range 4).any (fun k => decide ((p k).thickness < min_thickness)) then false
  else true

/-- The second inner loop of `compute_node_type`: `node_type(ii, jj) += interior` at the
4 nodes `(ii, jj)` of the element `(i, j)`. -/
def add_to_nodes (node_type : IceModelVec2 Int) (i j : Int) (interior : Bool) :
    IceModelVec2 Int :=
  (List.range 4).foldl
    (fun nt k =>
      let ii := i + i_offset k
      let jj := j + j_offset k
      nt.set ii jj (nt.get ii jj + (if interior then 1 else 0)))
    node_type

/-- The first loop of `compute_node_type`, over all the elements of the ghosted patch,
starting from `node_type.set(0.0)`: the number of icy elements each node belongs to. -/
def count_icy_elements (info : DMDALocalInfo) (m_parameters : IceModelVec2 (Parameters K))
    (min_thickness : K) : IceModelVec2 Int :=
  (intRange info.gys (info.gys + info.gym - 1)).foldl
    (fun nt j =>
      (intRange info.gxs (info.gxs + info.gxm - 1)).foldl
        (fun nt i =>
          let p := nodal_values m_parameters i j
          let interior := element_interior p min_thickness
          add_to_nodes nt i j interior)
        nt)
    ⟨fun _ _ => 0⟩

/-- The point `(i, j)` is owned by the calling process. -/
def owned (info : DMDALocalInfo) (i j : Int) : Prop :=
  (info.xs ≤ i ∧ i < info.xs + info.xm) ∧ (info.ys ≤ j ∧ j < info.ys + info.ym)

instance (info : DMDALocalInfo) (i j : Int) : Decidable (owned info i j) := by
  unfold owned
  infer_instance

/-- `update_ghosts()` of a local 2D field: the values at owned points are kept, the
values at all other points are replaced by the values `ghosts` received from the
processes owning them. -/
def update_ghosts {α : Type} (info : DMDALocalInfo) (f ghosts : IceModelVec2 α) :
    IceModelVec2 α :=
  ⟨fun i j => if owned info i j then f.get i j else ghosts.get i j⟩

/-- The `switch` statement of `compute_node_type`. -/
def node_type_of_count (T : NodeTypeValues) (count : Int) : Int :=
  if count = 4 then T.NODE_INTERIOR
  else if count = 0 then T.NODE_EXTERIOR
  else T.NODE_BOUNDARY

/-- `Blatter::compute_node_type(double min_thickness)`: the new value of `m_parameters`.
`ghosts` are the values the temporary field `node_type` receives at ghost points from
`node_type.update_ghosts()`. -/
def compute_node_type (T : NodeTypeValues) (info : DMDALocalInfo)
    (m_parameters : IceModelVec2 (Parameters K)) (min_thickness : K)
    (ghosts : IceModelVec2 Int) : IceModelVec2 (Parameters K) :=
  let node_type := count_icy_elements info m_parameters min_thickness
  let node_type := update_ghosts info node_type ghosts
  (intRange info.ys (info.ys + info.ym)).foldl
    (fun P j =>
      (intRange info.xs (info.xs + info.xm)).foldl
        (fun P i =>
          P.set i j { P.get i j with node_type := node_type_of_count T (node_type.get i j) })
        P)
    m_parameters

/-- An element `e = (i, j)` contains ice: the thickness at all 4 of its nodes equals or
exceeds the threshold. -/
def icy (m_parameters : IceModelVec2 (Parameters K)) (min_thickness : K) (e : Int × Int) :
    Prop :=
  ∀ k, k < 4 → min_thickness ≤ (nodal_values m_parameters e.1 e.2 k).thickness

instance (m_parameters : IceModelVec2 (Parameters K)) (min_thickness : K) (e : Int × Int) :
    Decidable (icy m_parameters min_thickness e) := by
  unfold icy
  infer_instance

/-- The node `(i, j)` is one of the 4 nodes of the element `e`. -/
def belongs (i j : Int) (e : Int × Int) : Prop :=
  ∃ k, k < 4 ∧ e.1 + i_offset k = i ∧ e.2 + j_offset k = j

instance (i j : Int) (e : Int × Int) : Decidable (belongs i j e) := by
  unfold belongs
  infer_instance

/-- The elements `(i, j)` visited by the first loop of `compute_node_type`. -/
def elements (info : DMDALocalInfo) : List (Int × Int) :=
  (intRange info.gys (info.gys + info.gym - 1)).flatMap
    (fun j => (intRange info.gxs (info.gxs + info.gxm - 1)).map (fun i => (i, j)))

/-- The number of elements (of the ghosted patch) the node `(i, j)` belongs to. -/
def element_count (info : DMDALocalInfo) (i j : Int) : Nat :=
  ((elements info).filter (fun e => decide (belongs i j e))).length

/-- The number of icy elements (of the ghosted patch) the node `(i, j)` belongs to. -/
def icy_count (info : DMDALocalInfo) (m_parameters : IceModelVec2 (Parameters K))
    (min_thickness : K) (i j : Int) : Nat :=
  ((elements info).filter
    (fun e => decide (icy m_parameters min_thickness e) && decide (belongs i j e))).length

end classification

/-! ## Grid iterators (`IceGrid.hh`) -/

/-- The part of `IceGrid` used by the iterators: the patch of `xm` times `ym` grid points
with indices starting at `xs` and `ys` owned by the processor (`int` is modelled by
unbounded integers). -/
structure IceGrid where
  xs : Int
  xm : Int
  ys : Int
  ym : Int

/-- The data members of `class PointsWithGhosts`. -/
structure PointsWithGhosts where
  m_i : Int
  m_j : Int
  m_i_first : Int
  m_i_last : Int
  m_j_first : Int
  m_j_last : Int
  m_done : Bool

/-- The constructor `PointsWithGhosts(IceGrid &g, unsigned int stencil_width = 1)`. -/
def PointsWithGhosts.new (g : IceGrid) (stencil_width : Nat) : PointsWithGhosts :=
  let m_i_first := g.xs - stencil_width
  let m_i_last := g.xs + g.xm + stencil_width - 1
  let m_j_first := g.ys - stencil_width
  let m_j_last := g.ys + g.ym + stencil_width - 1
  ⟨m_i_first, m_j_first, m_i_first, m_i_last, m_j_first, m_j_last, false⟩

/-- `PointsWithGhosts::next()`. -/
def PointsWithGhosts.next (p : PointsWithGhosts) : PointsWithGhosts :=
  let p : PointsWithGhosts := { p with m_j := p.m_j + 1 }
  let p : PointsWithGhosts :=
    if p.m_j > p.m_j_last then
      -- wrap around
      { p with m_j := p.m_j_first, m_i := p.m_i + 1 }
    else p
  if p.m_i > p.m_i_last then
    -- ensure that indexes are valid
    { p with m_i := p.m_i_first, m_done := true }
  else p

/-- `PointsWithGhosts::operator bool()`. -/
def PointsWithGhosts.toBool (p : PointsWithGhosts) : Bool :=
  p.m_done == false

/-- The constructor `Points(IceGrid &g) : PointsWithGhosts(g, 0)`. -/
def Points (g : IceGrid) : PointsWithGhosts :=
  PointsWithGhosts.new g 0

/-- The points `(p.i(), p.j())` at which the body of the loop
`for (...; p; p.next()) { ... }` is executed, starting with the iterator `p`; `none` if
the loop does not end within `fuel` executions of its body. -/
def PointsWithGhosts.visited : Nat → PointsWithGhosts → Option (List (Int × Int))
  | 0, p => if p.toBool then none else some []
  | fuel + 1, p =>
    if p.toBool then (PointsWithGhosts.visited fuel p.next).map (fun l => (p.m_i, p.m_j) :: l)
    else some []

/-- The points `(i, j)` with `xs - w ≤ i ≤ xs + xm + w - 1` and
`ys - w ≤ j ≤ ys + ym + w - 1`, with `j` varying fastest. -/
def points (g : IceGrid) (w : Nat) : List (Int × Int) :=
  (intRange (g.xs - w) (g.xs + g.xm + w)).flatMap
    (fun i => (intRange (g.ys - w) (g.ys + g.ym + w)).map (fun j => (i, j)))

/-- The points that remain to be visited by an iterator which is not done: the rest of
the current row `m_i`, then the rows after it. -/
def PointsWithGhosts.remaining (p : PointsWithGhosts) : List (Int × Int) :=
  (intRange p.m_j (p.m_j_last + 1)).map (fun j => (p.m_i, j)) ++
  (intRange (p.m_i + 1) (p.m_i_last + 1)).flatMap
    (fun i => (intRange p.m_j_first (p.m_j_last + 1)).map (fun j => (i, j)))

/-! ## 2D parameters: `Blatter::init_2d_parameters` -/

section init_2d

variable {K : Type} [LinearOrderedField K]

/-- `update_ghosts()` of a 2D field defined on the PISM grid `g`: the values at the points
owned by the process are kept, the values at all other points are replaced by the values
`ghosts` received from the processes owning them. -/
def grid_update_ghosts {α : Type} (g : IceGrid) (f ghosts : IceModelVec2 α) :
    IceModelVec2 α :=
  ⟨fun i j =>
    if (g.xs ≤ i ∧ i < g.xs + g.xm) ∧ (g.ys ≤ j ∧ j < g.ys + g.ym) then f.get i j
    else ghosts.get i j⟩

end init_2d

/-! ## The multigrid hooks -/

/-- The calls made by the hooks `blatter_restriction_hook` and `blatter_coarsening_hook`
(`restrict_data`, `setup_level`, `DMCoarsenHookAdd`, `create_restriction`), and a call of
the classifier `compute_node_type`. The strings are the names of the data sets the calls
act on. -/
inductive HookCall where
  | restrict_data (dm_name : String)
  | setup_level
  | DMCoarsenHookAdd
  | create_restriction (dm_name : String)
  | compute_node_type
  deriving DecidableEq

/-- The calls made by `blatter_restriction_hook(fine, mrestrict, rscale, inject, coarse,
ctx)`, in order; the arguments `mrestrict`, `rscale`, `inject` and `ctx` are not used. -/
def blatter_restriction_hook : List HookCall :=
  [HookCall.restrict_data "3D_DM"]

/-- The calls made by `blatter_coarsening_hook(dm_fine, dm_coarse, ctx)`, in order. -/
def blatter_coarsening_hook : List HookCall :=
  [HookCall.setup_level, HookCall.DMCoarsenHookAdd, HookCall.create_restriction "3D_DM"]

/-! ## The compatibility check of `Blatter::setup` -/

/-- The loop `while (M > 1)` of the compatibility check in `Blatter::setup`, with `n`
iterations left (`M = n + 1`), the coarsening factor `c` and the current value of `mz`.
The result is `none` if the check throws. Otherwise it lists the successive values of
`mz`: the numbers of vertical levels of the grids, from the finest to the coarsest.
`Int.tdiv` is the integer division of C. -/
def setup_loop (c : Int) : Nat → Int → Option (List Int)
  | 0, mz => some [mz]
  | n + 1, mz =>
    if ((mz - 1).tdiv c) * c ≠ mz - 1 then none
    else (setup_loop c n ((mz - 1).tdiv c + 1)).map (fun l => mz :: l)

/-- The compatibility check at the start of `Blatter::setup`. The error carries the
values `N + 1`, `2 N + 1`, `3 N + 1` with `N = pow(c, mg_levels - 1)` which the error
message suggests for `stress_balance.blatter.Mz`. -/
def setup_check (Mz coarsening_factor mg_levels : Int) : Except (Int × Int × Int) (List Int) :=
  match setup_loop coarsening_factor (mg_levels - 1).toNat Mz with
  | none =>
    let N := coarsening_factor ^ (mg_levels - 1).toNat
    Except.error (N + 1, 2 * N + 1, 3 * N + 1)
  | some levels => Except.ok levels

/-! ## Parameter continuation: `Blatter::update` -/

/-- The functions of `<cmath>` used by `Blatter::update`: `std::pow`, `std::log10` and
`std::floor`. -/
structure CMath (K : Type) where
  pow : K → K → K
  log10 : K → K
  floor : K → K

/-- The outcome of one call of `SNESSolve(m_snes, NULL, m_x)`: the converged reason
(`SNESGetConvergedReason`), the number of iterations (`SNESGetIterationNumber`) and the
new contents of the solution vector `m_x`. -/
structure SNESOutcome (X : Type) where
  reason : Int
  snes_it : Int
  x : X

/-- The nonlinear solver, an external collaborator. The values of PETSc's
`SNES_DIVERGED_LINE_SEARCH` and `SNES_DIVERGED_MAX_IT` and the iteration limit
`snes_max_it` (`SNESGetTolerances`) are parameters. `solve N lambda eps x` is the outcome
of the solve number `N` of a call of `update`, performed with the regularization
`m_viscosity_eps = eps` and the initial guess `m_x = x`; the solver is a black box, so its
outcome may depend on the step `N` and on `lambda` as well. -/
structure SNES (K X : Type) where
  SNES_DIVERGED_LINE_SEARCH : Int
  SNES_DIVERGED_MAX_IT : Int
  snes_max_it : Int
  solve : Nat → K → K → X → SNESOutcome X

/-- The variables of `Blatter::update` that change from one continuation step to the
next: `lambda`, `delta`, the solution vector `m_x` and the vector `m_x_old` to revert to. -/
structure ContinuationState (K X : Type) where
  lambda : K
  delta : K
  m_x : X
  m_x_old : X

/-- What `update` reports (`m_log->message`) about one nonlinear solve: the step `N`, the
value of `lambda`, the regularization `m_viscosity_eps` used, the reason and the
number of iterations returned by the solver, and the step length `delta` with which
`lambda` was reached. -/
structure LogEntry (K : Type) where
  N : Nat
  lambda : K
  m_viscosity_eps : K
  reason : Int
  snes_it : Int
  delta : K

/-- The ways one iteration of the loop of `update` can end: `goto bp_done`, the next
iteration, or `throw RuntimeError(...)` with a message. -/
inductive StepOutcome (K X : Type) where
  | done (s : ContinuationState K X)
  | next (s : ContinuationState K X)
  | failed (message : String) (s : ContinuationState K X)

/-- How `update` ends: `error = none` if it reaches `bp_done` and returns normally,
`error = some message` if it throws; the final values of the variables; and the list of
the nonlinear solves performed. -/
structure UpdateResult (K X : Type) where
  error : Option String
  state : ContinuationState K X
  log : List (LogEntry K)

section continuation

variable {K X : Type} [LinearOrderedField K] [Zero X]

/-- `int Nc = 20`: the maximum number of continuation steps. -/
def Nc : Nat := 20

/-- `lambda_min = 0.75`. -/
def lambda_min : K := 3 / 4

/-- `lambda_max = 1.0`. -/
def lambda_max : K := 1

/-- `delta_min = 0.01`. -/
def delta_min : K := 1 / 100

/-- `delta_max = 0.2`. -/
def delta_max : K := 1 / 5

/-- `delta0 = 0.05`. -/
def delta0 : K := 1 / 20

/-- `A = 1.0`: the "aggressiveness" of the step increase. -/
def A : K := 1

/-- Modelled from the spec: `pism::clip` is not among the translated files; "clamp to
`[δ_min, δ_max]`". -/
def clip (x a b : K) : K := min (max a x) b

/-- The regularization parameter `m_viscosity_eps = std::max(std::pow(10.0, lambda * gamma),
eps)` set at the beginning of a continuation step. -/
def viscosity_eps (m : CMath K) (eps gamma lambda : K) : K :=
  max (m.pow 10 (lambda * gamma)) eps

/-- One iteration of the loop `for (int N = 0; N < Nc + 1; ++N)` of `Blatter::update`,
with `eps` the desired regularization parameter and `gamma = floor(log10(eps))`. -/
def continuation_step (m : CMath K) (snes : SNES K X) (eps gamma : K) (N : Nat)
    (s : ContinuationState K X) : StepOutcome K X × LogEntry K :=
  -- Set the regularization parameter:
  let m_viscosity_eps := viscosity_eps m eps gamma s.lambda
  -- Solve the system:
  let r := snes.solve N s.lambda m_viscosity_eps s.m_x
  let entry : LogEntry K := ⟨N, s.lambda, m_viscosity_eps, r.reason, r.snes_it, s.delta⟩
  if r.reason > 0 then
    -- converged
    if m_viscosity_eps ≤ eps then
      -- ... while solving the desired (not overregularized) problem
      (StepOutcome.done ⟨s.lambda, s.delta, r.x, s.m_x_old⟩, entry)
    else
      -- store solution as the "old" initial guess we may need to revert to
      let m_x_old := r.x
      let F : K := ((snes.snes_max_it - r.snes_it : Int) : K) / (snes.snes_max_it : K)
      let delta := if N > 1 then s.delta * (1 + A * F * F) else s.delta
      let delta := min delta delta_max
      -- ensure that delta does not take us past lambda_max
      let delta := if s.lambda + delta > lambda_max then lambda_max - s.lambda else delta
      (StepOutcome.next ⟨s.lambda + delta, delta, r.x, m_x_old⟩, entry)
  else if r.reason = snes.SNES_DIVERGED_LINE_SEARCH ∨
      r.reason = snes.SNES_DIVERGED_MAX_IT then
    if N = 0 then
      (StepOutcome.next ⟨lambda_min, delta0, 0, 0⟩, entry)
    else
      let m_x := s.m_x_old
      -- revert lambda to the previous value
      let lambda := s.lambda - s.delta
      if lambda < lambda_min then
        (StepOutcome.failed "Blatter solver: Parameter continuation failed"
          ⟨lambda, s.delta, m_x, s.m_x_old⟩, entry)
      else if |s.delta - delta_min| < 1 / 1000000 then
        (StepOutcome.failed "Blatter solver: cannot reduce the continuation step"
          ⟨lambda, s.delta, m_x, s.m_x_old⟩, entry)
      else
        -- reduce the step size
        let delta := s.delta * (1 / 2)
        let delta := clip delta delta_min delta_max
        (StepOutcome.next ⟨lambda + delta, delta, m_x, s.m_x_old⟩, entry)
  else
    -- Other kinds of failures
    (StepOutcome.failed "Blatter solver failed" ⟨s.lambda, s.delta, r.x, s.m_x_old⟩, entry)

/-- The loop `for (int N = 0; N < Nc + 1; ++N)` of `Blatter::update` with `remaining`
iterations left, followed by the `throw` after the loop. -/
def continuation_loop (m : CMath K) (snes : SNES K X) (eps gamma : K) :
    Nat → Nat → ContinuationState K X → List (LogEntry K) → UpdateResult K X
  | 0, _, s, log =>
    ⟨some "Blatter solver failed after 20 parameter continuation steps", s, log⟩
  | remaining + 1, N, s, log =>
    match continuation_step m snes eps gamma N s with
    | (StepOutcome.done s', entry) => ⟨none, s', log ++ [entry]⟩
    | (StepOutcome.next s', entry) =>
      continuation_loop m snes eps gamma remaining (N + 1) s' (log ++ [entry])
    | (StepOutcome.failed message s', entry) => ⟨some message, s', log ++ [entry]⟩

/-- The desired regularization parameter `eps = pow(schoofVel / schoofLen, 2.0)`. -/
def eps_target (m : CMath K) (schoofLen schoofVel : K) : K :=
  m.pow (schoofVel / schoofLen) 2

/-- The exponent `gamma = std::floor(std::log10(eps))`: "a number such that
`10^gamma <= eps`". -/
def continuation_gamma (m : CMath K) (schoofLen schoofVel : K) : K :=
  m.floor (m.log10 (eps_target m schoofLen schoofVel))

/-- The continuation part of `Blatter::update`, from the configuration parameters
`flow_law.Schoof_regularizing_length` and `flow_law.Schoof_regularizing_velocity` and the
initial contents of the solution vector `m_x`, up to `bp_done` or to a `throw`. -/
def update (m : CMath K) (snes : SNES K X) (schoofLen schoofVel : K) (m_x : X) :
    UpdateResult K X :=
  let eps := eps_target m schoofLen schoofVel
  let gamma := continuation_gamma m schoofLen schoofVel
  -- set lambda and delta to solve the desired (not overregularized) problem first
  let lambda : K := lambda_max
  let delta : K := delta0
  -- store the "old" initial guess
  let m_x_old := m_x
  continuation_loop m snes eps gamma (Nc + 1) 0 ⟨lambda, delta, m_x, m_x_old⟩ []

/-- The call of `update` with the result `r` reaches the step `N` of its loop, with
`remaining` iterations left, in the state `s`, after `N` nonlinear solves. -/
def reaches (r : UpdateResult K X) (m : CMath K) (snes : SNES K X) (eps gamma : K)
    (remaining N : Nat) (s : ContinuationState K X) : Prop :=
  ∃ log : List (LogEntry K), log.length = N ∧
    r = continuation_loop m snes eps gamma remaining N s log

/-- A nonlinear solve reported convergence (`reason > 0`) while the regularization was
equal to the desired value `eps`. -/
def converged_at_target (eps : K) (entry : LogEntry K) : Prop :=
  0 < entry.reason ∧ entry.m_viscosity_eps = eps

/-- A solve ended in a recoverable divergence: its `reason` is not positive and is
`SNES_DIVERGED_LINE_SEARCH` or `SNES_DIVERGED_MAX_IT` (the second branch of the loop of
`update`). -/
def recoverable (snes : SNES K X) (reason : Int) : Prop :=
  reason ≤ 0 ∧
    (reason = snes.SNES_DIVERGED_LINE_SEARCH ∨ reason = snes.SNES_DIVERGED_MAX_IT)

/-- The configurations the loop `for (int N = 0; N < Nc + 1; ++N)` of `update` goes
through when it is started in the state `s0`: `loop_reaches m snes eps gamma s0 N s log`
says that the loop arrives at the top of the iteration `N` in the state `s`, after the
nonlinear solves recorded in `log`. -/
inductive loop_reaches (m : CMath K) (snes : SNES K X) (eps gamma : K)
    (s0 : ContinuationState K X) :
    Nat → ContinuationState K X → List (LogEntry K) → Prop where
  | start : loop_reaches m snes eps gamma s0 0 s0 []
  | step (N : Nat) (s s' : ContinuationState K X) (log : List (LogEntry K)) :
    loop_reaches m snes eps gamma s0 N s log → N < Nc + 1 →
    (continuation_step m snes eps gamma N s).1 = StepOutcome.next s' →
    loop_reaches m snes eps gamma s0 (N + 1) s'
      (log ++ [(continuation_step m snes eps gamma N s).2])

end continuation

/-! ## Vertically averaged velocity: `Blatter::compute_averaged_velocity` -/

/-- The fields of `Vector2`. -/
structure Vector2 (K : Type) where
  u : K
  v : K

section averaged_velocity

variable {K : Type} [LinearOrderedField K]

/-- `Vector2::operator+`. -/
def Vector2.add (a b : Vector2 K) : Vector2 K := ⟨a.u + b.u, a.v + b.v⟩

/-- `Vector2::operator*=` with a scalar. -/
def Vector2.scale (a : Vector2 K) (c : K) : Vector2 K := ⟨a.u * c, a.v * c⟩

/-- The body of the loop `for (Points p(*m_grid); p; p.next())` of
`compute_averaged_velocity` up to the assignment `result(i, j) = V`: the value `V`
computed from the thickness `H` and the velocities `x k = x[j][i][k]` at the `Mz` levels
of the column. -/
def averaged_velocity_column (Mz : Int) (H : K) (x : Nat → Vector2 K) : Vector2 K :=
  let V : Vector2 K := ⟨0, 0⟩
  if H > 0 then
    -- use trapezoid rule to compute the column average
    let dz := H / ((Mz - 1 : Int) : K)
    let V := (List.range (Mz - 1).toNat).foldl
      (fun V k => V.add ((x k).add (x (k + 1)))) V
    V.scale ((1 / 2 * dz) / H)
  else V

/-- `Blatter::compute_averaged_velocity(IceModelVec2V &result)`: the new value of
`result`. `grid` is `m_grid`, `Mz` the number of levels of `m_u_sigma`, `x` the array of
the solution vector `m_x` and `ghosts` the values received by
`result.update_ghosts()`; the points visited by `Points` are `points grid 0`. -/
def compute_averaged_velocity (grid : IceGrid) (Mz : Int)
    (m_parameters : IceModelVec2 (Parameters K)) (x : Int → Int → Nat → Vector2 K)
    (result ghosts : IceModelVec2 (Vector2 K)) : IceModelVec2 (Vector2 K) :=
  let result := (points grid 0).foldl
    (fun result p =>
      let i := p.1
      let j := p.2
      let H := (m_parameters.get i j).thickness
      result.set i j (averaged_velocity_column Mz H (x j i)))
    result
  grid_update_ghosts grid result ghosts

end averaged_velocity

/-! ## Concrete inputs -/

/-- A table of face nodes used in concrete evaluations. With the nodes of an element
numbered as in `i_offset`, `j_offset` ("lower 4 first, then upper 4"), the 4 lateral faces
are: face 0 (`x` = left) with the nodes 3, 0, 4, 7; face 1 (right) with 1, 2, 6, 5;
face 2 (front) with 0, 1, 5, 4; face 3 (back) with 2, 3, 7, 6. -/
def test_incident_nodes (face n : Nat) : Nat :=
  (([[3, 0, 4, 7], [1, 2, 6, 5], [0, 1, 5, 4], [2, 3, 7, 6]] : List (List Nat)).getD
    face []).getD n 0

/-- Elevations of the nodes of an element whose lower 4 nodes are exactly at sea level
(elevation 0) and whose upper 4 nodes are 100 m above it. -/
def test_z (k : Nat) : ℚ := if k < 4 then 0 else 100

/-- A solver stub with PETSc's values `SNES_DIVERGED_LINE_SEARCH = -6` and
`SNES_DIVERGED_MAX_IT = -5` and the iteration limit 50 that always reports convergence
(`SNES_CONVERGED_FNORM_RELATIVE = 3`) with `iterations_used = 0` and leaves the vector
unchanged. -/
def stub_converges (K : Type) : SNES K Int :=
  ⟨-6, -5, 50, fun _ _ _ x => ⟨3, 0, x⟩⟩

/-- A solver stub that reports a line search failure with the vector changed to
`x + 1` at step 0, and convergence in 7 iterations at every later step. -/
def stub_fails_first (K : Type) : SNES K Int :=
  ⟨-6, -5, 50, fun N _ _ x => if N = 0 then ⟨-6, 50, x + 1⟩ else ⟨3, 7, x⟩⟩

/-- A solver stub that always stops at the iteration limit (`SNES_DIVERGED_MAX_IT`), with
the vector changed to `x + 1`. -/
def stub_diverges (K : Type) : SNES K Int :=
  ⟨-6, -5, 50, fun _ _ _ x => ⟨-5, 50, x + 1⟩⟩

/-- A solver stub whose inner linear solve always breaks down
(`SNES_DIVERGED_LINEAR_SOLVE = -3`), with the vector changed to `x + 1`. -/
def stub_linear_solve_fails (K : Type) : SNES K Int :=
  ⟨-6, -5, 50, fun _ _ _ x => ⟨-3, 2, x + 1⟩⟩

/-- A solver stub that fails with a line search failure at the even steps `N = 0, 2, ...`
and converges with `iterations_used = 0` at the odd steps, leaving the vector
unchanged. -/
def stub_alternating (K : Type) : SNES K Int :=
  ⟨-6, -5, 50, fun N _ _ x => if N % 2 = 0 then ⟨-6, 50, x⟩ else ⟨3, 0, x⟩⟩

/-- A solver stub for a target problem that cannot be solved: it converges with
`iterations_used = 0` for every `lambda < 1` and fails with a line search failure for
`lambda ≥ 1`, leaving the vector unchanged. -/
def stub_target_diverges (K : Type) [LinearOrderedField K] : SNES K Int :=
  ⟨-6, -5, 50, fun _ lambda _ x => if lambda < 1 then ⟨3, 0, x⟩ else ⟨-6, 50, x⟩⟩

/-- A solver stub that fails with a line search failure at every `lambda > lambda_min`
and converges in 5 iterations otherwise, leaving the vector unchanged. -/
def stub_backoff (K : Type) [LinearOrderedField K] : SNES K Int :=
  ⟨-6, -5, 50, fun _ lambda _ x => if lambda_min < lambda then ⟨-6, 50, x⟩ else ⟨3, 5, x⟩⟩

/-- A solver stub that converges in 5 iterations for `lambda ≤ 0.9` and stops at the
iteration limit for `lambda > 0.9`, leaving the vector unchanged. -/
def stub_converges_below (K : Type) [LinearOrderedField K] : SNES K Int :=
  ⟨-6, -5, 50, fun _ lambda _ x => if lambda ≤ 9 / 10 then ⟨3, 5, x⟩ else ⟨-5, 50, x⟩⟩

/-- A computable stand-in for `<cmath>` on rational numbers, used in concrete
evaluations: `floor` is exact, `log10` is rounded down to an integer and the exponent of
`pow` is rounded up to an integer. -/
def test_cmath : CMath ℚ :=
  ⟨fun x y => x ^ ⌈y⌉, fun x => (Int.log 10 x : ℚ), fun x => (⌊x⌋ : ℚ)⟩

/-- A 2 × 2 patch of the PISM grid. -/
def test_grid : IceGrid := ⟨0, 2, 0, 2⟩

/-- A 2D field of integers that is zero everywhere. -/
def test_zero : IceModelVec2 Int := ⟨fun _ _ => 0⟩

/-- The values of `NodeType` used in concrete evaluations. -/
def test_node_types : NodeTypeValues := ⟨-1, 0, 1⟩

/-- A 5 × 5 patch owned by a single process (no ghosts: a grid that is not periodic). -/
def test_info : DMDALocalInfo := ⟨0, 0, 5, 5, 0, 0, 5, 5⟩

/-- Thickness 100 at the 9 nodes `1 ≤ i, j ≤ 3`, no ice elsewhere. -/
def test_parameters : IceModelVec2 (Parameters Int) :=
  ⟨fun i j => ⟨0, if 1 ≤ i ∧ i ≤ 3 ∧ 1 ≤ j ∧ j ≤ 3 then 100 else 0, 0, 0, 7, 0⟩⟩

/-- The double nearest to `1e-7`: the value of the configuration parameter
`flow_law.Schoof_regularizing_velocity` given as `1e-7`. -/
def test_schoofVel : ℚ := 944473296573929 / 2 ^ 73

/-- The values returned in IEEE double precision by `std::pow` and `std::log10` at the
arguments that occur in `update` when `schoofVel / schoofLen` is the double nearest to
`1e-7`: `pow(1e-7, 2.0) = 9.999999999999998e-15`, the `log10` of this number is `-14.0`
and `pow(10.0, -14.0)` is the double nearest to `1e-14`, which is one unit in the last
place above the former. At other arguments the functions are those of `test_cmath`. -/
def test_cmath_double : CMath ℚ :=
  ⟨fun x y =>
      if x = 944473296573929 / 2 ^ 73 ∧ y = 2 then 3169126500570573 / 2 ^ 98
      else if x = 10 ∧ y = -14 then 6338253001141147 / 2 ^ 99
      else x ^ ⌈y⌉,
    fun x => if x = 3169126500570573 / 2 ^ 98 then -14 else (Int.log 10 x : ℚ),
    fun x => (⌊x⌋ : ℚ)⟩

/-- Thickness 100 at every node. -/
def test_all_icy : IceModelVec2 (Parameters Int) := ⟨fun _ _ => ⟨0, 100, 0, 0, 7, 0⟩⟩

/-- Thickness 1000 at every node. -/
def test_thick_parameters : IceModelVec2 (Parameters ℚ) :=
  ⟨fun _ _ => ⟨0, 1000, 0, 0, 0, 0⟩⟩

/-- A velocity that grows linearly with the level `k`: `(k, 2 k)` in every column. -/
def test_velocity (j i : Int) (k : Nat) : Vector2 ℚ := ⟨k, 2 * k⟩

/-- A 2D vector field that is zero everywhere. -/
def test_zero_velocity : IceModelVec2 (Vector2 ℚ) := ⟨fun _ _ => ⟨0, 0⟩⟩

end Blatter

/-! # The two-block vector of the inverse problem: `src/inverse/IPTwoBlockVec.cc`

A PETSc vector is modelled as seen by one process, by its ownership range and its entries
(exact values, no communication); `VecScatter` with `INSERT_VALUES` copies the entries of
one index set to the entries of the other, without checking the sizes of the vectors. -/

namespace pism

/-- A PETSc vector `Vec` as seen by one process: its ownership range `[lo, hi)`
(`VecGetOwnershipRange`), its global size (`VecGetSize`) and its entries by global
index. -/
structure Vec (K : Type) where
  lo : Int
  hi : Int
  size : Int
  get : Int → K

/-- Assignment of the value `c` to the entry `i` of a vector (`INSERT_VALUES`). -/
def Vec.set {K : Type} (v : Vec K) (i : Int) (c : K) : Vec K :=
  { v with get := fun k => if k = i then c else v.get k }

/-- `ISCreateStride(comm, n, first, step, &is)`: the index set `first`, `first + step`,
..., of `n` indices. -/
def ISCreateStride (n first step : Int) : List Int :=
  (List.range n.toNat).map (fun (k : Nat) => first + (k : Int) * step)

/-- A PETSc `VecScatter` created by `VecScatterCreate(x, ix, y, iy, &scatter)`: the entry
`ix[k]` of `x` corresponds to the entry `iy[k]` of `y`. -/
structure VecScatter where
  ix : List Int
  iy : List Int

/-- `VecScatterCreate(x, ix, y, iy, &scatter)`. -/
def VecScatterCreate (ix iy : List Int) : VecScatter := ⟨ix, iy⟩

/-- `VecScatterBegin(scatter, x, y, INSERT_VALUES, SCATTER_FORWARD)` followed by
`VecScatterEnd`: `y[iy[k]] = x[ix[k]]`; the new value of `y`. -/
def VecScatterForward {K : Type} (scatter : VecScatter) (x y : Vec K) : Vec K :=
  (List.zip scatter.ix scatter.iy).foldl (fun y p => y.set p.2 (x.get p.1)) y

/-- `VecScatterBegin(scatter, x, y, INSERT_VALUES, SCATTER_REVERSE)` followed by
`VecScatterEnd`: the index sets exchange their roles, `y[ix[k]] = x[iy[k]]`; the new value
of `y`. -/
def VecScatterReverse {K : Type} (scatter : VecScatter) (x y : Vec K) : Vec K :=
  (List.zip scatter.ix scatter.iy).foldl (fun y p => y.set p.1 (x.get p.2)) y

/-- The data members of `class IPTwoBlockVec`. -/
structure IPTwoBlockVec (K : Type) where
  m_ab : Vec K
  m_na_local : Int
  m_na_global : Int
  m_nb_local : Int
  m_nb_global : Int
  m_a_in_ab : List Int
  m_b_in_ab : List Int
  m_scatter_a : VecScatter
  m_scatter_b : VecScatter

section two_block

variable {K : Type}

/-- `IPTwoBlockVec::construct(Vec a, Vec b)`. The vector `m_ab` made by `VecCreate` and
`VecSetSizes` has the local size `m_na_local + m_nb_local`, so its ownership range starts
at `lo_a + lo_b`; `ab0` are its initial entries. -/
def IPTwoBlockVec.construct (a b : Vec K) (ab0 : Int → K) : IPTwoBlockVec K :=
  let lo_a := a.lo
  let hi_a := a.hi
  let m_na_global := a.size
  let m_na_local := hi_a - lo_a
  let lo_b := b.lo
  let hi_b := b.hi
  let m_nb_global := b.size
  let m_nb_local := hi_b - lo_b
  -- a in a
  let is_a := ISCreateStride m_na_local lo_a 1
  -- a in ab
  let m_a_in_ab := ISCreateStride m_na_local (lo_a + lo_b) 1
  -- b in b
  let is_b := ISCreateStride m_nb_local lo_b 1
  -- b in ab
  let m_b_in_ab := ISCreateStride m_nb_local (lo_a + lo_b + m_na_local) 1
  let m_ab : Vec K :=
    ⟨lo_a + lo_b, lo_a + lo_b + (m_na_local + m_nb_local), m_na_global + m_nb_global, ab0⟩
  let m_scatter_a := VecScatterCreate m_a_in_ab is_a
  let m_scatter_b := VecScatterCreate m_b_in_ab is_b
  ⟨m_ab, m_na_local, m_na_global, m_nb_local, m_nb_global, m_a_in_ab, m_b_in_ab,
    m_scatter_a, m_scatter_b⟩

/-- `IPTwoBlockVec::scatterToA(Vec ab, Vec a)`: the new value of `a`. -/
def IPTwoBlockVec.scatterToA_ab (t : IPTwoBlockVec K) (ab a : Vec K) : Vec K :=
  VecScatterForward t.m_scatter_a ab a

/-- `IPTwoBlockVec::scatterToB(Vec ab, Vec b)`: the new value of `b`. -/
def IPTwoBlockVec.scatterToB_ab (t : IPTwoBlockVec K) (ab b : Vec K) : Vec K :=
  VecScatterForward t.m_scatter_b ab b

/-- `IPTwoBlockVec::scatter(Vec a, Vec b)`: the new values of `a` and `b`. -/
def IPTwoBlockVec.scatter (t : IPTwoBlockVec K) (a b : Vec K) : Vec K × Vec K :=
  (t.scatterToA_ab t.m_ab a, t.scatterToB_ab t.m_ab b)

/-- `IPTwoBlockVec::scatterToA(Vec a)`: the new value of `a`. -/
def IPTwoBlockVec.scatterToA (t : IPTwoBlockVec K) (a : Vec K) : Vec K :=
  t.scatterToA_ab t.m_ab a

/-- `IPTwoBlockVec::scatterToB(Vec b)`: the new value of `b`. -/
def IPTwoBlockVec.scatterToB (t : IPTwoBlockVec K) (b : Vec K) : Vec K :=
  t.scatterToB_ab t.m_ab b

/-- `IPTwoBlockVec::scatter(Vec ab, Vec a, Vec b)`: the new values of `a` and `b`. -/
def IPTwoBlockVec.scatter_ab (t : IPTwoBlockVec K) (ab a b : Vec K) : Vec K × Vec K :=
  (t.scatterToA_ab ab a, t.scatterToB_ab ab b)

/-- `IPTwoBlockVec::gatherFromA(Vec a, Vec ab)`: the new value of `ab`. -/
def IPTwoBlockVec.gatherFromA_ab (t : IPTwoBlockVec K) (a ab : Vec K) : Vec K :=
  VecScatterReverse t.m_scatter_a a ab

/-- `IPTwoBlockVec::gatherFromB(Vec b, Vec ab)`: the new value of `ab`. -/
def IPTwoBlockVec.gatherFromB_ab (t : IPTwoBlockVec K) (b ab : Vec K) : Vec K :=
  VecScatterReverse t.m_scatter_b b ab

/-- `IPTwoBlockVec::gather(Vec a, Vec b)`: the object with the new value of `m_ab`. -/
def IPTwoBlockVec.gather (t : IPTwoBlockVec K) (a b : Vec K) : IPTwoBlockVec K :=
  let t := { t with m_ab := t.gatherFromA_ab a t.m_ab }
  { t with m_ab := t.gatherFromB_ab b t.m_ab }

/-- `IPTwoBlockVec::gatherFromA(Vec a)`: the object with the new value of `m_ab`. -/
def IPTwoBlockVec.gatherFromA (t : IPTwoBlockVec K) (a : Vec K) : IPTwoBlockVec K :=
  { t with m_ab := t.gatherFromA_ab a t.m_ab }

/-- `IPTwoBlockVec::gatherFromB(Vec b)`, whose body is `this->gatherFromA(b,m_ab)`: the
object with the new value of `m_ab`. -/
def IPTwoBlockVec.gatherFromB (t : IPTwoBlockVec K) (b : Vec K) : IPTwoBlockVec K :=
  { t with m_ab := t.gatherFromA_ab b t.m_ab }

/-- `IPTwoBlockVec::gather(Vec a, Vec b, Vec ab)`: the new value of `ab`. -/
def IPTwoBlockVec.gather_ab (t : IPTwoBlockVec K) (a b ab : Vec K) : Vec K :=
  let ab := t.gatherFromA_ab a ab
  t.gatherFromB_ab b ab

end two_block

/-- A vector of 2 entries owned by a single process. -/
def test_vec (x0 x1 : Int) : Vec Int := ⟨0, 2, 2, fun k => [x0, x1].getD k.toNat 0⟩

/-- The two-block vector made from two vectors of 2 entries each, with `m_ab` filled with
zeros. -/
def test_two_block : IPTwoBlockVec Int :=
  IPTwoBlockVec.construct (test_vec 0 0) (test_vec 0 0) (fun _ => 0)

/-- The first `n` entries of a vector. -/
def Vec.entries {K : Type} (v : Vec K) (n : Nat) : List K :=
  (List.range n).map (fun (k : Nat) => v.get (k : Int))

end pism

namespace Blatter

section predicates_thms

variable {K : Type} [LinearOrder K]

theorem range_four : List.range 4 = [0, 1, 2, 3] := by decide

theorem lt_four_iff (n : Nat) : n < 4 ↔ n = 0 ∨ n = 1 ∨ n = 2 ∨ n = 3 := by omega

theorem exists_lt_four (p : Nat → Prop) :
    (∃ n, n < 4 ∧ p n) ↔ p 0 ∨ p 1 ∨ p 2 ∨ p 3 := by
  constructor
  · rintro ⟨n, hn, h⟩
    rcases (lt_four_iff n).1 hn with rfl | rfl | rfl | rfl <;> simp [h]
  · rintro (h | h | h | h)
    exacts [⟨0, by norm_num, h⟩, ⟨1, by norm_num, h⟩, ⟨2, by norm_num, h⟩,
      ⟨3, by norm_num, h⟩]

theorem forall_lt_four (p : Nat → Prop) :
    (∀ n, n < 4 → p n) ↔ p 0 ∧ p 1 ∧ p 2 ∧ p 3 := by
  constructor
  · intro h
    exact ⟨h 0 (by norm_num), h 1 (by norm_num), h 2 (by norm_num), h 3 (by norm_num)⟩
  · rintro ⟨h0, h1, h2, h3⟩ n hn
    rcases (lt_four_iff n).1 hn with rfl | rfl | rfl | rfl <;> assumption

/-- C2: for every face and all arrays, `marine_boundary` returns true iff all 4 nodes
incident to the face are `NODE_BOUNDARY` and at least one of them has `ice_bottom`
strictly below `sea_level`; it returns false whenever one of the 4 face nodes is not
`NODE_BOUNDARY`, whatever the elevations are. -/
theorem marine_boundary_iff (NODE_BOUNDARY : Int) (incident_nodes : Nat → Nat → Nat)
    (face : Nat) (node_type : Nat → Int) (ice_bottom sea_level : Nat → K) :
    (marine_boundary NODE_BOUNDARY incident_nodes face node_type ice_bottom sea_level = true
      ↔ (∀ n, n < 4 → node_type (incident_nodes face n) = NODE_BOUNDARY) ∧
        (∃ n, n < 4 ∧
          ice_bottom (incident_nodes face n) < sea_level (incident_nodes face n))) ∧
    ((∃ n, n < 4 ∧ node_type (incident_nodes face n) ≠ NODE_BOUNDARY) →
      ∀ ice_bottom' sea_level' : Nat → K,
        marine_boundary NODE_BOUNDARY incident_nodes face node_type ice_bottom' sea_level'
          = false) := by
  have key : ∀ (ib sl : Nat → K),
      (marine_boundary NODE_BOUNDARY incident_nodes face node_type ib sl = true
      ↔ (∀ n, n < 4 → node_type (incident_nodes face n) = NODE_BOUNDARY) ∧
        (∃ n, n < 4 ∧ ib (incident_nodes face n) < sl (incident_nodes face n))) := by
    intro ib sl
    simp only [marine_boundary, List.any_eq_true, List.mem_range, Bool.not_eq_true',
      decide_eq_false_iff_not, decide_eq_true_eq]
    by_cases h1 : ∃ x, x < 4 ∧ ¬ node_type (incident_nodes face x) = NODE_BOUNDARY
    · simp only [h1, if_true, Bool.false_eq_true, false_iff, not_and]
      intro h
      obtain ⟨x, hx, hne⟩ := h1
      exact absurd (h x hx) hne
    · simp only [h1, if_false]
      push_neg at h1
      by_cases h2 : ∃ x, x < 4 ∧ ib (incident_nodes face x) < sl (incident_nodes face x)
      · simp only [h2, if_true, true_iff, and_true]
        exact h1
      · simp [h2]
  refine ⟨key ice_bottom sea_level, ?_⟩
  rintro ⟨n, hn, hne⟩ ib sl
  rw [← Bool.not_eq_true, key]
  intro h
  exact hne (h.1 n hn)

/-- C3: `grounding_line F` is true iff among the first 4 entries of `F` at least one is
`≤ 0` and at least one is `> 0`; it is false when all 4 are `≤ 0` and when all 4 are
`> 0`; the entries with indices 4 and above do not influence the result. -/
theorem grounding_line_iff [Zero K] (F : Nat → K) :
    (grounding_line F = true ↔ (∃ n, n < 4 ∧ F n ≤ 0) ∧ (∃ n, n < 4 ∧ 0 < F n)) ∧
    ((∀ n, n < 4 → F n ≤ 0) → grounding_line F = false) ∧
    ((∀ n, n < 4 → 0 < F n) → grounding_line F = false) ∧
    (∀ G : Nat → K, grounding_line (fun n => if n < 4 then F n else G n)
      = grounding_line F) := by
  have key : ∀ F : Nat → K,
      (grounding_line F = true ↔ (∃ n, n < 4 ∧ F n ≤ 0) ∧ (∃ n, n < 4 ∧ 0 < F n)) := by
    intro F
    rw [exists_lt_four, exists_lt_four]
    simp only [grounding_line, grounding_line_loop, range_four, List.foldl_cons,
      List.foldl_nil, ← not_le]
    by_cases h0 : F 0 ≤ 0 <;> by_cases h1 : F 1 ≤ 0 <;> by_cases h2 : F 2 ≤ 0 <;>
      by_cases h3 : F 3 ≤ 0 <;> simp [h0, h1, h2, h3]
  refine ⟨key F, ?_, ?_, ?_⟩
  · intro h
    rw [← Bool.not_eq_true, key]
    rintro ⟨-, n, hn, hpos⟩
    exact absurd (h n hn) (not_le.2 hpos)
  · intro h
    rw [← Bool.not_eq_true, key]
    rintro ⟨⟨n, hn, hle⟩, -⟩
    exact absurd hle (not_le.2 (h n hn))
  · intro G
    rw [Bool.eq_iff_iff, key, key]
    constructor
    · rintro ⟨⟨n, hn, h1⟩, ⟨m, hm, h2⟩⟩
      rw [if_pos hn] at h1
      rw [if_pos hm] at h2
      exact ⟨⟨n, hn, h1⟩, ⟨m, hm, h2⟩⟩
    · rintro ⟨⟨n, hn, h1⟩, ⟨m, hm, h2⟩⟩
      exact ⟨⟨n, hn, by rw [if_pos hn]; exact h1⟩, ⟨m, hm, by rw [if_pos hm]; exact h2⟩⟩

/-- C4 (amended): `partially_submerged_face` is true iff at least one of the 4 nodes
incident to the face has `z > sea_level` and at least one has `z ≤ sea_level`: a node
whose elevation is exactly at sea level counts as below. -/
theorem partially_submerged_face_iff (incident_nodes : Nat → Nat → Nat) (face : Nat)
    (z sea_level : Nat → K) :
    partially_submerged_face incident_nodes face z sea_level = true ↔
      (∃ n, n < 4 ∧ z (incident_nodes face n) > sea_level (incident_nodes face n)) ∧
      (∃ n, n < 4 ∧ z (incident_nodes face n) ≤ sea_level (incident_nodes face n)) := by
  rw [exists_lt_four, exists_lt_four]
  simp only [partially_submerged_face, partially_submerged_face_loop, range_four,
    List.foldl_cons, List.foldl_nil, gt_iff_lt, ← not_lt]
  by_cases h0 : sea_level (incident_nodes face 0) < z (incident_nodes face 0) <;>
    by_cases h1 : sea_level (incident_nodes face 1) < z (incident_nodes face 1) <;>
    by_cases h2 : sea_level (incident_nodes face 2) < z (incident_nodes face 2) <;>
    by_cases h3 : sea_level (incident_nodes face 3) < z (incident_nodes face 3) <;>
    simp [h0, h1, h2, h3]

end predicates_thms

/-! ## Node classification: the loops of `compute_node_type` -/

theorem mem_intRange (a b k : Int) : k ∈ intRange a b ↔ a ≤ k ∧ k < b := by
  unfold intRange
  simp only [List.mem_map, List.mem_range]
  constructor
  · rintro ⟨d, hd, rfl⟩
    have h := Int.lt_toNat.1 hd
    omega
  · rintro ⟨h1, h2⟩
    refine ⟨(k - a).toNat, ?_, ?_⟩
    · apply Int.lt_toNat.2
      rw [Int.toNat_of_nonneg (by omega)]
      omega
    · rw [Int.toNat_of_nonneg (by omega)]
      omega

theorem nodup_intRange (a b : Int) : (intRange a b).Nodup := by
  unfold intRange
  have hinj : Function.Injective (fun d : Nat => a + (d : Int)) := by
    intro x y h
    simpa using h
  exact (List.nodup_range _).map hinj

theorem belongs_iff (p q : Int) (e : Int × Int) :
    belongs p q e ↔ (p = e.1 ∨ p = e.1 + 1) ∧ (q = e.2 ∨ q = e.2 + 1) := by
  unfold belongs
  rw [exists_lt_four]
  simp only [i_offset, j_offset]
  omega

theorem add_to_nodes_get (nt : IceModelVec2 Int) (i j : Int) (b : Bool) (p q : Int) :
    (add_to_nodes nt i j b).get p q
      = nt.get p q + (if b = true ∧ belongs p q (i, j) then 1 else 0) := by
  simp only [belongs_iff]
  simp only [add_to_nodes, range_four, List.foldl_cons, List.foldl_nil, IceModelVec2.set,
    i_offset, j_offset]
  cases b
  · simp only [Bool.false_eq_true, if_false, false_and, add_zero]
    split_ifs <;> first | rfl | (simp_all) | omega
  · simp only [if_true, true_and]
    split_ifs <;> first | omega | (exfalso; omega) | simp_all

section classification_thms

variable {K : Type} [LinearOrder K]

theorem element_interior_iff (P : IceModelVec2 (Parameters K)) (min_thickness : K)
    (e : Int × Int) :
    element_interior (nodal_values P e.1 e.2) min_thickness = true
      ↔ icy P min_thickness e := by
  unfold element_interior icy
  by_cases h : (List.range 4).any
      (fun k => decide ((nodal_values P e.1 e.2 k).thickness < min_thickness)) = true
  · rw [if_pos h]
    simp only [List.any_eq_true, List.mem_range, decide_eq_true_eq] at h
    obtain ⟨k, hk, hlt⟩ := h
    simp only [Bool.false_eq_true, false_iff]
    intro hall
    exact absurd (hall k hk) (not_le.2 hlt)
  · rw [if_neg h]
    simp only [List.any_eq_true, List.mem_range, decide_eq_true_eq, not_exists, not_and,
      not_lt] at h
    simpa using h

/-- The test used to count the icy elements a node `(p, q)` belongs to. -/
theorem inner_count_get (P : IceModelVec2 (Parameters K)) (min_thickness : K) (j : Int)
    (p q : Int) (L : List Int) (nt : IceModelVec2 Int) :
    (L.foldl (fun nt i =>
        add_to_nodes nt i j (element_interior (nodal_values P i j) min_thickness)) nt).get p q
      = nt.get p q + (((L.map (fun i => (i, j))).countP
          (fun e => decide (icy P min_thickness e) && decide (belongs p q e)) : Nat) : Int) := by
  induction L generalizing nt with
  | nil => simp
  | cons i L ih =>
    rw [List.foldl_cons, ih, add_to_nodes_get, List.map_cons, List.countP_cons]
    have h := element_interior_iff P min_thickness (i, j)
    simp only at h
    simp only [h, Bool.and_eq_true, decide_eq_true_eq]
    split_ifs <;> push_cast <;> ring

theorem outer_count_get (P : IceModelVec2 (Parameters K)) (min_thickness : K)
    (I : List Int) (p q : Int) (J : List Int) (nt : IceModelVec2 Int) :
    (J.foldl (fun nt j => I.foldl (fun nt i =>
        add_to_nodes nt i j (element_interior (nodal_values P i j) min_thickness)) nt)
        nt).get p q
      = nt.get p q + (((J.flatMap (fun j => I.map (fun i => (i, j)))).countP
          (fun e => decide (icy P min_thickness e) && decide (belongs p q e)) : Nat) : Int) := by
  induction J generalizing nt with
  | nil => simp
  | cons j J ih =>
    rw [List.foldl_cons, ih, inner_count_get, List.flatMap_cons, List.countP_append]
    push_cast
    ring

theorem count_icy_elements_get (info : DMDALocalInfo) (P : IceModelVec2 (Parameters K))
    (min_thickness : K) (p q : Int) :
    (count_icy_elements info P min_thickness).get p q
      = ((icy_count info P min_thickness p q : Nat) : Int) := by
  unfold count_icy_elements icy_count elements
  rw [outer_count_get, List.countP_eq_length_filter]
  simp

theorem mem_elements (info : DMDALocalInfo) (e : Int × Int) :
    e ∈ elements info ↔
      (info.gxs ≤ e.1 ∧ e.1 < info.gxs + info.gxm - 1) ∧
      (info.gys ≤ e.2 ∧ e.2 < info.gys + info.gym - 1) := by
  obtain ⟨a, b⟩ := e
  unfold elements
  simp only [List.mem_flatMap, List.mem_map, mem_intRange, Prod.mk.injEq]
  constructor
  · rintro ⟨j, hj, i, hi, rfl, rfl⟩
    exact ⟨hi, hj⟩
  · rintro ⟨hi, hj⟩
    exact ⟨b, hj, a, hi, rfl, rfl⟩

theorem nodup_elements (info : DMDALocalInfo) : (elements info).Nodup := by
  have h : elements info
      = ((intRange info.gys (info.gys + info.gym - 1)).product
          (intRange info.gxs (info.gxs + info.gxm - 1))).map Prod.swap := by
    unfold elements List.product
    rw [List.map_flatMap]
    simp [List.map_map, Function.comp_def]
  rw [h]
  exact ((nodup_intRange _ _).product (nodup_intRange _ _)).map Prod.swap_injective

theorem icy_count_le_four (info : DMDALocalInfo) (P : IceModelVec2 (Parameters K))
    (min_thickness : K) (i j : Int) : icy_count info P min_thickness i j ≤ 4 := by
  unfold icy_count
  have hnd := (nodup_elements info).filter
    (fun e => decide (icy P min_thickness e) && decide (belongs i j e))
  have hsub : (elements info).filter
      (fun e => decide (icy P min_thickness e) && decide (belongs i j e))
      ⊆ [(i - 1, j - 1), (i, j - 1), (i - 1, j), (i, j)] := by
    intro e he
    obtain ⟨a, b⟩ := e
    simp only [List.mem_filter, Bool.and_eq_true, decide_eq_true_eq, belongs_iff] at he
    simp only [List.mem_cons, Prod.mk.injEq, List.mem_singleton, List.not_mem_nil, or_false]
    omega
  exact (hnd.subperm hsub).length_le

theorem icy_count_eq_zero_iff (info : DMDALocalInfo) (P : IceModelVec2 (Parameters K))
    (min_thickness : K) (i j : Int) :
    icy_count info P min_thickness i j = 0 ↔
      ∀ e, e ∈ elements info → belongs i j e → ¬ icy P min_thickness e := by
  unfold icy_count
  rw [List.length_eq_zero, List.filter_eq_nil_iff]
  simp only [Bool.and_eq_true, decide_eq_true_eq, not_and]
  constructor
  · intro h e he hb hi
    exact h e he hi hb
  · intro h e he hi hb
    exact h e he hb hi

/-- The inner loop of the second loop of `compute_node_type`. -/
theorem inner_assign_get (v : Int → Int → Int) (j : Int) (a b : Int) (L : List Int)
    (P : IceModelVec2 (Parameters K)) :
    (L.foldl (fun P i => P.set i j { P.get i j with node_type := v i j }) P).get a b
      = if b = j ∧ a ∈ L then { P.get a b with node_type := v a b } else P.get a b := by
  induction L generalizing P with
  | nil => simp
  | cons i L ih =>
    rw [List.foldl_cons, ih]
    simp only [IceModelVec2.set, List.mem_cons]
    by_cases hb : b = j
    · subst hb
      by_cases hai : a = i
      · subst hai
        by_cases hL : a ∈ L <;> simp [hL]
      · by_cases hL : a ∈ L <;> simp [hL, hai]
    · simp [hb]

theorem outer_assign_get (v : Int → Int → Int) (I : List Int) (a b : Int) (J : List Int)
    (P : IceModelVec2 (Parameters K)) :
    (J.foldl (fun P j =>
        I.foldl (fun P i => P.set i j { P.get i j with node_type := v i j }) P) P).get a b
      = if b ∈ J ∧ a ∈ I then { P.get a b with node_type := v a b } else P.get a b := by
  induction J generalizing P with
  | nil => simp
  | cons j J ih =>
    rw [List.foldl_cons, ih, inner_assign_get]
    simp only [List.mem_cons]
    by_cases hI : a ∈ I
    · by_cases hb : b = j
      · subst hb
        by_cases hJ : b ∈ J <;> simp [hJ, hI]
      · by_cases hJ : b ∈ J <;> simp [hJ, hI, hb]
    · simp [hI]

/-- The effect of `compute_node_type` on one entry of `m_parameters`. -/
theorem compute_node_type_get (T : NodeTypeValues) (info : DMDALocalInfo)
    (P : IceModelVec2 (Parameters K)) (min_thickness : K) (ghosts : IceModelVec2 Int)
    (i j : Int) :
    (compute_node_type T info P min_thickness ghosts).get i j
      = if owned info i j then
          { P.get i j with
            node_type := node_type_of_count T (icy_count info P min_thickness i j : Nat) }
        else P.get i j := by
  unfold compute_node_type
  simp only []
  rw [outer_assign_get (fun i j => node_type_of_count T
    ((update_ghosts info (count_icy_elements info P min_thickness) ghosts).get i j))]
  simp only [mem_intRange]
  by_cases h : owned info i j
  · have h' := h
    unfold owned at h'
    rw [if_pos h, if_pos ⟨h'.2, h'.1⟩]
    simp only [update_ghosts, if_pos h, count_icy_elements_get]
  · have h' := h
    unfold owned at h'
    rw [if_neg h, if_neg (fun hh => h' ⟨hh.2, hh.1⟩)]

/-- C1: `compute_node_type` treats an element as icy iff all 4 of its map-plane nodes have
thickness `≥ min_thickness`, and classifies every owned node by the number of icy
elements it belongs to (a number between 0 and 4): 4 gives `NODE_INTERIOR`, 0 gives
`NODE_EXTERIOR`, any other count gives `NODE_BOUNDARY`. -/
theorem compute_node_type_classifies (T : NodeTypeValues) (info : DMDALocalInfo)
    (P : IceModelVec2 (Parameters K)) (min_thickness : K) (ghosts : IceModelVec2 Int)
    (i j : Int) (h : owned info i j) :
    (∀ e : Int × Int, element_interior (nodal_values P e.1 e.2) min_thickness = true ↔
      ∀ k, k < 4 → min_thickness ≤ (P.get (e.1 + i_offset k) (e.2 + j_offset k)).thickness) ∧
    icy_count info P min_thickness i j ≤ 4 ∧
    (icy_count info P min_thickness i j = 4 →
      ((compute_node_type T info P min_thickness ghosts).get i j).node_type
        = T.NODE_INTERIOR) ∧
    (icy_count info P min_thickness i j = 0 →
      ((compute_node_type T info P min_thickness ghosts).get i j).node_type
        = T.NODE_EXTERIOR) ∧
    (icy_count info P min_thickness i j ≠ 4 → icy_count info P min_thickness i j ≠ 0 →
      ((compute_node_type T info P min_thickness ghosts).get i j).node_type
        = T.NODE_BOUNDARY) := by
  refine ⟨fun e => element_interior_iff P min_thickness e,
    icy_count_le_four info P min_thickness i j, ?_, ?_, ?_⟩
  · intro hc
    rw [compute_node_type_get, if_pos h, hc]
    simp [node_type_of_count]
  · intro hc
    rw [compute_node_type_get, if_pos h, hc]
    simp [node_type_of_count]
  · intro h4 h0
    rw [compute_node_type_get, if_pos h]
    have h4' : ((icy_count info P min_thickness i j : Nat) : Int) ≠ 4 := by
      intro hh
      exact h4 (by exact_mod_cast hh)
    have h0' : ((icy_count info P min_thickness i j : Nat) : Int) ≠ 0 := by
      intro hh
      exact h0 (by exact_mod_cast hh)
    simp [node_type_of_count, h4', h0']

theorem icy_congr (P P' : IceModelVec2 (Parameters K)) (min_thickness : K)
    (h : ∀ a b, (P'.get a b).thickness = (P.get a b).thickness) (e : Int × Int) :
    icy P' min_thickness e ↔ icy P min_thickness e := by
  unfold icy nodal_values
  simp only [h]

theorem icy_count_congr (info : DMDALocalInfo) (P P' : IceModelVec2 (Parameters K))
    (min_thickness : K) (h : ∀ a b, (P'.get a b).thickness = (P.get a b).thickness)
    (i j : Int) :
    icy_count info P' min_thickness i j = icy_count info P min_thickness i j := by
  unfold icy_count
  congr 1
  apply List.filter_congr
  intro e _
  simp only [icy_congr P P' min_thickness h e]

theorem compute_node_type_thickness (T : NodeTypeValues) (info : DMDALocalInfo)
    (P : IceModelVec2 (Parameters K)) (min_thickness : K) (ghosts : IceModelVec2 Int)
    (i j : Int) :
    ((compute_node_type T info P min_thickness ghosts).get i j).thickness
      = (P.get i j).thickness := by
  rw [compute_node_type_get]
  split_ifs <;> rfl

/-- C6: classification is idempotent. Running `compute_node_type` a second time with the
same threshold yields, at every node, the same entry of `m_parameters` as the first run;
and at every owned node the resulting node type does not depend on the node types `old`
stored before the call. -/
theorem compute_node_type_idempotent (T : NodeTypeValues) (info : DMDALocalInfo)
    (P : IceModelVec2 (Parameters K)) (min_thickness : K)
    (ghosts ghosts' : IceModelVec2 Int) (i j : Int) :
    (compute_node_type T info (compute_node_type T info P min_thickness ghosts)
        min_thickness ghosts').get i j
      = (compute_node_type T info P min_thickness ghosts).get i j ∧
    ∀ old : IceModelVec2 Int, owned info i j →
      ((compute_node_type T info ⟨fun a b => { P.get a b with node_type := old.get a b }⟩
          min_thickness ghosts').get i j).node_type
        = ((compute_node_type T info P min_thickness ghosts).get i j).node_type := by
  constructor
  · rw [compute_node_type_get T info (compute_node_type T info P min_thickness ghosts)]
    rw [icy_count_congr info P _ min_thickness
      (compute_node_type_thickness T info P min_thickness ghosts)]
    rw [compute_node_type_get]
    split_ifs <;> rfl
  · intro old h
    have hc := icy_count_congr info P
      ⟨fun a b => { P.get a b with node_type := old.get a b }⟩ min_thickness
      (fun _ _ => rfl) i j
    rw [compute_node_type_get, compute_node_type_get, if_pos h, if_pos h]
    simp only [hc]

theorem icy_count_le_element_count (info : DMDALocalInfo) (P : IceModelVec2 (Parameters K))
    (min_thickness : K) (i j : Int) :
    icy_count info P min_thickness i j ≤ element_count info i j := by
  unfold icy_count element_count
  apply List.Sublist.length_le
  apply List.monotone_filter_right
  intro e h
  simp only [Bool.and_eq_true, decide_eq_true_eq] at h ⊢
  exact h.2

/-- A node on the edge of the ghosted patch belongs to at most 2 elements. -/
theorem element_count_le_two (info : DMDALocalInfo) (i j : Int)
    (hedge : i = info.gxs ∨ i = info.gxs + info.gxm - 1 ∨
      j = info.gys ∨ j = info.gys + info.gym - 1) :
    element_count info i j ≤ 2 := by
  unfold element_count
  have hnd := (nodup_elements info).filter (fun e => decide (belongs i j e))
  rcases hedge with h | h | h | h
  · have hsub : (elements info).filter (fun e => decide (belongs i j e))
        ⊆ [(i, j - 1), (i, j)] := by
      intro e he
      obtain ⟨a, b⟩ := e
      simp only [List.mem_filter, decide_eq_true_eq, belongs_iff, mem_elements] at he
      simp only [List.mem_cons, Prod.mk.injEq, List.mem_singleton, List.not_mem_nil, or_false]
      omega
    exact (hnd.subperm hsub).length_le
  · have hsub : (elements info).filter (fun e => decide (belongs i j e))
        ⊆ [(i - 1, j - 1), (i - 1, j)] := by
      intro e he
      obtain ⟨a, b⟩ := e
      simp only [List.mem_filter, decide_eq_true_eq, belongs_iff, mem_elements] at he
      simp only [List.mem_cons, Prod.mk.injEq, List.mem_singleton, List.not_mem_nil, or_false]
      omega
    exact (hnd.subperm hsub).length_le
  · have hsub : (elements info).filter (fun e => decide (belongs i j e))
        ⊆ [(i - 1, j), (i, j)] := by
      intro e he
      obtain ⟨a, b⟩ := e
      simp only [List.mem_filter, decide_eq_true_eq, belongs_iff, mem_elements] at he
      simp only [List.mem_cons, Prod.mk.injEq, List.mem_singleton, List.not_mem_nil, or_false]
      omega
    exact (hnd.subperm hsub).length_le
  · have hsub : (elements info).filter (fun e => decide (belongs i j e))
        ⊆ [(i - 1, j - 1), (i, j - 1)] := by
      intro e he
      obtain ⟨a, b⟩ := e
      simp only [List.mem_filter, decide_eq_true_eq, belongs_iff, mem_elements] at he
      simp only [List.mem_cons, Prod.mk.injEq, List.mem_singleton, List.not_mem_nil, or_false]
      omega
    exact (hnd.subperm hsub).length_le

/-- A node of a ghosted patch with at least 2 nodes in each direction belongs to an
element of the patch. -/
theorem exists_element_of_node (info : DMDALocalInfo) (i j : Int)
    (hx : 2 ≤ info.gxm) (hy : 2 ≤ info.gym)
    (hi : info.gxs ≤ i ∧ i < info.gxs + info.gxm)
    (hj : info.gys ≤ j ∧ j < info.gys + info.gym) :
    ∃ e, e ∈ elements info ∧ belongs i j e := by
  refine ⟨(if i = info.gxs then i else i - 1, if j = info.gys then j else j - 1), ?_, ?_⟩
  · rw [mem_elements]
    simp only []
    split_ifs <;> omega
  · rw [belongs_iff]
    simp only []
    split_ifs <;> omega

/-- C24: a node on the edge of the domain of a grid that is not periodic is a node on the
edge of the ghosted patch (the ghosted patch of a DMDA ends at the domain edge), so that
the loop over the elements visits at most 2 elements it belongs to; hence its number of
icy elements is at most 2, `compute_node_type` never sets its type to `NODE_INTERIOR`
(the three values of `NodeType` being different), and if the thickness is
`≥ min_thickness` at every node (on a patch with at least 2 nodes in each direction) its
type is `NODE_BOUNDARY`. -/
theorem compute_node_type_domain_edge (T : NodeTypeValues) (info : DMDALocalInfo)
    (P : IceModelVec2 (Parameters K)) (min_thickness : K) (ghosts : IceModelVec2 Int)
    (i j : Int) (h : owned info i j)
    (hedge : i = info.gxs ∨ i = info.gxs + info.gxm - 1 ∨
      j = info.gys ∨ j = info.gys + info.gym - 1) :
    element_count info i j ≤ 2 ∧
    icy_count info P min_thickness i j ≤ 2 ∧
    (T.NODE_INTERIOR ≠ T.NODE_BOUNDARY → T.NODE_INTERIOR ≠ T.NODE_EXTERIOR →
      ((compute_node_type T info P min_thickness ghosts).get i j).node_type
        ≠ T.NODE_INTERIOR) ∧
    ((∀ a b, min_thickness ≤ (P.get a b).thickness) →
      2 ≤ info.gxm → 2 ≤ info.gym →
      (info.gxs ≤ i ∧ i < info.gxs + info.gxm) → (info.gys ≤ j ∧ j < info.gys + info.gym) →
      ((compute_node_type T info P min_thickness ghosts).get i j).node_type
        = T.NODE_BOUNDARY) := by
  have h2 := element_count_le_two info i j hedge
  have hc : icy_count info P min_thickness i j ≤ 2 :=
    le_trans (icy_count_le_element_count info P min_thickness i j) h2
  have hget : ((compute_node_type T info P min_thickness ghosts).get i j).node_type
      = node_type_of_count T (icy_count info P min_thickness i j : Nat) := by
    rw [compute_node_type_get, if_pos h]
  have h4 : ((icy_count info P min_thickness i j : Nat) : Int) ≠ 4 := by omega
  refine ⟨h2, hc, ?_, ?_⟩
  · intro hIB hIE
    rw [hget]
    unfold node_type_of_count
    rw [if_neg h4]
    split_ifs
    · exact fun hh => hIE hh.symm
    · exact fun hh => hIB hh.symm
  · intro hall hx hy hi hj
    rw [hget]
    unfold node_type_of_count
    rw [if_neg h4]
    have h0 : icy_count info P min_thickness i j ≠ 0 := by
      rw [Ne, icy_count_eq_zero_iff]
      intro hnone
      obtain ⟨e, he, hb⟩ := exists_element_of_node info i j hx hy hi hj
      exact hnone e he hb (fun k _ => hall _ _)
    rw [if_neg (by exact_mod_cast h0)]

end classification_thms

/-! ## Grid iterators -/

theorem intRange_cons (a b : Int) (h : a < b) : intRange a b = a :: intRange (a + 1) b := by
  unfold intRange
  have h1 : (b - a).toNat = (b - (a + 1)).toNat + 1 := by omega
  rw [h1, List.range_succ_eq_map, List.map_cons, List.map_map]
  simp only [Nat.cast_zero, add_zero, List.cons.injEq, true_and]
  apply List.map_congr_left
  intro d _
  simp only [Function.comp_apply, Nat.cast_succ]
  ring

theorem intRange_nil (a b : Int) (h : b ≤ a) : intRange a b = [] := by
  unfold intRange
  have h1 : (b - a).toNat = 0 := by omega
  rw [h1]
  rfl

theorem length_intRange (a b : Int) : (intRange a b).length = (b - a).toNat := by
  unfold intRange
  simp

theorem visited_eq_remaining (fuel : Nat) (p : PointsWithGhosts) (hdone : p.m_done = false)
    (hi : p.m_i ≤ p.m_i_last) (hj1 : p.m_j_first ≤ p.m_j) (hj2 : p.m_j ≤ p.m_j_last)
    (hfuel : p.remaining.length ≤ fuel) :
    PointsWithGhosts.visited fuel p = some p.remaining := by
  induction fuel generalizing p with
  | zero =>
    exfalso
    unfold PointsWithGhosts.remaining at hfuel
    rw [intRange_cons p.m_j (p.m_j_last + 1) (by omega)] at hfuel
    simp at hfuel
  | succ fuel ih =>
    unfold PointsWithGhosts.visited
    have hb : p.toBool = true := by simp [PointsWithGhosts.toBool, hdone]
    rw [if_pos hb]
    by_cases hjl : p.m_j < p.m_j_last
    · have hnext : p.next = { p with m_j := p.m_j + 1 } := by
        have h1 : ¬ p.m_j_last < p.m_j + 1 := by omega
        have h2 : ¬ p.m_i_last < p.m_i := by omega
        simp [PointsWithGhosts.next, h1, h2]
      have hrem : p.remaining = (p.m_i, p.m_j) :: p.next.remaining := by
        rw [hnext]
        unfold PointsWithGhosts.remaining
        rw [intRange_cons p.m_j (p.m_j_last + 1) (by omega)]
        rfl
      rw [hrem] at hfuel ⊢
      simp only [List.length_cons, Nat.add_le_add_iff_right] at hfuel
      rw [ih p.next (by rw [hnext]; exact hdone) (by rw [hnext]; exact hi)
        (by rw [hnext]; simp only; omega) (by rw [hnext]; simp only; omega) hfuel]
      rfl
    · have hjeq : p.m_j = p.m_j_last := by omega
      by_cases hil : p.m_i < p.m_i_last
      · have hnext : p.next = { p with m_j := p.m_j_first, m_i := p.m_i + 1 } := by
          have h1 : p.m_j_last < p.m_j + 1 := by omega
          have h2 : ¬ p.m_i_last < p.m_i + 1 := by omega
          simp [PointsWithGhosts.next, h1, h2]
        have hrem : p.remaining = (p.m_i, p.m_j) :: p.next.remaining := by
          rw [hnext]
          unfold PointsWithGhosts.remaining
          rw [intRange_cons p.m_j (p.m_j_last + 1) (by omega),
            intRange_nil (p.m_j + 1) (p.m_j_last + 1) (by omega),
            intRange_cons (p.m_i + 1) (p.m_i_last + 1) (by omega)]
          simp
        rw [hrem] at hfuel ⊢
        simp only [List.length_cons, Nat.add_le_add_iff_right] at hfuel
        rw [ih p.next (by rw [hnext]; exact hdone) (by rw [hnext]; simp only; omega)
          (by rw [hnext]) (by rw [hnext]; simp only; omega) hfuel]
        rfl
      · have hnext : p.next.m_done = true := by
          have h1 : p.m_j_last < p.m_j + 1 := by omega
          have h2 : p.m_i_last < p.m_i + 1 := by omega
          simp [PointsWithGhosts.next, h1, h2]
        have hrem : p.remaining = [(p.m_i, p.m_j)] := by
          unfold PointsWithGhosts.remaining
          rw [intRange_cons p.m_j (p.m_j_last + 1) (by omega),
            intRange_nil (p.m_j + 1) (p.m_j_last + 1) (by omega),
            intRange_nil (p.m_i + 1) (p.m_i_last + 1) (by omega)]
          simp
        have hv : PointsWithGhosts.visited fuel p.next = some [] := by
          cases fuel <;> simp [PointsWithGhosts.visited, PointsWithGhosts.toBool, hnext]
        rw [hrem, hv]
        rfl

theorem remaining_new (g : IceGrid) (w : Nat) (hxm : 1 ≤ g.xm) :
    (PointsWithGhosts.new g w).remaining = points g w := by
  unfold PointsWithGhosts.remaining PointsWithGhosts.new points
  simp only []
  rw [intRange_cons (g.xs - w) (g.xs + g.xm + w) (by omega), List.flatMap_cons]
  have h1 : g.xs + g.xm + (w : Int) - 1 + 1 = g.xs + g.xm + w := by ring
  have h2 : g.ys + g.ym + (w : Int) - 1 + 1 = g.ys + g.ym + w := by ring
  rw [h1, h2]

theorem mem_points (g : IceGrid) (w : Nat) (i j : Int) :
    (i, j) ∈ points g w ↔
      (g.xs - w ≤ i ∧ i ≤ g.xs + g.xm + w - 1) ∧ (g.ys - w ≤ j ∧ j ≤ g.ys + g.ym + w - 1) := by
  unfold points
  simp only [List.mem_flatMap, List.mem_map, mem_intRange, Prod.mk.injEq]
  constructor
  · rintro ⟨a, ha, b, hb, rfl, rfl⟩
    omega
  · rintro ⟨hi, hj⟩
    exact ⟨i, by omega, j, by omega, rfl, rfl⟩

theorem nodup_points (g : IceGrid) (w : Nat) : (points g w).Nodup :=
  (nodup_intRange _ _).product (nodup_intRange _ _)

theorem length_points (g : IceGrid) (w : Nat) :
    (points g w).length = (g.xm + 2 * w).toNat * (g.ym + 2 * w).toNat := by
  have h : (points g w).length
      = ((intRange (g.xs - w) (g.xs + g.xm + w)).product
          (intRange (g.ys - w) (g.ys + g.ym + w))).length := rfl
  rw [h]
  have h2 := List.length_product (intRange (g.xs - w) (g.xs + g.xm + w))
    (intRange (g.ys - w) (g.ys + g.ym + w))
  rw [length_intRange, length_intRange] at h2
  rw [show (g.xm + 2 * (w : Int)) = g.xs + g.xm + w - (g.xs - w) by ring,
    show (g.ym + 2 * (w : Int)) = g.ys + g.ym + w - (g.ys - w) by ring]
  exact h2

/-- C20: for an owned patch with `xm ≥ 1` and `ym ≥ 1` and a stencil width `w`, the loop
`for (PointsWithGhosts p(g, w); p; p.next())` ends (given enough fuel) and visits the
points `(i, j)` with `xs - w ≤ i ≤ xs + xm + w - 1` and `ys - w ≤ j ≤ ys + ym + w - 1`,
each exactly once and no other point, `(xm + 2 w) (ym + 2 w)` points in total, with `j`
varying fastest; `Points` visits exactly the owned points. -/
theorem points_with_ghosts_visits (g : IceGrid) (w fuel : Nat) (hxm : 1 ≤ g.xm)
    (hym : 1 ≤ g.ym) (hfuel : (g.xm + 2 * w).toNat * (g.ym + 2 * w).toNat ≤ fuel) :
    (PointsWithGhosts.new g w).visited fuel
      = some ((intRange (g.xs - w) (g.xs + g.xm + w)).flatMap
          (fun i => (intRange (g.ys - w) (g.ys + g.ym + w)).map (fun j => (i, j)))) ∧
    (∀ i j, (i, j) ∈ points g w ↔
      (g.xs - w ≤ i ∧ i ≤ g.xs + g.xm + w - 1) ∧
      (g.ys - w ≤ j ∧ j ≤ g.ys + g.ym + w - 1)) ∧
    (points g w).Nodup ∧
    ((points g w).length : Int) = (g.xm + 2 * w) * (g.ym + 2 * w) ∧
    (Points g).visited fuel = some (points g 0) ∧
    (∀ i j, (i, j) ∈ points g 0 ↔
      (g.xs ≤ i ∧ i < g.xs + g.xm) ∧ (g.ys ≤ j ∧ j < g.ys + g.ym)) := by
  have hvis : ∀ w' : Nat, (g.xm + 2 * w').toNat * (g.ym + 2 * w').toNat ≤ fuel →
      (PointsWithGhosts.new g w').visited fuel = some (points g w') := by
    intro w' hf
    rw [← remaining_new g w' hxm]
    apply visited_eq_remaining
    · rfl
    · simp only [PointsWithGhosts.new]
      omega
    · exact le_refl _
    · simp only [PointsWithGhosts.new]
      omega
    · rw [remaining_new g w' hxm, length_points]
      exact hf
  refine ⟨hvis w hfuel, mem_points g w, nodup_points g w, ?_, ?_, ?_⟩
  · rw [length_points]
    push_cast
    rw [Int.toNat_of_nonneg (by omega), Int.toNat_of_nonneg (by omega)]
  · apply hvis 0
    refine le_trans ?_ hfuel
    apply Nat.mul_le_mul <;> omega
  · intro i j
    rw [mem_points]
    simp only [Nat.cast_zero, sub_zero, add_zero]
    omega

/-! ## 2D parameters -/

section init_2d_thms

variable {K : Type} [LinearOrderedField K]

end init_2d_thms

/-! ## Vertically averaged velocity -/

section averaged_velocity_thms

variable {K : Type} [LinearOrderedField K]

theorem trapezoid_foldl (x : Nat → Vector2 K) (n : Nat) (V : Vector2 K) :
    (List.range n).foldl (fun V k => V.add ((x k).add (x (k + 1)))) V
      = ⟨V.u + Finset.sum (Finset.range n) (fun k => (x k).u + (x (k + 1)).u),
          V.v + Finset.sum (Finset.range n) (fun k => (x k).v + (x (k + 1)).v)⟩ := by
  induction n with
  | zero => simp
  | succ n ih =>
    rw [List.range_succ, List.foldl_append, ih, Finset.sum_range_succ, Finset.sum_range_succ]
    simp only [List.foldl_cons, List.foldl_nil, Vector2.add]
    congr 1 <;> ring

theorem trapezoid_scale (S H M : K) (hH : H ≠ 0) (hM : M ≠ 0) :
    S * ((1 / 2 * (H / M)) / H) = S / (2 * M) := by
  field_simp
  ring

theorem averaged_velocity_column_pos (Mz : Int) (H : K) (x : Nat → Vector2 K)
    (hMz : 2 ≤ Mz) (hH : 0 < H) :
    averaged_velocity_column Mz H x
      = ⟨Finset.sum (Finset.range (Mz - 1).toNat) (fun k => (x k).u + (x (k + 1)).u)
            / (2 * ((Mz - 1 : Int) : K)),
          Finset.sum (Finset.range (Mz - 1).toNat) (fun k => (x k).v + (x (k + 1)).v)
            / (2 * ((Mz - 1 : Int) : K))⟩ := by
  have hM : (0 : K) < ((Mz - 1 : Int) : K) := by
    have h : (0 : Int) < Mz - 1 := by omega
    exact_mod_cast h
  unfold averaged_velocity_column
  simp only [gt_iff_lt, if_pos hH, trapezoid_foldl, Vector2.scale, zero_add]
  rw [trapezoid_scale _ _ _ hH.ne' hM.ne', trapezoid_scale _ _ _ hH.ne' hM.ne']

theorem compute_averaged_velocity_loop_get (Mz : Int)
    (P : IceModelVec2 (Parameters K)) (x : Int → Int → Nat → Vector2 K) (i j : Int)
    (L : List (Int × Int)) (result : IceModelVec2 (Vector2 K)) :
    (L.foldl (fun result p =>
        result.set p.1 p.2 (averaged_velocity_column Mz (P.get p.1 p.2).thickness (x p.2 p.1)))
        result).get i j
      = if (i, j) ∈ L then averaged_velocity_column Mz (P.get i j).thickness (x j i)
        else result.get i j := by
  induction L generalizing result with
  | nil => simp
  | cons p L ih =>
    rw [List.foldl_cons, ih]
    by_cases hL : (i, j) ∈ L
    · simp [hL]
    · simp only [hL, if_false, List.mem_cons, or_false]
      obtain ⟨a, c⟩ := p
      simp only [IceModelVec2.set, Prod.mk.injEq]
      by_cases h : i = a ∧ j = c
      · rw [if_pos h, if_pos h, h.1, h.2]
      · rw [if_neg h, if_neg h]

theorem compute_averaged_velocity_get (grid : IceGrid) (Mz : Int)
    (P : IceModelVec2 (Parameters K)) (x : Int → Int → Nat → Vector2 K)
    (result ghosts : IceModelVec2 (Vector2 K)) (i j : Int)
    (hi : grid.xs ≤ i ∧ i < grid.xs + grid.xm) (hj : grid.ys ≤ j ∧ j < grid.ys + grid.ym) :
    (compute_averaged_velocity grid Mz P x result ghosts).get i j
      = averaged_velocity_column Mz (P.get i j).thickness (x j i) := by
  unfold compute_averaged_velocity grid_update_ghosts
  simp only [if_pos (And.intro hi hj)]
  rw [compute_averaged_velocity_loop_get, if_pos]
  rw [mem_points]
  simp only [Nat.cast_zero, sub_zero, add_zero]
  omega

/-- C26: at an owned point of a grid with `Mz ≥ 2` levels, if the thickness `H` is
positive then `compute_averaged_velocity` stores the trapezoid rule average
`(sum over k = 0..Mz-2 of (x[k] + x[k+1])) / (2 * (Mz - 1))` of the column, an expression
in which `H` does not occur, and this is `u` if the velocity is `u` at every level of the
column; if `H ≤ 0` it stores the zero vector. -/
theorem compute_averaged_velocity_trapezoid (grid : IceGrid) (Mz : Int)
    (P : IceModelVec2 (Parameters K)) (x : Int → Int → Nat → Vector2 K)
    (result ghosts : IceModelVec2 (Vector2 K)) (i j : Int)
    (hi : grid.xs ≤ i ∧ i < grid.xs + grid.xm) (hj : grid.ys ≤ j ∧ j < grid.ys + grid.ym)
    (hMz : 2 ≤ Mz) :
    (0 < (P.get i j).thickness →
      (compute_averaged_velocity grid Mz P x result ghosts).get i j
        = ⟨Finset.sum (Finset.range (Mz - 1).toNat)
              (fun k => (x j i k).u + (x j i (k + 1)).u) / (2 * ((Mz - 1 : Int) : K)),
            Finset.sum (Finset.range (Mz - 1).toNat)
              (fun k => (x j i k).v + (x j i (k + 1)).v) / (2 * ((Mz - 1 : Int) : K))⟩) ∧
    (0 < (P.get i j).thickness →
      ∀ u : Vector2 K, (∀ k : Nat, (k : Int) < Mz → x j i k = u) →
        (compute_averaged_velocity grid Mz P x result ghosts).get i j = u) ∧
    ((P.get i j).thickness ≤ 0 →
      (compute_averaged_velocity grid Mz P x result ghosts).get i j = ⟨0, 0⟩) := by
  have hM : (0 : K) < ((Mz - 1 : Int) : K) := by
    have h : (0 : Int) < Mz - 1 := by omega
    exact_mod_cast h
  refine ⟨?_, ?_, ?_⟩
  · intro hH
    rw [compute_averaged_velocity_get grid Mz P x result ghosts i j hi hj,
      averaged_velocity_column_pos Mz _ _ hMz hH]
  · intro hH u hu
    rw [compute_averaged_velocity_get grid Mz P x result ghosts i j hi hj,
      averaged_velocity_column_pos Mz _ _ hMz hH]
    have hsum : ∀ f : Vector2 K → K,
        Finset.sum (Finset.range (Mz - 1).toNat) (fun k => f (x j i k) + f (x j i (k + 1)))
          = 2 * ((Mz - 1 : Int) : K) * f u := by
      intro f
      have hconst : ∀ k ∈ Finset.range (Mz - 1).toNat,
          f (x j i k) + f (x j i (k + 1)) = 2 * f u := by
        intro k hk
        have hk' := Finset.mem_range.1 hk
        rw [hu k (by omega), hu (k + 1) (by push_cast; omega)]
        ring
      rw [Finset.sum_congr rfl hconst, Finset.sum_const, Finset.card_range, nsmul_eq_mul]
      have hc : (((Mz - 1).toNat : Nat) : K) = ((Mz - 1 : Int) : K) := by
        have h := Int.toNat_of_nonneg (show (0 : Int) ≤ Mz - 1 by omega)
        exact_mod_cast congrArg (fun z : Int => (z : K)) h
      rw [hc]
      ring
    rw [hsum Vector2.u, hsum Vector2.v]
    obtain ⟨a, b⟩ := u
    simp only [mul_div_cancel_left₀ _ (mul_ne_zero two_ne_zero hM.ne')]
  · intro hH
    rw [compute_averaged_velocity_get grid Mz P x result ghosts i j hi hj]
    unfold averaged_velocity_column
    simp only [gt_iff_lt, if_neg (not_lt.2 hH)]

end averaged_velocity_thms

/-! ## The multigrid hooks -/

/-- C17, the code: neither hook calls the classifier `compute_node_type`, and the only
data the hooks restrict or create a restriction for is the data set `"3D_DM"`. -/
theorem hooks_do_not_classify :
    HookCall.compute_node_type ∉ blatter_restriction_hook ∧
    HookCall.compute_node_type ∉ blatter_coarsening_hook ∧
    (∀ name, HookCall.restrict_data name ∈ blatter_restriction_hook ++ blatter_coarsening_hook
      → name = "3D_DM") ∧
    (∀ name, HookCall.create_restriction name
      ∈ blatter_restriction_hook ++ blatter_coarsening_hook → name = "3D_DM") := by
  refine ⟨by decide, by decide, ?_, ?_⟩
  · intro name h
    simpa [blatter_restriction_hook, blatter_coarsening_hook] using h
  · intro name h
    simpa [blatter_restriction_hook, blatter_coarsening_hook] using h

/-! ## The compatibility check of `Blatter::setup` -/

theorem setup_loop_step (c a : Int) (ha : 0 ≤ a) (hc : 1 ≤ c) :
    a.tdiv c * c ≠ a ↔ ¬ c ∣ a := by
  rw [Int.tdiv_eq_ediv ha (by omega)]
  constructor
  · intro h hd
    exact h (Int.ediv_mul_cancel hd)
  · intro h heq
    exact h ⟨a / c, by rw [mul_comm]; exact heq.symm⟩

theorem setup_loop_eq_none (c : Int) (hc : 1 ≤ c) (n : Nat) (mz : Int) (hmz : 1 ≤ mz) :
    setup_loop c n mz = none ↔ ¬ c ^ n ∣ mz - 1 := by
  induction n generalizing mz with
  | zero => simp [setup_loop]
  | succ n ih =>
    unfold setup_loop
    by_cases hd : c ∣ mz - 1
    · have hstep : ¬ ((mz - 1).tdiv c * c ≠ mz - 1) := by
        rw [setup_loop_step c (mz - 1) (by omega) hc]
        exact not_not.2 hd
      rw [if_neg hstep, Option.map_eq_none']
      have hq : (mz - 1).tdiv c = (mz - 1) / c := Int.tdiv_eq_ediv (by omega) (by omega)
      have hq0 : 0 ≤ (mz - 1) / c := Int.ediv_nonneg (by omega) (by omega)
      rw [ih _ (by omega), hq]
      have hmul : mz - 1 = c * ((mz - 1) / c) := (Int.mul_ediv_cancel' hd).symm
      have hcpos : c ≠ 0 := by omega
      have : c ^ (n + 1) ∣ mz - 1 ↔ c ^ n ∣ (mz - 1) / c + 1 - 1 := by
        rw [add_sub_cancel_right]
        conv_lhs => rw [hmul, pow_succ, mul_comm (c ^ n) c]
        exact mul_dvd_mul_iff_left hcpos
      rw [this]
    · have hstep : (mz - 1).tdiv c * c ≠ mz - 1 :=
        (setup_loop_step c (mz - 1) (by omega) hc).2 hd
      rw [if_pos hstep]
      simp only [true_iff]
      intro hpow
      exact hd (Dvd.dvd.trans (dvd_pow_self c (Nat.succ_ne_zero n)) hpow)

theorem setup_loop_levels (c : Int) (hc : 1 ≤ c) (n : Nat) (mz : Int) (hmz : 1 ≤ mz)
    (l : List Int) (h : setup_loop c n mz = some l) :
    l.length = n + 1 ∧ l.head? = some mz ∧
      l.Chain' (fun fine coarse => fine - 1 = c * (coarse - 1)) := by
  induction n generalizing mz l with
  | zero =>
    simp only [setup_loop, Option.some.injEq] at h
    subst h
    simp
  | succ n ih =>
    unfold setup_loop at h
    by_cases hstep : (mz - 1).tdiv c * c ≠ mz - 1
    · rw [if_pos hstep] at h
      exact absurd h (by simp)
    · rw [if_neg hstep, Option.map_eq_some'] at h
      obtain ⟨l', hl', rfl⟩ := h
      have hq : (mz - 1).tdiv c = (mz - 1) / c := Int.tdiv_eq_ediv (by omega) (by omega)
      have hq0 : 0 ≤ (mz - 1) / c := Int.ediv_nonneg (by omega) (by omega)
      obtain ⟨hlen, hhead, hchain⟩ := ih _ (by rw [hq]; omega) l' hl'
      refine ⟨by simp [hlen], by simp, ?_⟩
      cases l' with
      | nil => simp
      | cons m l'' =>
        simp only [List.head?_cons, Option.some.injEq] at hhead
        rw [List.chain'_cons]
        refine ⟨?_, hchain⟩
        rw [hhead, add_sub_cancel_right, mul_comm]
        exact (not_not.1 hstep).symm

/-- C7: for `Mz ≥ 2`, `C ≥ 1` and `N ≥ 1` the compatibility check at the start of
`Blatter::setup` throws iff `Mz - 1` is not a multiple of `C ^ (N - 1)`; it accepts exactly
the settings with `Mz = A * C ^ (N - 1) + 1` for a positive integer `A`; and on
acceptance there are `N` levels, starting with `Mz`, and each pair of successive level
sizes satisfies `mz_fine - 1 = C * (mz_coarse - 1)`. -/
theorem setup_check_iff (Mz C N : Int) (hMz : 2 ≤ Mz) (hC : 1 ≤ C) (hN : 1 ≤ N) :
    ((∃ err, setup_check Mz C N = Except.error err) ↔ ¬ C ^ (N - 1).toNat ∣ Mz - 1) ∧
    ((∃ levels, setup_check Mz C N = Except.ok levels) ↔
      ∃ A : Int, 0 < A ∧ Mz = A * C ^ (N - 1).toNat + 1) ∧
    (∀ levels, setup_check Mz C N = Except.ok levels →
      (levels.length : Int) = N ∧ levels.head? = some Mz ∧
      levels.Chain' (fun mz_fine mz_coarse => mz_fine - 1 = C * (mz_coarse - 1))) := by
  have hnone := setup_loop_eq_none C hC (N - 1).toNat Mz (by omega)
  have herr : (∃ err, setup_check Mz C N = Except.error err) ↔
      ¬ C ^ (N - 1).toNat ∣ Mz - 1 := by
    rw [← hnone]
    unfold setup_check
    cases hl : setup_loop C (N - 1).toNat Mz <;> simp
  have hok : (∃ levels, setup_check Mz C N = Except.ok levels) ↔
      C ^ (N - 1).toNat ∣ Mz - 1 := by
    rw [← not_not (a := C ^ (N - 1).toNat ∣ Mz - 1), ← hnone]
    unfold setup_check
    cases hl : setup_loop C (N - 1).toNat Mz <;> simp
  refine ⟨herr, ?_, ?_⟩
  · rw [hok]
    have hpow : 0 < C ^ (N - 1).toNat := pow_pos (by omega) _
    constructor
    · rintro ⟨A, hA⟩
      refine ⟨A, ?_, by rw [mul_comm, ← hA]; ring⟩
      by_contra hneg
      have : C ^ (N - 1).toNat * A ≤ 0 :=
        mul_nonpos_of_nonneg_of_nonpos hpow.le (not_lt.1 hneg)
      omega
    · rintro ⟨A, -, hA⟩
      exact ⟨A, by rw [hA]; ring⟩
  · intro levels h
    unfold setup_check at h
    cases hl : setup_loop C (N - 1).toNat Mz with
    | none => rw [hl] at h; exact absurd h (by simp)
    | some l =>
      rw [hl] at h
      simp only [Except.ok.injEq] at h
      subst h
      obtain ⟨hlen, hhead, hchain⟩ := setup_loop_levels C hC _ Mz (by omega) l hl
      refine ⟨?_, hhead, hchain⟩
      rw [hlen]
      push_cast
      rw [Int.toNat_of_nonneg (by omega)]
      ring

/-! ## Parameter continuation -/

section continuation_thms

variable {K X : Type} [LinearOrderedField K] [Zero X]

theorem continuation_step_entry (m : CMath K) (snes : SNES K X) (eps gamma : K) (N : Nat)
    (s : ContinuationState K X) :
    (continuation_step m snes eps gamma N s).2
      = ⟨N, s.lambda, viscosity_eps m eps gamma s.lambda,
          (snes.solve N s.lambda (viscosity_eps m eps gamma s.lambda) s.m_x).reason,
          (snes.solve N s.lambda (viscosity_eps m eps gamma s.lambda) s.m_x).snes_it,
          s.delta⟩ := by
  unfold continuation_step
  simp only []
  split_ifs <;> rfl

theorem continuation_step_done_iff (m : CMath K) (snes : SNES K X) (eps gamma : K) (N : Nat)
    (s : ContinuationState K X) :
    (∃ s', (continuation_step m snes eps gamma N s).1 = StepOutcome.done s')
      ↔ converged_at_target eps (continuation_step m snes eps gamma N s).2 := by
  rw [continuation_step_entry]
  unfold continuation_step converged_at_target
  simp only [gt_iff_lt]
  have hle : viscosity_eps m eps gamma s.lambda ≤ eps
      ↔ viscosity_eps m eps gamma s.lambda = eps :=
    ⟨fun h => le_antisymm h (le_max_right _ _), fun h => h.le⟩
  split_ifs with h1 h2 h3 h4 h5 h6 <;> simp_all

theorem continuation_step_converged (m : CMath K) (snes : SNES K X) (eps gamma : K) (N : Nat)
    (s : ContinuationState K X)
    (hr : 0 < (snes.solve N s.lambda (viscosity_eps m eps gamma s.lambda) s.m_x).reason)
    (he : viscosity_eps m eps gamma s.lambda = eps) :
    (continuation_step m snes eps gamma N s).1
      = StepOutcome.done ⟨s.lambda, s.delta,
          (snes.solve N s.lambda (viscosity_eps m eps gamma s.lambda) s.m_x).x,
          s.m_x_old⟩ := by
  unfold continuation_step
  simp only [gt_iff_lt]
  rw [if_pos hr, if_pos he.le]

theorem continuation_step_zero_recoverable (m : CMath K) (snes : SNES K X) (eps gamma : K)
    (s : ContinuationState K X)
    (hr : (snes.solve 0 s.lambda (viscosity_eps m eps gamma s.lambda) s.m_x).reason ≤ 0)
    (hd : (snes.solve 0 s.lambda (viscosity_eps m eps gamma s.lambda) s.m_x).reason
        = snes.SNES_DIVERGED_LINE_SEARCH ∨
      (snes.solve 0 s.lambda (viscosity_eps m eps gamma s.lambda) s.m_x).reason
        = snes.SNES_DIVERGED_MAX_IT) :
    (continuation_step m snes eps gamma 0 s).1
      = StepOutcome.next ⟨lambda_min, delta0, 0, 0⟩ := by
  unfold continuation_step
  simp only [gt_iff_lt]
  rw [if_neg (not_lt.2 hr), if_pos hd, if_pos trivial]

theorem continuation_step_accept (m : CMath K) (snes : SNES K X) (eps gamma : K) (N : Nat)
    (s : ContinuationState K X)
    (hr : 0 < (snes.solve N s.lambda (viscosity_eps m eps gamma s.lambda) s.m_x).reason)
    (he : ¬ viscosity_eps m eps gamma s.lambda ≤ eps) :
    (continuation_step m snes eps gamma N s).1
      = StepOutcome.next
        ⟨s.lambda + min (min
            ((if 1 < N then 1 + A * ((((snes.snes_max_it
              - (snes.solve N s.lambda (viscosity_eps m eps gamma s.lambda) s.m_x).snes_it
              : Int) : K) / (snes.snes_max_it : K)) ^ 2) else 1) * s.delta)
            delta_max) (lambda_max - s.lambda),
          min (min
            ((if 1 < N then 1 + A * ((((snes.snes_max_it
              - (snes.solve N s.lambda (viscosity_eps m eps gamma s.lambda) s.m_x).snes_it
              : Int) : K) / (snes.snes_max_it : K)) ^ 2) else 1) * s.delta)
            delta_max) (lambda_max - s.lambda),
          (snes.solve N s.lambda (viscosity_eps m eps gamma s.lambda) s.m_x).x,
          (snes.solve N s.lambda (viscosity_eps m eps gamma s.lambda) s.m_x).x⟩ := by
  unfold continuation_step
  simp only [gt_iff_lt]
  rw [if_pos hr, if_neg he]
  have hmin : ∀ d : K, (if lambda_max < s.lambda + d then lambda_max - s.lambda else d)
      = min d (lambda_max - s.lambda) := by
    intro d
    by_cases h : lambda_max < s.lambda + d
    · rw [if_pos h, min_eq_right (by linarith)]
    · rw [if_neg h, min_eq_left (by linarith)]
  have hg : (if 1 < N then s.delta * (1 + A * (((snes.snes_max_it
        - (snes.solve N s.lambda (viscosity_eps m eps gamma s.lambda) s.m_x).snes_it
        : Int) : K) / (snes.snes_max_it : K)) * (((snes.snes_max_it
        - (snes.solve N s.lambda (viscosity_eps m eps gamma s.lambda) s.m_x).snes_it
        : Int) : K) / (snes.snes_max_it : K))) else s.delta)
      = (if 1 < N then 1 + A * ((((snes.snes_max_it
        - (snes.solve N s.lambda (viscosity_eps m eps gamma s.lambda) s.m_x).snes_it
        : Int) : K) / (snes.snes_max_it : K)) ^ 2) else 1) * s.delta := by
    split_ifs <;> ring
  rw [hmin, hg]

theorem continuation_step_backtrack (m : CMath K) (snes : SNES K X) (eps gamma : K) (N : Nat)
    (s : ContinuationState K X) (hN : 1 ≤ N)
    (hr : (snes.solve N s.lambda (viscosity_eps m eps gamma s.lambda) s.m_x).reason ≤ 0)
    (hd : (snes.solve N s.lambda (viscosity_eps m eps gamma s.lambda) s.m_x).reason
        = snes.SNES_DIVERGED_LINE_SEARCH ∨
      (snes.solve N s.lambda (viscosity_eps m eps gamma s.lambda) s.m_x).reason
        = snes.SNES_DIVERGED_MAX_IT) :
    (continuation_step m snes eps gamma N s).1
      = if s.lambda - s.delta < lambda_min then
          StepOutcome.failed "Blatter solver: Parameter continuation failed"
            ⟨s.lambda - s.delta, s.delta, s.m_x_old, s.m_x_old⟩
        else if |s.delta - delta_min| < 1 / 1000000 then
          StepOutcome.failed "Blatter solver: cannot reduce the continuation step"
            ⟨s.lambda - s.delta, s.delta, s.m_x_old, s.m_x_old⟩
        else
          StepOutcome.next
            ⟨s.lambda - s.delta + clip (s.delta * (1 / 2)) delta_min delta_max,
              clip (s.delta * (1 / 2)) delta_min delta_max, s.m_x_old, s.m_x_old⟩ := by
  unfold continuation_step
  simp only [gt_iff_lt]
  rw [if_neg (not_lt.2 hr), if_pos hd, if_neg (by omega)]
  split_ifs <;> rfl

theorem continuation_step_other (m : CMath K) (snes : SNES K X) (eps gamma : K) (N : Nat)
    (s : ContinuationState K X)
    (hr : (snes.solve N s.lambda (viscosity_eps m eps gamma s.lambda) s.m_x).reason ≤ 0)
    (h1 : (snes.solve N s.lambda (viscosity_eps m eps gamma s.lambda) s.m_x).reason
        ≠ snes.SNES_DIVERGED_LINE_SEARCH)
    (h2 : (snes.solve N s.lambda (viscosity_eps m eps gamma s.lambda) s.m_x).reason
        ≠ snes.SNES_DIVERGED_MAX_IT) :
    (continuation_step m snes eps gamma N s).1
      = StepOutcome.failed "Blatter solver failed"
          ⟨s.lambda, s.delta,
            (snes.solve N s.lambda (viscosity_eps m eps gamma s.lambda) s.m_x).x,
            s.m_x_old⟩ := by
  unfold continuation_step
  simp only [gt_iff_lt]
  rw [if_neg (not_lt.2 hr), if_neg (by rintro (h | h) <;> contradiction)]

theorem continuation_loop_succ (m : CMath K) (snes : SNES K X) (eps gamma : K)
    (remaining N : Nat) (s : ContinuationState K X) (log : List (LogEntry K)) :
    continuation_loop m snes eps gamma (remaining + 1) N s log
      = match (continuation_step m snes eps gamma N s).1 with
        | StepOutcome.done s' =>
          ⟨none, s', log ++ [(continuation_step m snes eps gamma N s).2]⟩
        | StepOutcome.next s' =>
          continuation_loop m snes eps gamma remaining (N + 1) s'
            (log ++ [(continuation_step m snes eps gamma N s).2])
        | StepOutcome.failed message s' =>
          ⟨some message, s', log ++ [(continuation_step m snes eps gamma N s).2]⟩ := by
  rw [continuation_loop]
  rcases h : continuation_step m snes eps gamma N s with ⟨o, e⟩
  cases o <;> rfl

theorem continuation_loop_log_extends (m : CMath K) (snes : SNES K X) (eps gamma : K)
    (remaining N : Nat) (s : ContinuationState K X) (log : List (LogEntry K)) :
    ∃ l, (continuation_loop m snes eps gamma remaining N s log).log = log ++ l := by
  induction remaining generalizing N s log with
  | zero => exact ⟨[], by simp [continuation_loop]⟩
  | succ remaining ih =>
    rw [continuation_loop_succ]
    cases h : (continuation_step m snes eps gamma N s).1 with
    | done s' => exact ⟨[_], rfl⟩
    | next s' =>
      obtain ⟨l, hl⟩ := ih (N + 1) s' (log ++ [(continuation_step m snes eps gamma N s).2])
      exact ⟨(continuation_step m snes eps gamma N s).2 :: l, by simp [hl]⟩
    | failed message s' => exact ⟨[_], rfl⟩

theorem continuation_loop_log_first (m : CMath K) (snes : SNES K X) (eps gamma : K)
    (remaining N : Nat) (s : ContinuationState K X) (log : List (LogEntry K)) :
    ∃ l, (continuation_loop m snes eps gamma (remaining + 1) N s log).log
      = log ++ (continuation_step m snes eps gamma N s).2 :: l := by
  rw [continuation_loop_succ]
  cases h : (continuation_step m snes eps gamma N s).1 with
  | done s' => exact ⟨[], rfl⟩
  | next s' =>
    obtain ⟨l, hl⟩ := continuation_loop_log_extends m snes eps gamma remaining (N + 1) s'
      (log ++ [(continuation_step m snes eps gamma N s).2])
    exact ⟨l, by simp [hl]⟩
  | failed message s' => exact ⟨[], rfl⟩

/-- The loop of `update` ends at `bp_done` exactly when the last solve it performed
converged at the desired regularization. -/
theorem continuation_loop_error_none_iff (m : CMath K) (snes : SNES K X) (eps gamma : K)
    (remaining N : Nat) (s : ContinuationState K X) (log : List (LogEntry K))
    (hlog : ¬ ∃ e, log.getLast? = some e ∧ converged_at_target eps e) :
    (continuation_loop m snes eps gamma remaining N s log).error = none ↔
      ∃ e, (continuation_loop m snes eps gamma remaining N s log).log.getLast? = some e ∧
        converged_at_target eps e := by
  induction remaining generalizing N s log with
  | zero =>
    simp only [continuation_loop]
    constructor
    · intro h
      exact absurd h (by simp)
    · intro h
      exact absurd h hlog
  | succ remaining ih =>
    rw [continuation_loop_succ]
    have hdone := continuation_step_done_iff m snes eps gamma N s
    cases h : (continuation_step m snes eps gamma N s).1 with
    | done s' =>
      simp only [List.getLast?_concat, true_iff]
      exact ⟨_, rfl, hdone.1 ⟨s', h⟩⟩
    | next s' =>
      apply ih
      rintro ⟨e, he, hgood⟩
      simp only [List.getLast?_concat, Option.some.injEq] at he
      subst he
      obtain ⟨s'', hs''⟩ := hdone.2 hgood
      rw [h] at hs''
      exact absurd hs'' (by simp)
    | failed message s' =>
      simp only [List.getLast?_concat, Option.some.injEq]
      constructor
      · intro hh
        exact absurd hh (by simp)
      · rintro ⟨e, rfl, hgood⟩
        obtain ⟨s'', hs''⟩ := hdone.2 hgood
        rw [h] at hs''
        exact absurd hs'' (by simp)

theorem update_eq (m : CMath K) (snes : SNES K X) (schoofLen schoofVel : K) (m_x : X) :
    update m snes schoofLen schoofVel m_x
      = continuation_loop m snes (eps_target m schoofLen schoofVel)
          (continuation_gamma m schoofLen schoofVel) (Nc + 1) 0
          ⟨lambda_max, delta0, m_x, m_x⟩ [] := rfl

/-- C9: `update` returns normally (reaches `bp_done`) iff the last nonlinear solve it
performed reported convergence (`reason > 0`) while the regularization was equal to the
desired `eps`; otherwise it ends by throwing an error. -/
theorem update_done_iff (m : CMath K) (snes : SNES K X) (schoofLen schoofVel : K) (m_x : X) :
    ((update m snes schoofLen schoofVel m_x).error = none ↔
      ∃ e, (update m snes schoofLen schoofVel m_x).log.getLast? = some e ∧
        0 < e.reason ∧ e.m_viscosity_eps = eps_target m schoofLen schoofVel) ∧
    ((update m snes schoofLen schoofVel m_x).error = none ∨
      ∃ message, (update m snes schoofLen schoofVel m_x).error = some message) := by
  constructor
  · rw [update_eq]
    exact continuation_loop_error_none_iff m snes _ _ _ _ _ [] (by simp)
  · cases h : (update m snes schoofLen schoofVel m_x).error with
    | none => exact Or.inl rfl
    | some message => exact Or.inr ⟨message, rfl⟩

/-- C10: when the solve at step `N = 0` ends in a recoverable divergence (line search
failure or iteration limit), `update` sets both the solution vector and the vector to
revert to to zero, sets `lambda = lambda_min` and `delta = delta0` and continues with the
step `N = 1`: the second solve is performed with `lambda = lambda_min`, starting from the
zero vector. -/
theorem update_first_solve_recoverable (m : CMath K) (snes : SNES K X)
    (schoofLen schoofVel : K) (m_x : X)
    (hr : (snes.solve 0 lambda_max
      (viscosity_eps m (eps_target m schoofLen schoofVel)
        (continuation_gamma m schoofLen schoofVel) lambda_max) m_x).reason ≤ 0)
    (hd : (snes.solve 0 lambda_max
        (viscosity_eps m (eps_target m schoofLen schoofVel)
          (continuation_gamma m schoofLen schoofVel) lambda_max) m_x).reason
          = snes.SNES_DIVERGED_LINE_SEARCH ∨
      (snes.solve 0 lambda_max
        (viscosity_eps m (eps_target m schoofLen schoofVel)
          (continuation_gamma m schoofLen schoofVel) lambda_max) m_x).reason
          = snes.SNES_DIVERGED_MAX_IT) :
    (continuation_step m snes (eps_target m schoofLen schoofVel)
        (continuation_gamma m schoofLen schoofVel) 0 ⟨lambda_max, delta0, m_x, m_x⟩).1
      = StepOutcome.next ⟨lambda_min, delta0, 0, 0⟩ ∧
    update m snes schoofLen schoofVel m_x
      = continuation_loop m snes (eps_target m schoofLen schoofVel)
          (continuation_gamma m schoofLen schoofVel) Nc 1 ⟨lambda_min, delta0, 0, 0⟩
          [(continuation_step m snes (eps_target m schoofLen schoofVel)
            (continuation_gamma m schoofLen schoofVel) 0
            ⟨lambda_max, delta0, m_x, m_x⟩).2] ∧
    ∃ e0 e1 l, (update m snes schoofLen schoofVel m_x).log = e0 :: e1 :: l ∧
      e0.N = 0 ∧ e1.N = 1 ∧ e1.lambda = lambda_min ∧
      e1.reason = (snes.solve 1 lambda_min e1.m_viscosity_eps 0).reason := by
  have hstep := continuation_step_zero_recoverable m snes
    (eps_target m schoofLen schoofVel) (continuation_gamma m schoofLen schoofVel)
    ⟨lambda_max, delta0, m_x, m_x⟩ hr hd
  have hupd : update m snes schoofLen schoofVel m_x
      = continuation_loop m snes (eps_target m schoofLen schoofVel)
          (continuation_gamma m schoofLen schoofVel) Nc 1 ⟨lambda_min, delta0, 0, 0⟩
          [(continuation_step m snes (eps_target m schoofLen schoofVel)
            (continuation_gamma m schoofLen schoofVel) 0
            ⟨lambda_max, delta0, m_x, m_x⟩).2] := by
    rw [update_eq, continuation_loop_succ, hstep]
    rfl
  refine ⟨hstep, hupd, ?_⟩
  obtain ⟨l, hl⟩ := continuation_loop_log_first m snes (eps_target m schoofLen schoofVel)
    (continuation_gamma m schoofLen schoofVel) 19 1 ⟨lambda_min, delta0, 0, 0⟩
    [(continuation_step m snes (eps_target m schoofLen schoofVel)
      (continuation_gamma m schoofLen schoofVel) 0 ⟨lambda_max, delta0, m_x, m_x⟩).2]
  refine ⟨(continuation_step m snes (eps_target m schoofLen schoofVel)
      (continuation_gamma m schoofLen schoofVel) 0 ⟨lambda_max, delta0, m_x, m_x⟩).2,
    (continuation_step m snes (eps_target m schoofLen schoofVel)
      (continuation_gamma m schoofLen schoofVel) 1 ⟨lambda_min, delta0, 0, 0⟩).2,
    l, ?_, ?_, ?_, ?_, ?_⟩
  · rw [hupd]
    exact hl
  · rw [continuation_step_entry]
  · rw [continuation_step_entry]
  · rw [continuation_step_entry]
  · rw [continuation_step_entry]

theorem continuation_step_failed_message (m : CMath K) (snes : SNES K X) (eps gamma : K)
    (N : Nat) (s s' : ContinuationState K X) (message : String)
    (h : (continuation_step m snes eps gamma N s).1 = StepOutcome.failed message s') :
    message = "Blatter solver: Parameter continuation failed" ∨
    message = "Blatter solver: cannot reduce the continuation step" ∨
    message = "Blatter solver failed" := by
  unfold continuation_step at h
  simp only [gt_iff_lt] at h
  split_ifs at h <;> simp_all

theorem continuation_loop_length_le (m : CMath K) (snes : SNES K X) (eps gamma : K)
    (remaining N : Nat) (s : ContinuationState K X) (log : List (LogEntry K)) :
    (continuation_loop m snes eps gamma remaining N s log).log.length
      ≤ log.length + remaining := by
  induction remaining generalizing N s log with
  | zero => simp [continuation_loop]
  | succ remaining ih =>
    rw [continuation_loop_succ]
    cases h : (continuation_step m snes eps gamma N s).1 with
    | done s' => simp
    | next s' =>
      refine le_trans (ih (N + 1) s' _) ?_
      simp only [List.length_append, List.length_singleton]
      omega
    | failed message s' => simp

theorem continuation_loop_steps (m : CMath K) (snes : SNES K X) (eps gamma : K)
    (remaining N : Nat) (s : ContinuationState K X) (log : List (LogEntry K)) :
    ∃ k, (continuation_loop m snes eps gamma remaining N s log).log.map LogEntry.N
      = log.map LogEntry.N ++ List.range' N k := by
  induction remaining generalizing N s log with
  | zero => exact ⟨0, by simp [continuation_loop]⟩
  | succ remaining ih =>
    rw [continuation_loop_succ]
    have hN : (continuation_step m snes eps gamma N s).2.N = N := by
      rw [continuation_step_entry]
    cases h : (continuation_step m snes eps gamma N s).1 with
    | done s' => exact ⟨1, by simp [hN]⟩
    | next s' =>
      obtain ⟨k, hk⟩ := ih (N + 1) s' (log ++ [(continuation_step m snes eps gamma N s).2])
      refine ⟨k + 1, ?_⟩
      rw [hk]
      simp [hN, List.range'_succ]
    | failed message s' => exact ⟨1, by simp [hN]⟩

theorem continuation_loop_exhausted (m : CMath K) (snes : SNES K X) (eps gamma : K)
    (remaining N : Nat) (s : ContinuationState K X) (log : List (LogEntry K))
    (h : (continuation_loop m snes eps gamma remaining N s log).error
      = some "Blatter solver failed after 20 parameter continuation steps") :
    (continuation_loop m snes eps gamma remaining N s log).log.length
      = log.length + remaining := by
  induction remaining generalizing N s log with
  | zero => simp [continuation_loop]
  | succ remaining ih =>
    rw [continuation_loop_succ] at h ⊢
    cases hs : (continuation_step m snes eps gamma N s).1 with
    | done s' =>
      rw [hs] at h
      exact absurd h (by simp)
    | next s' =>
      rw [hs] at h
      simp only at h ⊢
      rw [ih (N + 1) s' _ h]
      simp only [List.length_append, List.length_singleton]
      omega
    | failed message s' =>
      rw [hs] at h
      simp only [Option.some.injEq] at h
      rcases continuation_step_failed_message m snes eps gamma N s s' message hs with
        h1 | h1 | h1 <;> rw [h1] at h <;> exact absurd h (by decide)

theorem reaches_start (m : CMath K) (snes : SNES K X) (schoofLen schoofVel : K) (m_x : X) :
    reaches (update m snes schoofLen schoofVel m_x) m snes (eps_target m schoofLen schoofVel)
      (continuation_gamma m schoofLen schoofVel) (Nc + 1) 0
      ⟨lambda_max, delta0, m_x, m_x⟩ :=
  ⟨[], rfl, update_eq m snes schoofLen schoofVel m_x⟩

theorem reaches_next (r : UpdateResult K X) (m : CMath K) (snes : SNES K X) (eps gamma : K)
    (remaining N : Nat) (s s' : ContinuationState K X)
    (h : reaches r m snes eps gamma (remaining + 1) N s)
    (hstep : (continuation_step m snes eps gamma N s).1 = StepOutcome.next s') :
    reaches r m snes eps gamma remaining (N + 1) s' := by
  obtain ⟨log, hlen, hr⟩ := h
  refine ⟨log ++ [(continuation_step m snes eps gamma N s).2], by simp [hlen], ?_⟩
  rw [hr, continuation_loop_succ, hstep]

theorem reaches_entry (r : UpdateResult K X) (m : CMath K) (snes : SNES K X) (eps gamma : K)
    (remaining N : Nat) (s : ContinuationState K X)
    (h : reaches r m snes eps gamma (remaining + 1) N s) :
    (continuation_step m snes eps gamma N s).2 ∈ r.log ∧ N + 1 ≤ r.log.length := by
  obtain ⟨log, hlen, hr⟩ := h
  obtain ⟨l, hl⟩ := continuation_loop_log_first m snes eps gamma remaining N s log
  rw [hr, hl]
  constructor
  · simp
  · simp only [List.length_append, List.length_cons]
    omega

theorem reaches_exhausted (r : UpdateResult K X) (m : CMath K) (snes : SNES K X)
    (eps gamma : K) (N : Nat) (s : ContinuationState K X)
    (h : reaches r m snes eps gamma 0 N s) :
    r.error = some "Blatter solver failed after 20 parameter continuation steps" ∧
    r.log.length = N ∧ r.state = s := by
  obtain ⟨log, hlen, hr⟩ := h
  rw [hr]
  exact ⟨rfl, hlen, rfl⟩

theorem reaches_failed (r : UpdateResult K X) (m : CMath K) (snes : SNES K X)
    (eps gamma : K) (remaining N : Nat) (s s' : ContinuationState K X) (message : String)
    (h : reaches r m snes eps gamma (remaining + 1) N s)
    (hstep : (continuation_step m snes eps gamma N s).1 = StepOutcome.failed message s') :
    r.error = some message ∧ r.log.length = N + 1 ∧ r.state = s' := by
  obtain ⟨log, hlen, hr⟩ := h
  rw [hr, continuation_loop_succ, hstep]
  exact ⟨rfl, by simp [hlen], rfl⟩

/-- The ways an iteration of the loop of `update` continues with the next iteration: an
accepted step, the reset after a failure at `N = 0`, or a back-tracking step. -/
theorem continuation_step_next_cases (m : CMath K) (snes : SNES K X) (eps gamma : K)
    (N : Nat) (s s' : ContinuationState K X)
    (h : (continuation_step m snes eps gamma N s).1 = StepOutcome.next s') :
    (0 < (snes.solve N s.lambda (viscosity_eps m eps gamma s.lambda) s.m_x).reason ∧
      ¬ viscosity_eps m eps gamma s.lambda ≤ eps ∧
      s'.delta = min (min
          ((if 1 < N then 1 + A * ((((snes.snes_max_it
            - (snes.solve N s.lambda (viscosity_eps m eps gamma s.lambda) s.m_x).snes_it
            : Int) : K) / (snes.snes_max_it : K)) ^ 2) else 1) * s.delta)
          delta_max) (lambda_max - s.lambda) ∧
      s'.lambda = s.lambda + s'.delta) ∨
    ((snes.solve N s.lambda (viscosity_eps m eps gamma s.lambda) s.m_x).reason ≤ 0 ∧
      N = 0 ∧ s' = ⟨lambda_min, delta0, 0, 0⟩) ∨
    ((snes.solve N s.lambda (viscosity_eps m eps gamma s.lambda) s.m_x).reason ≤ 0 ∧
      1 ≤ N ∧ lambda_min ≤ s.lambda - s.delta ∧ 1 / 1000000 ≤ |s.delta - delta_min| ∧
      s'.delta = clip (s.delta * (1 / 2)) delta_min delta_max ∧
      s'.lambda = s.lambda - s.delta + s'.delta) := by
  by_cases hr : 0 < (snes.solve N s.lambda (viscosity_eps m eps gamma s.lambda) s.m_x).reason
  · by_cases he : viscosity_eps m eps gamma s.lambda ≤ eps
    · rw [continuation_step_converged m snes eps gamma N s hr
        (le_antisymm he (le_max_right _ _))] at h
      exact absurd h (by simp)
    · rw [continuation_step_accept m snes eps gamma N s hr he] at h
      simp only [StepOutcome.next.injEq] at h
      left
      refine ⟨hr, he, ?_, ?_⟩
      · rw [← h]
      · rw [← h]
  · have hr' := not_lt.1 hr
    by_cases hd : (snes.solve N s.lambda (viscosity_eps m eps gamma s.lambda) s.m_x).reason
          = snes.SNES_DIVERGED_LINE_SEARCH ∨
        (snes.solve N s.lambda (viscosity_eps m eps gamma s.lambda) s.m_x).reason
          = snes.SNES_DIVERGED_MAX_IT
    · rcases Nat.eq_zero_or_pos N with hN | hN
      · subst hN
        rw [continuation_step_zero_recoverable m snes eps gamma s hr' hd] at h
        simp only [StepOutcome.next.injEq] at h
        exact Or.inr (Or.inl ⟨hr', rfl, h.symm⟩)
      · rw [continuation_step_backtrack m snes eps gamma N s hN hr' hd] at h
        by_cases h1 : s.lambda - s.delta < lambda_min
        · rw [if_pos h1] at h
          exact absurd h (by simp)
        · rw [if_neg h1] at h
          by_cases h2 : |s.delta - delta_min| < 1 / 1000000
          · rw [if_pos h2] at h
            exact absurd h (by simp)
          · rw [if_neg h2] at h
            simp only [StepOutcome.next.injEq] at h
            right
            right
            refine ⟨hr', hN, not_lt.1 h1, not_lt.1 h2, ?_, ?_⟩
            · rw [← h]
            · rw [← h]
    · push_neg at hd
      rw [continuation_step_other m snes eps gamma N s hr' hd.1 hd.2] at h
      exact absurd h (by simp)

/-- An invariant `P` of the states of the loop of `update` that makes every solve
satisfy `Q` makes every entry of the log satisfy `Q`. -/
theorem continuation_loop_invariant (m : CMath K) (snes : SNES K X) (eps gamma : K)
    (P : ContinuationState K X → Prop) (Q : LogEntry K → Prop)
    (hnext : ∀ N s s', P s →
      (continuation_step m snes eps gamma N s).1 = StepOutcome.next s' → P s')
    (hentry : ∀ N s, P s → Q (continuation_step m snes eps gamma N s).2)
    (remaining N : Nat) (s : ContinuationState K X) (log : List (LogEntry K))
    (hs : P s) (hlog : ∀ e ∈ log, Q e) :
    ∀ e ∈ (continuation_loop m snes eps gamma remaining N s log).log, Q e := by
  induction remaining generalizing N s log with
  | zero => simpa [continuation_loop] using hlog
  | succ remaining ih =>
    rw [continuation_loop_succ]
    have hlog' : ∀ e ∈ log ++ [(continuation_step m snes eps gamma N s).2], Q e := by
      intro e he
      rcases List.mem_append.1 he with h | h
      · exact hlog e h
      · rw [List.mem_singleton.1 h]
        exact hentry N s hs
    cases h : (continuation_step m snes eps gamma N s).1 with
    | done s' => exact hlog'
    | next s' => exact ih (N + 1) s' _ (hnext N s s' hs h) hlog'
    | failed message s' => exact hlog'

theorem continuation_step_accept_eq (m : CMath K) (snes : SNES K X) (eps gamma : K)
    (N : Nat) (s : ContinuationState K X)
    (hr : 0 < (snes.solve N s.lambda (viscosity_eps m eps gamma s.lambda) s.m_x).reason)
    (he : ¬ viscosity_eps m eps gamma s.lambda ≤ eps) (d l : K)
    (hd : d = min (min
      ((if 1 < N then 1 + A * ((((snes.snes_max_it
        - (snes.solve N s.lambda (viscosity_eps m eps gamma s.lambda) s.m_x).snes_it
        : Int) : K) / (snes.snes_max_it : K)) ^ 2) else 1) * s.delta)
      delta_max) (lambda_max - s.lambda))
    (hl : l = s.lambda + d) :
    (continuation_step m snes eps gamma N s).1
      = StepOutcome.next ⟨l, d,
          (snes.solve N s.lambda (viscosity_eps m eps gamma s.lambda) s.m_x).x,
          (snes.solve N s.lambda (viscosity_eps m eps gamma s.lambda) s.m_x).x⟩ := by
  rw [continuation_step_accept m snes eps gamma N s hr he, hl, hd]

theorem continuation_step_backtrack_eq (m : CMath K) (snes : SNES K X) (eps gamma : K)
    (N : Nat) (s : ContinuationState K X) (hN : 1 ≤ N)
    (hr : (snes.solve N s.lambda (viscosity_eps m eps gamma s.lambda) s.m_x).reason ≤ 0)
    (hd : (snes.solve N s.lambda (viscosity_eps m eps gamma s.lambda) s.m_x).reason
        = snes.SNES_DIVERGED_LINE_SEARCH ∨
      (snes.solve N s.lambda (viscosity_eps m eps gamma s.lambda) s.m_x).reason
        = snes.SNES_DIVERGED_MAX_IT)
    (h1 : lambda_min ≤ s.lambda - s.delta) (h2 : 1 / 1000000 ≤ |s.delta - delta_min|)
    (d l : K) (hd' : d = clip (s.delta * (1 / 2)) delta_min delta_max)
    (hl : l = s.lambda - s.delta + d) :
    (continuation_step m snes eps gamma N s).1
      = StepOutcome.next ⟨l, d, s.m_x_old, s.m_x_old⟩ := by
  rw [continuation_step_backtrack m snes eps gamma N s hN hr hd, if_neg (not_lt.2 h1),
    if_neg (not_lt.2 h2), hl, hd']

theorem delta_min_le_clip (x : K) : delta_min ≤ clip x delta_min delta_max := by
  unfold clip
  refine le_min (le_max_left _ _) ?_
  norm_num [delta_min, delta_max]

theorem one_le_growth (N : Nat) (F : K) : 1 ≤ (if 1 < N then 1 + A * F ^ 2 else 1) := by
  split_ifs
  · have h := sq_nonneg F
    unfold A
    linarith
  · exact le_refl 1

/-- C14 (amended): for every solver, `update` terminates after at most `Nc + 1 = 21`
nonlinear solves, which are the steps `N = 0, 1, 2, ...` in this order; it throws "failed
after 20 parameter continuation steps" only after `Nc + 1` solves, when the step counter
has reached `Nc + 1`, and then it does not solve again. -/
theorem update_at_most_Nc_plus_one_solves (m : CMath K) (snes : SNES K X)
    (schoofLen schoofVel : K) (m_x : X) :
    (update m snes schoofLen schoofVel m_x).log.length ≤ Nc + 1 ∧
    (update m snes schoofLen schoofVel m_x).log.map LogEntry.N
      = List.range (update m snes schoofLen schoofVel m_x).log.length ∧
    ((update m snes schoofLen schoofVel m_x).error
        = some "Blatter solver failed after 20 parameter continuation steps" →
      (update m snes schoofLen schoofVel m_x).log.length = Nc + 1) ∧
    (∀ (eps gamma : K) (N : Nat) (s : ContinuationState K X) (log : List (LogEntry K)),
      continuation_loop m snes eps gamma 0 N s log
        = ⟨some "Blatter solver failed after 20 parameter continuation steps", s, log⟩) := by
  refine ⟨?_, ?_, ?_, fun _ _ _ _ _ => rfl⟩
  · rw [update_eq]
    have h := continuation_loop_length_le m snes (eps_target m schoofLen schoofVel)
      (continuation_gamma m schoofLen schoofVel) (Nc + 1) 0
      ⟨lambda_max, delta0, m_x, m_x⟩ []
    simpa using h
  · rw [update_eq]
    obtain ⟨k, hk⟩ := continuation_loop_steps m snes (eps_target m schoofLen schoofVel)
      (continuation_gamma m schoofLen schoofVel) (Nc + 1) 0
      ⟨lambda_max, delta0, m_x, m_x⟩ []
    have hlen := congrArg List.length hk
    simp only [List.length_map, List.map_nil, List.nil_append, List.length_range'] at hlen
    rw [hk, hlen]
    simp [List.range_eq_range']
  · intro h
    rw [update_eq] at h ⊢
    have h' := continuation_loop_exhausted m snes _ _ _ _ _ _ h
    simpa using h'

/-- C11: when the solve at a step `N ≥ 1` ends in a recoverable divergence, `update`
restores the solution vector from `m_x_old` (which is left unchanged) and sets `lambda` to
`lambda - delta`; it then throws "Parameter continuation failed" if this `lambda` is below
`lambda_min`, otherwise throws "cannot reduce the continuation step" if `delta` is within
`1e-6` of `delta_min`, and otherwise continues with
`delta' = clip(delta / 2, delta_min, delta_max)` and `lambda' = (lambda - delta) + delta'`. -/
theorem update_backtracking_step (m : CMath K) (snes : SNES K X) (eps gamma : K) (N : Nat)
    (s : ContinuationState K X) (hN : 1 ≤ N)
    (hr : (snes.solve N s.lambda (viscosity_eps m eps gamma s.lambda) s.m_x).reason ≤ 0)
    (hd : (snes.solve N s.lambda (viscosity_eps m eps gamma s.lambda) s.m_x).reason
        = snes.SNES_DIVERGED_LINE_SEARCH ∨
      (snes.solve N s.lambda (viscosity_eps m eps gamma s.lambda) s.m_x).reason
        = snes.SNES_DIVERGED_MAX_IT) :
    (s.lambda - s.delta < lambda_min →
      (continuation_step m snes eps gamma N s).1
        = StepOutcome.failed "Blatter solver: Parameter continuation failed"
            ⟨s.lambda - s.delta, s.delta, s.m_x_old, s.m_x_old⟩) ∧
    (lambda_min ≤ s.lambda - s.delta → |s.delta - delta_min| < 1 / 1000000 →
      (continuation_step m snes eps gamma N s).1
        = StepOutcome.failed "Blatter solver: cannot reduce the continuation step"
            ⟨s.lambda - s.delta, s.delta, s.m_x_old, s.m_x_old⟩) ∧
    (lambda_min ≤ s.lambda - s.delta → 1 / 1000000 ≤ |s.delta - delta_min| →
      (continuation_step m snes eps gamma N s).1
        = StepOutcome.next
            ⟨(s.lambda - s.delta) + clip (s.delta / 2) delta_min delta_max,
              clip (s.delta / 2) delta_min delta_max, s.m_x_old, s.m_x_old⟩) := by
  have h := continuation_step_backtrack m snes eps gamma N s hN hr hd
  refine ⟨?_, ?_, ?_⟩
  · intro h1
    rw [h, if_pos h1]
  · intro h1 h2
    rw [h, if_neg (not_lt.2 h1), if_pos h2]
  · intro h1 h2
    rw [h, if_neg (not_lt.2 h1), if_neg (not_lt.2 h2)]
    have hhalf : s.delta * (1 / 2) = s.delta / 2 := by ring
    rw [hhalf]

/-- C12: when the solve at step `N` converges with the regularization still above `eps`,
`update` copies the solution into `m_x_old` and continues with
`delta' = min(g * delta, delta_max, lambda_max - lambda)` and `lambda' = lambda + delta'`,
where `g = 1 + A * F ^ 2` with `F = (snes_max_it - snes_it) / snes_max_it` if `N > 1` and
`g = 1` if `N ≤ 1`. -/
theorem update_accepted_step (m : CMath K) (snes : SNES K X) (eps gamma : K) (N : Nat)
    (s : ContinuationState K X)
    (hr : 0 < (snes.solve N s.lambda (viscosity_eps m eps gamma s.lambda) s.m_x).reason)
    (he : eps < viscosity_eps m eps gamma s.lambda) :
    ∃ F g delta' : K,
      F = (((snes.snes_max_it
        - (snes.solve N s.lambda (viscosity_eps m eps gamma s.lambda) s.m_x).snes_it : Int)
          : K) / (snes.snes_max_it : K)) ∧
      g = (if 1 < N then 1 + A * F ^ 2 else 1) ∧
      delta' = min (min (g * s.delta) delta_max) (lambda_max - s.lambda) ∧
      (continuation_step m snes eps gamma N s).1
        = StepOutcome.next
            ⟨s.lambda + delta', delta',
              (snes.solve N s.lambda (viscosity_eps m eps gamma s.lambda) s.m_x).x,
              (snes.solve N s.lambda (viscosity_eps m eps gamma s.lambda) s.m_x).x⟩ :=
  ⟨_, _, _, rfl, rfl, rfl, continuation_step_accept m snes eps gamma N s hr (not_le.2 he)⟩

/-- C13: when a solve ends with a reason that is not positive and is neither a line
search failure nor the iteration limit, `update` throws "Blatter solver failed" at once,
whatever the step `N` is: no further solve is performed, and `lambda`, `delta` and
`m_x_old` are as before the solve and `m_x` is as the solver left it. -/
theorem update_other_failure (m : CMath K) (snes : SNES K X) (eps gamma : K)
    (remaining N : Nat) (s : ContinuationState K X) (log : List (LogEntry K))
    (hr : (snes.solve N s.lambda (viscosity_eps m eps gamma s.lambda) s.m_x).reason ≤ 0)
    (h1 : (snes.solve N s.lambda (viscosity_eps m eps gamma s.lambda) s.m_x).reason
        ≠ snes.SNES_DIVERGED_LINE_SEARCH)
    (h2 : (snes.solve N s.lambda (viscosity_eps m eps gamma s.lambda) s.m_x).reason
        ≠ snes.SNES_DIVERGED_MAX_IT) :
    (continuation_step m snes eps gamma N s).1
      = StepOutcome.failed "Blatter solver failed"
          ⟨s.lambda, s.delta,
            (snes.solve N s.lambda (viscosity_eps m eps gamma s.lambda) s.m_x).x,
            s.m_x_old⟩ ∧
    continuation_loop m snes eps gamma (remaining + 1) N s log
      = ⟨some "Blatter solver failed",
          ⟨s.lambda, s.delta,
            (snes.solve N s.lambda (viscosity_eps m eps gamma s.lambda) s.m_x).x,
            s.m_x_old⟩,
          log ++ [(continuation_step m snes eps gamma N s).2]⟩ := by
  have h := continuation_step_other m snes eps gamma N s hr h1 h2
  refine ⟨h, ?_⟩
  rw [continuation_loop_succ, h]

/-- C18: with a solver that reports a recoverable divergence at every
`lambda > lambda_min` and convergence at `lambda = lambda_min`, where the regularization
is above the desired `eps`, `update` throws "cannot reduce the continuation step" after 6
solves (within `Nc` steps), and `delta` is not below `delta_min` at any solve nor when
`update` fails. -/
theorem update_backoff_fails (m : CMath K) (snes : SNES K X)
    (schoofLen schoofVel : K) (m_x : X)
    (hD : ∀ N lambda eps x, lambda_min < lambda →
      (snes.solve N lambda eps x).reason ≤ 0 ∧
      ((snes.solve N lambda eps x).reason = snes.SNES_DIVERGED_LINE_SEARCH ∨
        (snes.solve N lambda eps x).reason = snes.SNES_DIVERGED_MAX_IT))
    (hC : ∀ N eps x, 0 < (snes.solve N lambda_min eps x).reason)
    (habove : eps_target m schoofLen schoofVel
      < viscosity_eps m (eps_target m schoofLen schoofVel)
          (continuation_gamma m schoofLen schoofVel) lambda_min) :
    (update m snes schoofLen schoofVel m_x).error
      = some "Blatter solver: cannot reduce the continuation step" ∧
    (update m snes schoofLen schoofVel m_x).log.length = 6 ∧
    (update m snes schoofLen schoofVel m_x).log.length ≤ Nc ∧
    (∀ e ∈ (update m snes schoofLen schoofVel m_x).log, delta_min ≤ e.delta) ∧
    delta_min ≤ (update m snes schoofLen schoofVel m_x).state.delta := by
  have h0 := reaches_start m snes schoofLen schoofVel m_x
  have h1 := reaches_next _ m snes _ _ _ _ _ _ h0
    (continuation_step_zero_recoverable m snes _ _ ⟨lambda_max, delta0, m_x, m_x⟩
      (hD 0 lambda_max _ m_x (by norm_num [lambda_min, lambda_max])).1
      (hD 0 lambda_max _ m_x (by norm_num [lambda_min, lambda_max])).2)
  have h2 := reaches_next _ m snes _ _ _ _ _ _ h1
    (continuation_step_accept_eq m snes _ _ 1 ⟨lambda_min, delta0, 0, 0⟩
      (hC 1 _ 0) (not_le.2 habove) (1 / 20) (4 / 5)
      (by norm_num [delta0, delta_max, lambda_max, lambda_min])
      (by norm_num [lambda_min]))
  have h3 := reaches_next _ m snes _ _ _ _ _ _ h2
    (continuation_step_backtrack_eq m snes _ _ 2 ⟨4 / 5, 1 / 20, _, _⟩ (by norm_num)
      (hD 2 (4 / 5) _ _ (by norm_num [lambda_min])).1
      (hD 2 (4 / 5) _ _ (by norm_num [lambda_min])).2
      (by norm_num [lambda_min]) (by norm_num [delta_min, le_abs])
      (1 / 40) (31 / 40) (by norm_num [clip, delta_min, delta_max]) (by norm_num))
  have h4 := reaches_next _ m snes _ _ _ _ _ _ h3
    (continuation_step_backtrack_eq m snes _ _ 3 ⟨31 / 40, 1 / 40, _, _⟩ (by norm_num)
      (hD 3 (31 / 40) _ _ (by norm_num [lambda_min])).1
      (hD 3 (31 / 40) _ _ (by norm_num [lambda_min])).2
      (by norm_num [lambda_min]) (by norm_num [delta_min, le_abs])
      (1 / 80) (61 / 80) (by norm_num [clip, delta_min, delta_max]) (by norm_num))
  have h5 := reaches_next _ m snes _ _ _ _ _ _ h4
    (continuation_step_backtrack_eq m snes _ _ 4 ⟨61 / 80, 1 / 80, _, _⟩ (by norm_num)
      (hD 4 (61 / 80) _ _ (by norm_num [lambda_min])).1
      (hD 4 (61 / 80) _ _ (by norm_num [lambda_min])).2
      (by norm_num [lambda_min]) (by norm_num [delta_min, le_abs])
      (1 / 100) (19 / 25) (by norm_num [clip, delta_min, delta_max]) (by norm_num))
  have hlast : (continuation_step m snes (eps_target m schoofLen schoofVel)
      (continuation_gamma m schoofLen schoofVel) 5
      ⟨19 / 25, 1 / 100,
        (snes.solve 1 lambda_min
          (viscosity_eps m (eps_target m schoofLen schoofVel)
            (continuation_gamma m schoofLen schoofVel) lambda_min) 0).x,
        (snes.solve 1 lambda_min
          (viscosity_eps m (eps_target m schoofLen schoofVel)
            (continuation_gamma m schoofLen schoofVel) lambda_min) 0).x⟩).1
      = StepOutcome.failed "Blatter solver: cannot reduce the continuation step"
          ⟨19 / 25 - 1 / 100, 1 / 100,
            (snes.solve 1 lambda_min
              (viscosity_eps m (eps_target m schoofLen schoofVel)
                (continuation_gamma m schoofLen schoofVel) lambda_min) 0).x,
            (snes.solve 1 lambda_min
              (viscosity_eps m (eps_target m schoofLen schoofVel)
                (continuation_gamma m schoofLen schoofVel) lambda_min) 0).x⟩ := by
    rw [continuation_step_backtrack m snes _ _ 5 _ (by norm_num)
      (hD 5 (19 / 25) _ _ (by norm_num [lambda_min])).1
      (hD 5 (19 / 25) _ _ (by norm_num [lambda_min])).2]
    rw [if_neg (by norm_num [lambda_min]), if_pos (by norm_num [delta_min])]
  obtain ⟨herr, hlen, hstate⟩ := reaches_failed _ m snes _ _ _ _ _ _ _ h5 hlast
  have hinv := continuation_loop_invariant m snes (eps_target m schoofLen schoofVel)
    (continuation_gamma m schoofLen schoofVel)
    (fun s => lambda_min ≤ s.lambda ∧ delta_min ≤ s.delta)
    (fun e => delta_min ≤ e.delta)
    (by
      intro N s s' hs hnext
      obtain ⟨hl, hdelta⟩ := hs
      have hdmin : (0 : K) < delta_min := by norm_num [delta_min]
      rcases continuation_step_next_cases m snes _ _ N s s' hnext with
        ⟨hr, -, hd', hl'⟩ | ⟨-, -, rfl⟩ | ⟨-, -, h1, -, hd', hl'⟩
      · have heq : s.lambda = lambda_min := by
          refine le_antisymm ?_ hl
          by_contra hcon
          exact absurd hr (not_lt.2 (hD N _ _ _ (not_le.1 hcon)).1)
        have hge : delta_min ≤ s'.delta := by
          rw [hd', heq]
          refine le_min (le_min ?_ (by norm_num [delta_min, delta_max])) ?_
          · refine le_trans hdelta ?_
            exact le_mul_of_one_le_left (le_trans hdmin.le hdelta) (one_le_growth N _)
          · norm_num [delta_min, lambda_max, lambda_min]
        exact ⟨by rw [hl']; linarith, hge⟩
      · exact ⟨le_refl _, by norm_num [delta0, delta_min]⟩
      · have hge : delta_min ≤ s'.delta := by
          rw [hd']
          exact delta_min_le_clip _
        exact ⟨by rw [hl']; linarith, hge⟩)
    (by
      intro N s hs
      rw [continuation_step_entry]
      exact hs.2)
    (Nc + 1) 0 ⟨lambda_max, delta0, m_x, m_x⟩ []
    ⟨by norm_num [lambda_min, lambda_max], by norm_num [delta0, delta_min]⟩
    (by simp)
  rw [← update_eq] at hinv
  refine ⟨herr, hlen, ?_, hinv, ?_⟩
  · rw [hlen]
    decide
  · rw [hstate]
    norm_num [delta_min]

/-- C19: with a solver that converges for `lambda ≤ 0.9` and diverges recoverably for
`lambda > 0.9`, and a regularization that is above the desired `eps` for every
`lambda < 1`, whatever the iteration counts are: no solve with `lambda > 0.9` converges
(no such solution is accepted), every solve is made with `lambda ≥ lambda_min`, and
`update` ends by throwing an error, never at `bp_done`. -/
theorem update_converging_below_fails (m : CMath K) (snes : SNES K X)
    (schoofLen schoofVel : K) (m_x : X)
    (hC : ∀ N lambda eps x, lambda ≤ 9 / 10 → 0 < (snes.solve N lambda eps x).reason)
    (hD : ∀ N lambda eps x, 9 / 10 < lambda →
      (snes.solve N lambda eps x).reason ≤ 0 ∧
      ((snes.solve N lambda eps x).reason = snes.SNES_DIVERGED_LINE_SEARCH ∨
        (snes.solve N lambda eps x).reason = snes.SNES_DIVERGED_MAX_IT))
    (htarget : ∀ lambda, lambda < 1 →
      eps_target m schoofLen schoofVel
        < viscosity_eps m (eps_target m schoofLen schoofVel)
            (continuation_gamma m schoofLen schoofVel) lambda) :
    (∀ e ∈ (update m snes schoofLen schoofVel m_x).log, 0 < e.reason → e.lambda ≤ 9 / 10) ∧
    (∀ e ∈ (update m snes schoofLen schoofVel m_x).log, lambda_min ≤ e.lambda) ∧
    (∃ message, (update m snes schoofLen schoofVel m_x).error = some message) := by
  have hinv := continuation_loop_invariant m snes (eps_target m schoofLen schoofVel)
    (continuation_gamma m schoofLen schoofVel)
    (fun s => lambda_min ≤ s.lambda ∧ 0 < s.delta)
    (fun e => (0 < e.reason → e.lambda ≤ 9 / 10) ∧ lambda_min ≤ e.lambda ∧
      e.m_viscosity_eps = viscosity_eps m (eps_target m schoofLen schoofVel)
        (continuation_gamma m schoofLen schoofVel) e.lambda)
    (by
      intro N s s' hs hnext
      obtain ⟨hl, hdelta⟩ := hs
      rcases continuation_step_next_cases m snes _ _ N s s' hnext with
        ⟨hr, -, hd', hl'⟩ | ⟨-, -, rfl⟩ | ⟨-, -, h1, -, hd', hl'⟩
      · have hle : s.lambda ≤ 9 / 10 := by
          by_contra hcon
          exact absurd hr (not_lt.2 (hD N _ _ _ (not_le.1 hcon)).1)
        have hpos : 0 < s'.delta := by
          rw [hd']
          refine lt_min (lt_min ?_ (by norm_num [delta_max])) ?_
          · exact mul_pos (lt_of_lt_of_le one_pos (one_le_growth N _)) hdelta
          · unfold lambda_max
            linarith
        exact ⟨by rw [hl']; linarith, hpos⟩
      · exact ⟨le_refl _, by norm_num [delta0]⟩
      · have hpos : 0 < s'.delta := by
          rw [hd']
          exact lt_of_lt_of_le (by norm_num [delta_min]) (delta_min_le_clip _)
        exact ⟨by rw [hl']; linarith, hpos⟩)
    (by
      intro N s hs
      rw [continuation_step_entry]
      refine ⟨?_, hs.1, rfl⟩
      intro hr
      by_contra hcon
      exact absurd hr (not_lt.2 (hD N _ _ _ (not_le.1 hcon)).1))
    (Nc + 1) 0 ⟨lambda_max, delta0, m_x, m_x⟩ []
    ⟨by norm_num [lambda_min, lambda_max], by norm_num [delta0]⟩
    (by simp)
  rw [← update_eq] at hinv
  refine ⟨fun e he => (hinv e he).1, fun e he => (hinv e he).2.1, ?_⟩
  cases herr : (update m snes schoofLen schoofVel m_x).error with
  | some message => exact ⟨message, rfl⟩
  | none =>
    exfalso
    rw [update_eq] at herr
    obtain ⟨e, hlast, hr, he⟩ := (continuation_loop_error_none_iff m snes _ _ _ _ _ []
      (by simp)).1 herr
    rw [← update_eq] at hlast
    obtain ⟨hacc, -, hveps⟩ := hinv e (List.mem_of_getLast?_eq_some hlast)
    have hlt := htarget e.lambda (lt_of_le_of_lt (hacc hr) (by norm_num))
    rw [← hveps, he] at hlt
    exact lt_irrefl _ hlt

/-- The configurations of `loop_reaches` are those the loop of `update` goes through: the
loop started in `s0` continues from each of them. -/
theorem loop_reaches_loop (m : CMath K) (snes : SNES K X) (eps gamma : K)
    (s0 : ContinuationState K X) (N : Nat) (s : ContinuationState K X)
    (log : List (LogEntry K)) (h : loop_reaches m snes eps gamma s0 N s log) :
    continuation_loop m snes eps gamma (Nc + 1) 0 s0 []
      = continuation_loop m snes eps gamma (Nc + 1 - N) N s log := by
  induction h with
  | start => rfl
  | step N s s' log _ hN hstep ih =>
    rw [ih]
    have h1 : Nc + 1 - N = (Nc + 1 - (N + 1)) + 1 := by omega
    rw [h1, continuation_loop_succ, hstep]

theorem clip_half_le (d : K) (h : delta_min ≤ d) :
    clip (d * (1 / 2)) delta_min delta_max ≤ d := by
  unfold clip
  refine le_trans (min_le_left _ _) (max_le h ?_)
  have h0 : (0 : K) < delta_min := by norm_num [delta_min]
  linarith

/-- A back-tracking step that starts from a step length `delta ≥ delta_min` and does not
throw continues with a strictly smaller step length that is not below `delta_min`. -/
theorem backtracking_step_smaller (m : CMath K) (snes : SNES K X) (eps gamma : K) (N : Nat)
    (s s' : ContinuationState K X) (hN : 1 ≤ N)
    (hrec : recoverable snes (continuation_step m snes eps gamma N s).2.reason)
    (hstep : (continuation_step m snes eps gamma N s).1 = StepOutcome.next s')
    (hdelta : delta_min ≤ s.delta) :
    s'.delta < s.delta ∧ delta_min ≤ s'.delta := by
  rw [continuation_step_entry] at hrec
  rcases continuation_step_next_cases m snes eps gamma N s s' hstep with
    ⟨hr, -⟩ | ⟨-, hN0, -⟩ | ⟨-, -, -, hnear, hd, -⟩
  · exact absurd hr (not_lt.2 hrec.1)
  · omega
  · rw [abs_of_nonneg (by linarith)] at hnear
    have h0 : (0 : K) < delta_min := by norm_num [delta_min]
    refine ⟨?_, by rw [hd]; exact delta_min_le_clip _⟩
    rw [hd]
    unfold clip
    refine lt_of_le_of_lt (min_le_left _ _) (max_lt ?_ ?_)
    · linarith
    · linarith
/-- If `std::pow(10.0, lambda_max * gamma)` exceeds `eps`, a converged solve at
`lambda = lambda_max` is not at the desired regularization: the step is accepted, with the
step length cut to `lambda_max - lambda = 0`. -/
theorem continuation_step_stalls (m : CMath K) (snes : SNES K X) (eps gamma : K) (N : Nat)
    (s : ContinuationState K X)
    (hr : 0 < (snes.solve N s.lambda (viscosity_eps m eps gamma s.lambda) s.m_x).reason)
    (hover : eps < m.pow 10 (lambda_max * gamma)) (hs : s.lambda = lambda_max)
    (hd : 0 ≤ s.delta) :
    (continuation_step m snes eps gamma N s).1
      = StepOutcome.next ⟨lambda_max, 0,
          (snes.solve N s.lambda (viscosity_eps m eps gamma s.lambda) s.m_x).x,
          (snes.solve N s.lambda (viscosity_eps m eps gamma s.lambda) s.m_x).x⟩ := by
  have he : ¬ viscosity_eps m eps gamma s.lambda ≤ eps := by
    rw [not_le, hs]
    exact lt_of_lt_of_le hover (le_max_left _ _)
  refine continuation_step_accept_eq m snes eps gamma N s hr he 0 lambda_max ?_ ?_
  · rw [hs, sub_self]
    have hg := one_le_growth N ((((snes.snes_max_it
      - (snes.solve N s.lambda (viscosity_eps m eps gamma s.lambda) s.m_x).snes_it
      : Int) : K) / (snes.snes_max_it : K)))
    rw [hs] at hg
    exact (min_eq_right (le_min (mul_nonneg (by linarith) hd)
      (by norm_num [delta_max]))).symm
  · rw [hs, add_zero]

/-- If `std::pow(10.0, lambda_max * gamma)` exceeds `eps` and every solve converges, the
loop of `update` started at `lambda = lambda_max` stays there and runs until the step
counter is exhausted. -/
theorem continuation_loop_stalls (m : CMath K) (snes : SNES K X) (eps gamma : K)
    (hover : eps < m.pow 10 (lambda_max * gamma))
    (hconv : ∀ N lambda eps x, 0 < (snes.solve N lambda eps x).reason)
    (remaining N : Nat) (s : ContinuationState K X) (log : List (LogEntry K))
    (hs : s.lambda = lambda_max) (hd : 0 ≤ s.delta) :
    (continuation_loop m snes eps gamma remaining N s log).error
      = some "Blatter solver failed after 20 parameter continuation steps" ∧
    (continuation_loop m snes eps gamma remaining N s log).log.length
      = log.length + remaining := by
  induction remaining generalizing N s log with
  | zero => exact ⟨rfl, rfl⟩
  | succ remaining ih =>
    rw [continuation_loop_succ,
      continuation_step_stalls m snes eps gamma N s (hconv _ _ _ _) hover hs hd]
    obtain ⟨h1, h2⟩ := ih (N + 1) ⟨lambda_max, 0,
      (snes.solve N s.lambda (viscosity_eps m eps gamma s.lambda) s.m_x).x,
      (snes.solve N s.lambda (viscosity_eps m eps gamma s.lambda) s.m_x).x⟩
      (log ++ [(continuation_step m snes eps gamma N s).2]) rfl (le_refl 0)
    refine ⟨h1, ?_⟩
    rw [h2]
    simp only [List.length_append, List.length_singleton]
    omega

end continuation_thms

section continuation_real

variable {X : Type} [Zero X]

theorem real_eps_target (m : CMath ℝ) (hpow : ∀ x y, m.pow x y = x ^ y) :
    eps_target m 10 1 = 1 / 100 := by
  unfold eps_target
  rw [hpow, Real.rpow_two]
  norm_num

theorem real_continuation_gamma (m : CMath ℝ) (hpow : ∀ x y, m.pow x y = x ^ y)
    (hlog : ∀ x, m.log10 x = Real.logb 10 x) (hfloor : ∀ x, m.floor x = (⌊x⌋ : ℝ)) :
    continuation_gamma m 10 1 = -2 := by
  unfold continuation_gamma
  rw [real_eps_target m hpow, hfloor, hlog]
  have h : (1 / 100 : ℝ) = (10 : ℝ) ^ (((-2 : ℤ) : ℝ)) := by
    rw [Real.rpow_intCast]
    norm_num
  rw [h, Real.logb_rpow (by norm_num) (by norm_num), Int.floor_intCast]
  norm_num

theorem real_viscosity_eps_gt (m : CMath ℝ) (hpow : ∀ x y, m.pow x y = x ^ y)
    (lambda : ℝ) (h : lambda < 1) : ¬ viscosity_eps m (1 / 100) (-2) lambda ≤ 1 / 100 := by
  unfold viscosity_eps
  rw [hpow, not_le]
  refine lt_of_lt_of_le ?_ (le_max_left _ _)
  have h2 : (1 / 100 : ℝ) = (10 : ℝ) ^ (-2 : ℝ) := by
    rw [show (-2 : ℝ) = (((-2 : ℤ)) : ℝ) by norm_num, Real.rpow_intCast]
    norm_num
  rw [h2]
  exact Real.rpow_lt_rpow_of_exponent_lt (by norm_num) (by linarith)

theorem real_viscosity_eps_eq (m : CMath ℝ) (hpow : ∀ x y, m.pow x y = x ^ y)
    (lambda : ℝ) (h : 1 ≤ lambda) : viscosity_eps m (1 / 100) (-2) lambda = 1 / 100 := by
  unfold viscosity_eps
  rw [hpow]
  apply max_eq_right
  have h2 : (1 / 100 : ℝ) = (10 : ℝ) ^ (-2 : ℝ) := by
    rw [show (-2 : ℝ) = (((-2 : ℤ)) : ℝ) by norm_num, Real.rpow_intCast]
    norm_num
  rw [h2]
  exact Real.rpow_le_rpow_of_exponent_le (by norm_num) (by linarith)

/-- With a desired regularization `eps = 1 / 100` and the solver `stub_alternating`, the loop
of `update` performs the 21 solves `N = 0, ..., 20` and leaves the loop with `N = 21`. -/
theorem run_alternating (m : CMath ℝ) (hpow : ∀ x y, m.pow x y = x ^ y)
    (hlog : ∀ x, m.log10 x = Real.logb 10 x) (hfloor : ∀ x, m.floor x = (⌊x⌋ : ℝ)) :
    reaches (update m (stub_alternating ℝ) 10 1 0) m (stub_alternating ℝ) (1 / 100) (-2) 0 21
      ⟨79 / 80, 1 / 80, 0, 0⟩ := by
  have h0 := reaches_start m (stub_alternating ℝ) 10 1 0
  rw [real_eps_target m hpow, real_continuation_gamma m hpow hlog hfloor] at h0
  have h1 : reaches (update m (stub_alternating ℝ) 10 1 0) m (stub_alternating ℝ) (1 / 100) (-2)
      20 1 ⟨3 / 4, 1 / 20, 0, 0⟩ := by
    refine reaches_next _ m _ _ _ _ _ _ _ h0 ?_
    rw [continuation_step_zero_recoverable m (stub_alternating ℝ) _ _ _
      (by norm_num [stub_alternating, lambda_max]) (by norm_num [stub_alternating, lambda_max])]
    norm_num [lambda_min, delta0]
  have h2 : reaches (update m (stub_alternating ℝ) 10 1 0) m (stub_alternating ℝ) (1 / 100) (-2)
      19 2 ⟨4 / 5, 1 / 20, 0, 0⟩ := by
    refine reaches_next _ m _ _ _ _ _ _ _ h1 ?_
    rw [continuation_step_accept m (stub_alternating ℝ) _ _ 1 _
      (by norm_num [stub_alternating]) (real_viscosity_eps_gt m hpow _ (by norm_num))]
    norm_num [stub_alternating, A, delta_max, lambda_max]
  have h3 : reaches (update m (stub_alternating ℝ) 10 1 0) m (stub_alternating ℝ) (1 / 100) (-2)
      18 3 ⟨31 / 40, 1 / 40, 0, 0⟩ := by
    refine reaches_next _ m _ _ _ _ _ _ _ h2 ?_
    rw [continuation_step_backtrack m (stub_alternating ℝ) _ _ 2 _ (by norm_num)
      (by norm_num [stub_alternating]) (by norm_num [stub_alternating])]
    norm_num [lambda_min, delta_min, delta_max, clip, abs_lt]
  have h4 : reaches (update m (stub_alternating ℝ) 10 1 0) m (stub_alternating ℝ) (1 / 100) (-2)
      17 4 ⟨33 / 40, 1 / 20, 0, 0⟩ := by
    refine reaches_next _ m _ _ _ _ _ _ _ h3 ?_
    rw [continuation_step_accept m (stub_alternating ℝ) _ _ 3 _
      (by norm_num [stub_alternating]) (real_viscosity_eps_gt m hpow _ (by norm_num))]
    norm_num [stub_alternating, A, delta_max, lambda_max]
  have h5 : reaches (update m (stub_alternating ℝ) 10 1 0) m (stub_alternating ℝ) (1 / 100) (-2)
      16 5 ⟨4 / 5, 1 / 40, 0, 0⟩ := by
    refine reaches_next _ m _ _ _ _ _ _ _ h4 ?_
    rw [continuation_step_backtrack m (stub_alternating ℝ) _ _ 4 _ (by norm_num)
      (by norm_num [stub_alternating]) (by norm_num [stub_alternating])]
    norm_num [lambda_min, delta_min, delta_max, clip, abs_lt]
  have h6 : reaches (update m (stub_alternating ℝ) 10 1 0) m (stub_alternating ℝ) (1 / 100) (-2)
      15 6 ⟨17 / 20, 1 / 20, 0, 0⟩ := by
    refine reaches_next _ m _ _ _ _ _ _ _ h5 ?_
    rw [continuation_step_accept m (stub_alternating ℝ) _ _ 5 _
      (by norm_num [stub_alternating]) (real_viscosity_eps_gt m hpow _ (by norm_num))]
    norm_num [stub_alternating, A, delta_max, lambda_max]
  have h7 : reaches (update m (stub_alternating ℝ) 10 1 0) m (stub_alternating ℝ) (1 / 100) (-2)
      14 7 ⟨33 / 40, 1 / 40, 0, 0⟩ := by
    refine reaches_next _ m _ _ _ _ _ _ _ h6 ?_
    rw [continuation_step_backtrack m (stub_alternating ℝ) _ _ 6 _ (by norm_num)
      (by norm_num [stub_alternating]) (by norm_num [stub_alternating])]
    norm_num [lambda_min, delta_min, delta_max, clip, abs_lt]
  have h8 : reaches (update m (stub_alternating ℝ) 10 1 0) m (stub_alternating ℝ) (1 / 100) (-2)
      13 8 ⟨7 / 8, 1 / 20, 0, 0⟩ := by
    refine reaches_next _ m _ _ _ _ _ _ _ h7 ?_
    rw [continuation_step_accept m (stub_alternating ℝ) _ _ 7 _
      (by norm_num [stub_alternating]) (real_viscosity_eps_gt m hpow _ (by norm_num))]
    norm_num [stub_alternating, A, delta_max, lambda_max]
  have h9 : reaches (update m (stub_alternating ℝ) 10 1 0) m (stub_alternating ℝ) (1 / 100) (-2)
      12 9 ⟨17 / 20, 1 / 40, 0, 0⟩ := by
    refine reaches_next _ m _ _ _ _ _ _ _ h8 ?_
    rw [continuation_step_backtrack m (stub_alternating ℝ) _ _ 8 _ (by norm_num)
      (by norm_num [stub_alternating]) (by norm_num [stub_alternating])]
    norm_num [lambda_min, delta_min, delta_max, clip, abs_lt]
  have h10 : reaches (update m (stub_alternating ℝ) 10 1 0) m (stub_alternating ℝ) (1 / 100) (-2)
      11 10 ⟨9 / 10, 1 / 20, 0, 0⟩ := by
    refine reaches_next _ m _ _ _ _ _ _ _ h9 ?_
    rw [continuation_step_accept m (stub_alternating ℝ) _ _ 9 _
      (by norm_num [stub_alternating]) (real_viscosity_eps_gt m hpow _ (by norm_num))]
    norm_num [stub_alternating, A, delta_max, lambda_max]
  have h11 : reaches (update m (stub_alternating ℝ) 10 1 0) m (stub_alternating ℝ) (1 / 100) (-2)
      10 11 ⟨7 / 8, 1 / 40, 0, 0⟩ := by
    refine reaches_next _ m _ _ _ _ _ _ _ h10 ?_
    rw [continuation_step_backtrack m (stub_alternating ℝ) _ _ 10 _ (by norm_num)
      (by norm_num [stub_alternating]) (by norm_num [stub_alternating])]
    norm_num [lambda_min, delta_min, delta_max, clip, abs_lt]
  have h12 : reaches (update m (stub_alternating ℝ) 10 1 0) m (stub_alternating ℝ) (1 / 100) (-2)
      9 12 ⟨37 / 40, 1 / 20, 0, 0⟩ := by
    refine reaches_next _ m _ _ _ _ _ _ _ h11 ?_
    rw [continuation_step_accept m (stub_alternating ℝ) _ _ 11 _
      (by norm_num [stub_alternating]) (real_viscosity_eps_gt m hpow _ (by norm_num))]
    norm_num [stub_alternating, A, delta_max, lambda_max]
  have h13 : reaches (update m (stub_alternating ℝ) 10 1 0) m (stub_alternating ℝ) (1 / 100) (-2)
      8 13 ⟨9 / 10, 1 / 40, 0, 0⟩ := by
    refine reaches_next _ m _ _ _ _ _ _ _ h12 ?_
    rw [continuation_step_backtrack m (stub_alternating ℝ) _ _ 12 _ (by norm_num)
      (by norm_num [stub_alternating]) (by norm_num [stub_alternating])]
    norm_num [lambda_min, delta_min, delta_max, clip, abs_lt]
  have h14 : reaches (update m (stub_alternating ℝ) 10 1 0) m (stub_alternating ℝ) (1 / 100) (-2)
      7 14 ⟨19 / 20, 1 / 20, 0, 0⟩ := by
    refine reaches_next _ m _ _ _ _ _ _ _ h13 ?_
    rw [continuation_step_accept m (stub_alternating ℝ) _ _ 13 _
      (by norm_num [stub_alternating]) (real_viscosity_eps_gt m hpow _ (by norm_num))]
    norm_num [stub_alternating, A, delta_max, lambda_max]
  have h15 : reaches (update m (stub_alternating ℝ) 10 1 0) m (stub_alternating ℝ) (1 / 100) (-2)
      6 15 ⟨37 / 40, 1 / 40, 0, 0⟩ := by
    refine reaches_next _ m _ _ _ _ _ _ _ h14 ?_
    rw [continuation_step_backtrack m (stub_alternating ℝ) _ _ 14 _ (by norm_num)
      (by norm_num [stub_alternating]) (by norm_num [stub_alternating])]
    norm_num [lambda_min, delta_min, delta_max, clip, abs_lt]
  have h16 : reaches (update m (stub_alternating ℝ) 10 1 0) m (stub_alternating ℝ) (1 / 100) (-2)
      5 16 ⟨39 / 40, 1 / 20, 0, 0⟩ := by
    refine reaches_next _ m _ _ _ _ _ _ _ h15 ?_
    rw [continuation_step_accept m (stub_alternating ℝ) _ _ 15 _
      (by norm_num [stub_alternating]) (real_viscosity_eps_gt m hpow _ (by norm_num))]
    norm_num [stub_alternating, A, delta_max, lambda_max]
  have h17 : reaches (update m (stub_alternating ℝ) 10 1 0) m (stub_alternating ℝ) (1 / 100) (-2)
      4 17 ⟨19 / 20, 1 / 40, 0, 0⟩ := by
    refine reaches_next _ m _ _ _ _ _ _ _ h16 ?_
    rw [continuation_step_backtrack m (stub_alternating ℝ) _ _ 16 _ (by norm_num)
      (by norm_num [stub_alternating]) (by norm_num [stub_alternating])]
    norm_num [lambda_min, delta_min, delta_max, clip, abs_lt]
  have h18 : reaches (update m (stub_alternating ℝ) 10 1 0) m (stub_alternating ℝ) (1 / 100) (-2)
      3 18 ⟨1, 1 / 20, 0, 0⟩ := by
    refine reaches_next _ m _ _ _ _ _ _ _ h17 ?_
    rw [continuation_step_accept m (stub_alternating ℝ) _ _ 17 _
      (by norm_num [stub_alternating]) (real_viscosity_eps_gt m hpow _ (by norm_num))]
    norm_num [stub_alternating, A, delta_max, lambda_max]
  have h19 : reaches (update m (stub_alternating ℝ) 10 1 0) m (stub_alternating ℝ) (1 / 100) (-2)
      2 19 ⟨39 / 40, 1 / 40, 0, 0⟩ := by
    refine reaches_next _ m _ _ _ _ _ _ _ h18 ?_
    rw [continuation_step_backtrack m (stub_alternating ℝ) _ _ 18 _ (by norm_num)
      (by norm_num [stub_alternating]) (by norm_num [stub_alternating])]
    norm_num [lambda_min, delta_min, delta_max, clip, abs_lt]
  have h20 : reaches (update m (stub_alternating ℝ) 10 1 0) m (stub_alternating ℝ) (1 / 100) (-2)
      1 20 ⟨1, 1 / 40, 0, 0⟩ := by
    refine reaches_next _ m _ _ _ _ _ _ _ h19 ?_
    rw [continuation_step_accept m (stub_alternating ℝ) _ _ 19 _
      (by norm_num [stub_alternating]) (real_viscosity_eps_gt m hpow _ (by norm_num))]
    norm_num [stub_alternating, A, delta_max, lambda_max]
  have h21 : reaches (update m (stub_alternating ℝ) 10 1 0) m (stub_alternating ℝ) (1 / 100) (-2)
      0 21 ⟨79 / 80, 1 / 80, 0, 0⟩ := by
    refine reaches_next _ m _ _ _ _ _ _ _ h20 ?_
    rw [continuation_step_backtrack m (stub_alternating ℝ) _ _ 20 _ (by norm_num)
      (by norm_num [stub_alternating]) (by norm_num [stub_alternating])]
    norm_num [lambda_min, delta_min, delta_max, clip, abs_lt]
  exact h21

/-- With a desired regularization `eps = 1 / 100` and the solver `stub_target_diverges`, the
loop of `update` reaches the step `N = 12` with `lambda = 1` and the step length
`delta = 1 / 400`, which is below `delta_min`. -/
theorem run_target_diverges_capped (m : CMath ℝ) (hpow : ∀ x y, m.pow x y = x ^ y)
    (hlog : ∀ x, m.log10 x = Real.logb 10 x) (hfloor : ∀ x, m.floor x = (⌊x⌋ : ℝ)) :
    reaches (update m (stub_target_diverges ℝ) 10 1 0) m (stub_target_diverges ℝ) (1 / 100) (-2) 9 12
      ⟨1, 1 / 400, 0, 0⟩ := by
  have h0 := reaches_start m (stub_target_diverges ℝ) 10 1 0
  rw [real_eps_target m hpow, real_continuation_gamma m hpow hlog hfloor] at h0
  have h1 : reaches (update m (stub_target_diverges ℝ) 10 1 0) m (stub_target_diverges ℝ) (1 / 100) (-2)
      20 1 ⟨3 / 4, 1 / 20, 0, 0⟩ := by
    refine reaches_next _ m _ _ _ _ _ _ _ h0 ?_
    rw [continuation_step_zero_recoverable m (stub_target_diverges ℝ) _ _ _
      (by norm_num [stub_target_diverges, lambda_max]) (by norm_num [stub_target_diverges, lambda_max])]
    norm_num [lambda_min, delta0]
  have h2 : reaches (update m (stub_target_diverges ℝ) 10 1 0) m (stub_target_diverges ℝ) (1 / 100) (-2)
      19 2 ⟨4 / 5, 1 / 20, 0, 0⟩ := by
    refine reaches_next _ m _ _ _ _ _ _ _ h1 ?_
    rw [continuation_step_accept m (stub_target_diverges ℝ) _ _ 1 _
      (by norm_num [stub_target_diverges]) (real_viscosity_eps_gt m hpow _ (by norm_num))]
    norm_num [stub_target_diverges, A, delta_max, lambda_max]
  have h3 : reaches (update m (stub_target_diverges ℝ) 10 1 0) m (stub_target_diverges ℝ) (1 / 100) (-2)
      18 3 ⟨9 / 10, 1 / 10, 0, 0⟩ := by
    refine reaches_next _ m _ _ _ _ _ _ _ h2 ?_
    rw [continuation_step_accept m (stub_target_diverges ℝ) _ _ 2 _
      (by norm_num [stub_target_diverges]) (real_viscosity_eps_gt m hpow _ (by norm_num))]
    norm_num [stub_target_diverges, A, delta_max, lambda_max]
  have h4 : reaches (update m (stub_target_diverges ℝ) 10 1 0) m (stub_target_diverges ℝ) (1 / 100) (-2)
      17 4 ⟨1, 1 / 10, 0, 0⟩ := by
    refine reaches_next _ m _ _ _ _ _ _ _ h3 ?_
    rw [continuation_step_accept m (stub_target_diverges ℝ) _ _ 3 _
      (by norm_num [stub_target_diverges]) (real_viscosity_eps_gt m hpow _ (by norm_num))]
    norm_num [stub_target_diverges, A, delta_max, lambda_max]
  have h5 : reaches (update m (stub_target_diverges ℝ) 10 1 0) m (stub_target_diverges ℝ) (1 / 100) (-2)
      16 5 ⟨19 / 20, 1 / 20, 0, 0⟩ := by
    refine reaches_next _ m _ _ _ _ _ _ _ h4 ?_
    rw [continuation_step_backtrack m (stub_target_diverges ℝ) _ _ 4 _ (by norm_num)
      (by norm_num [stub_target_diverges]) (by norm_num [stub_target_diverges])]
    norm_num [lambda_min, delta_min, delta_max, clip, abs_lt]
  have h6 : reaches (update m (stub_target_diverges ℝ) 10 1 0) m (stub_target_diverges ℝ) (1 / 100) (-2)
      15 6 ⟨1, 1 / 20, 0, 0⟩ := by
    refine reaches_next _ m _ _ _ _ _ _ _ h5 ?_
    rw [continuation_step_accept m (stub_target_diverges ℝ) _ _ 5 _
      (by norm_num [stub_target_diverges]) (real_viscosity_eps_gt m hpow _ (by norm_num))]
    norm_num [stub_target_diverges, A, delta_max, lambda_max]
  have h7 : reaches (update m (stub_target_diverges ℝ) 10 1 0) m (stub_target_diverges ℝ) (1 / 100) (-2)
      14 7 ⟨39 / 40, 1 / 40, 0, 0⟩ := by
    refine reaches_next _ m _ _ _ _ _ _ _ h6 ?_
    rw [continuation_step_backtrack m (stub_target_diverges ℝ) _ _ 6 _ (by norm_num)
      (by norm_num [stub_target_diverges]) (by norm_num [stub_target_diverges])]
    norm_num [lambda_min, delta_min, delta_max, clip, abs_lt]
  have h8 : reaches (update m (stub_target_diverges ℝ) 10 1 0) m (stub_target_diverges ℝ) (1 / 100) (-2)
      13 8 ⟨1, 1 / 40, 0, 0⟩ := by
    refine reaches_next _ m _ _ _ _ _ _ _ h7 ?_
    rw [continuation_step_accept m (stub_target_diverges ℝ) _ _ 7 _
      (by norm_num [stub_target_diverges]) (real_viscosity_eps_gt m hpow _ (by norm_num))]
    norm_num [stub_target_diverges, A, delta_max, lambda_max]
  have h9 : reaches (update m (stub_target_diverges ℝ) 10 1 0) m (stub_target_diverges ℝ) (1 / 100) (-2)
      12 9 ⟨79 / 80, 1 / 80, 0, 0⟩ := by
    refine reaches_next _ m _ _ _ _ _ _ _ h8 ?_
    rw [continuation_step_backtrack m (stub_target_diverges ℝ) _ _ 8 _ (by norm_num)
      (by norm_num [stub_target_diverges]) (by norm_num [stub_target_diverges])]
    norm_num [lambda_min, delta_min, delta_max, clip, abs_lt]
  have h10 : reaches (update m (stub_target_diverges ℝ) 10 1 0) m (stub_target_diverges ℝ) (1 / 100) (-2)
      11 10 ⟨1, 1 / 80, 0, 0⟩ := by
    refine reaches_next _ m _ _ _ _ _ _ _ h9 ?_
    rw [continuation_step_accept m (stub_target_diverges ℝ) _ _ 9 _
      (by norm_num [stub_target_diverges]) (real_viscosity_eps_gt m hpow _ (by norm_num))]
    norm_num [stub_target_diverges, A, delta_max, lambda_max]
  have h11 : reaches (update m (stub_target_diverges ℝ) 10 1 0) m (stub_target_diverges ℝ) (1 / 100) (-2)
      10 11 ⟨399 / 400, 1 / 100, 0, 0⟩ := by
    refine reaches_next _ m _ _ _ _ _ _ _ h10 ?_
    rw [continuation_step_backtrack m (stub_target_diverges ℝ) _ _ 10 _ (by norm_num)
      (by norm_num [stub_target_diverges]) (by norm_num [stub_target_diverges])]
    norm_num [lambda_min, delta_min, delta_max, clip, abs_lt]
  have h12 : reaches (update m (stub_target_diverges ℝ) 10 1 0) m (stub_target_diverges ℝ) (1 / 100) (-2)
      9 12 ⟨1, 1 / 400, 0, 0⟩ := by
    refine reaches_next _ m _ _ _ _ _ _ _ h11 ?_
    rw [continuation_step_accept m (stub_target_diverges ℝ) _ _ 11 _
      (by norm_num [stub_target_diverges]) (real_viscosity_eps_gt m hpow _ (by norm_num))]
    norm_num [stub_target_diverges, A, delta_max, lambda_max]
  exact h12

/-- With a desired regularization `eps = 1 / 100` and the solver `stub_target_diverges`, the
loop of `update` reaches the step `N = 13` with `lambda = 403 / 400`. -/
theorem run_target_diverges (m : CMath ℝ) (hpow : ∀ x y, m.pow x y = x ^ y)
    (hlog : ∀ x, m.log10 x = Real.logb 10 x) (hfloor : ∀ x, m.floor x = (⌊x⌋ : ℝ)) :
    reaches (update m (stub_target_diverges ℝ) 10 1 0) m (stub_target_diverges ℝ) (1 / 100) (-2) 8 13
      ⟨403 / 400, 1 / 100, 0, 0⟩ := by
  have h12 := run_target_diverges_capped m hpow hlog hfloor
  have h13 : reaches (update m (stub_target_diverges ℝ) 10 1 0) m (stub_target_diverges ℝ) (1 / 100) (-2)
      8 13 ⟨403 / 400, 1 / 100, 0, 0⟩ := by
    refine reaches_next _ m _ _ _ _ _ _ _ h12 ?_
    rw [continuation_step_backtrack m (stub_target_diverges ℝ) _ _ 12 _ (by norm_num)
      (by norm_num [stub_target_diverges]) (by norm_num [stub_target_diverges])]
    norm_num [lambda_min, delta_min, delta_max, clip, abs_lt]
  exact h13

theorem real_pow_gamma_le (eps : ℝ) (heps : 0 < eps) :
    (10 : ℝ) ^ ((⌊Real.logb 10 eps⌋ : ℤ) : ℝ) ≤ eps := by
  calc (10 : ℝ) ^ ((⌊Real.logb 10 eps⌋ : ℤ) : ℝ)
      ≤ (10 : ℝ) ^ Real.logb 10 eps :=
        Real.rpow_le_rpow_of_exponent_le (by norm_num) (Int.floor_le _)
    _ = eps := Real.rpow_logb (by norm_num) (by norm_num) heps

/-- In exact real arithmetic, with the real functions `pow`, `log10` and `floor` and a
desired regularization `eps > 0`, `10 ^ gamma ≤ eps`, so the first nonlinear solve (step 0, `lambda = 1`) uses the
regularization `eps` itself; hence if the first solve reports convergence, `update`
reaches `bp_done` after exactly one solve, and with a solver that always converges with
`iterations_used = 0` it reaches `bp_done` within `Nc` steps. -/
theorem update_first_solve_at_target (m : CMath ℝ) (snes : SNES ℝ X)
    (schoofLen schoofVel : ℝ) (m_x : X)
    (hpow : ∀ x y, m.pow x y = x ^ y) (hlog : ∀ x, m.log10 x = Real.logb 10 x)
    (hfloor : ∀ x, m.floor x = (⌊x⌋ : ℝ))
    (heps : 0 < eps_target m schoofLen schoofVel) :
    m.pow 10 (continuation_gamma m schoofLen schoofVel) ≤ eps_target m schoofLen schoofVel ∧
    (∃ e l, (update m snes schoofLen schoofVel m_x).log = e :: l ∧ e.N = 0 ∧
      e.lambda = 1 ∧ e.m_viscosity_eps = eps_target m schoofLen schoofVel ∧
      e.reason = (snes.solve 0 1 (eps_target m schoofLen schoofVel) m_x).reason) ∧
    (0 < (snes.solve 0 1 (eps_target m schoofLen schoofVel) m_x).reason →
      (update m snes schoofLen schoofVel m_x).error = none ∧
      (update m snes schoofLen schoofVel m_x).log.length = 1 ∧
      (update m snes schoofLen schoofVel m_x).state.m_x
        = (snes.solve 0 1 (eps_target m schoofLen schoofVel) m_x).x) ∧
    ((∀ N lambda eps x, 0 < (snes.solve N lambda eps x).reason ∧
        (snes.solve N lambda eps x).snes_it = 0) →
      (update m snes schoofLen schoofVel m_x).error = none ∧
      (update m snes schoofLen schoofVel m_x).log.length ≤ Nc) := by
  have hgamma : m.pow 10 (continuation_gamma m schoofLen schoofVel)
      ≤ eps_target m schoofLen schoofVel := by
    unfold continuation_gamma
    rw [hpow, hfloor, hlog]
    exact real_pow_gamma_le _ heps
  have hveps : viscosity_eps m (eps_target m schoofLen schoofVel)
      (continuation_gamma m schoofLen schoofVel) lambda_max
        = eps_target m schoofLen schoofVel := by
    unfold viscosity_eps lambda_max
    rw [one_mul]
    exact max_eq_right hgamma
  have hentry := continuation_step_entry m snes (eps_target m schoofLen schoofVel)
    (continuation_gamma m schoofLen schoofVel) 0 ⟨lambda_max, delta0, m_x, m_x⟩
  simp only [hveps] at hentry
  have hone : 0 < (snes.solve 0 1 (eps_target m schoofLen schoofVel) m_x).reason →
      (update m snes schoofLen schoofVel m_x).error = none ∧
      (update m snes schoofLen schoofVel m_x).log.length = 1 ∧
      (update m snes schoofLen schoofVel m_x).state.m_x
        = (snes.solve 0 1 (eps_target m schoofLen schoofVel) m_x).x := by
    intro hr
    have hstep := continuation_step_converged m snes (eps_target m schoofLen schoofVel)
      (continuation_gamma m schoofLen schoofVel) 0 ⟨lambda_max, delta0, m_x, m_x⟩
      (by simp only [hveps]; exact hr) hveps
    simp only [hveps] at hstep
    rw [update_eq, continuation_loop_succ, hstep]
    exact ⟨rfl, rfl, rfl⟩
  refine ⟨hgamma, ?_, hone, ?_⟩
  · obtain ⟨l, hl⟩ := continuation_loop_log_first m snes (eps_target m schoofLen schoofVel)
      (continuation_gamma m schoofLen schoofVel) Nc 0 ⟨lambda_max, delta0, m_x, m_x⟩ []
    refine ⟨(continuation_step m snes (eps_target m schoofLen schoofVel)
      (continuation_gamma m schoofLen schoofVel) 0 ⟨lambda_max, delta0, m_x, m_x⟩).2,
      l, ?_, ?_, ?_, ?_, ?_⟩
    · rw [update_eq]
      exact hl
    · rw [hentry]
    · rw [hentry]
      rfl
    · rw [hentry]
    · rw [hentry]
      rfl
  · intro hall
    obtain ⟨h1, h2, -⟩ := hone (hall 0 1 _ m_x).1
    refine ⟨h1, ?_⟩
    rw [h2]
    decide

/-- With the real `pow` and `10 ^ gamma ≤ eps`, the regularization is above `eps` only for
`lambda < 1` (if `gamma < 0`) or for `lambda > 1` (if `gamma > 0`). -/
theorem real_accept_cases (m : CMath ℝ) (hpow : ∀ x y, m.pow x y = x ^ y)
    (eps gamma lambda : ℝ) (hle : m.pow 10 gamma ≤ eps)
    (h : eps < viscosity_eps m eps gamma lambda) :
    (gamma < 0 ∧ lambda < 1) ∨ (0 < gamma ∧ 1 < lambda) := by
  unfold viscosity_eps at h
  rw [hpow] at h hle
  rcases lt_max_iff.1 h with h1 | h1
  · have h2 : gamma < lambda * gamma :=
      (Real.rpow_lt_rpow_left_iff (by norm_num : (1 : ℝ) < 10)).1 (lt_of_le_of_lt hle h1)
    rcases lt_trichotomy gamma 0 with hg | hg | hg
    · left
      refine ⟨hg, ?_⟩
      by_contra hl
      nlinarith [not_lt.1 hl]
    · rw [hg] at h2
      simp at h2
    · right
      refine ⟨hg, ?_⟩
      by_contra hl
      nlinarith [not_lt.1 hl]
  · exact absurd h1 (lt_irrefl _)

/-- Bounds on `lambda` and `delta` in every configuration of the loop of `update`, in
exact real arithmetic with `10 ^ gamma ≤ eps`. -/
theorem loop_reaches_bounds (m : CMath ℝ) (snes : SNES ℝ X)
    (hpow : ∀ x y, m.pow x y = x ^ y) (eps gamma : ℝ) (hle : m.pow 10 gamma ≤ eps)
    (m_x : X) (N : Nat) (s : ContinuationState ℝ X) (log : List (LogEntry ℝ))
    (h : loop_reaches m snes eps gamma ⟨lambda_max, delta0, m_x, m_x⟩ N s log) :
    lambda_min ≤ s.lambda ∧ 0 < s.delta ∧
      (0 ≤ gamma → s.lambda ≤ 1 ∧ delta_min ≤ s.delta) := by
  induction h with
  | start => norm_num [lambda_min, lambda_max, delta0, delta_min]
  | step N s s' log _ hN hstep ih =>
    obtain ⟨ih1, ih2, ih3⟩ := ih
    rcases continuation_step_next_cases m snes eps gamma N s s' hstep with
      ⟨hr, he, hd, hl⟩ | ⟨hr, hN0, hs'⟩ | ⟨hr, hN1, hfloor, hnear, hd, hl⟩
    · rcases real_accept_cases m hpow eps gamma s.lambda hle (not_le.1 he) with
        ⟨hg, hlam⟩ | ⟨hg, hlam⟩
      · have hg1 := one_le_growth N ((((snes.snes_max_it
          - (snes.solve N s.lambda (viscosity_eps m eps gamma s.lambda) s.m_x).snes_it
          : Int) : ℝ) / (snes.snes_max_it : ℝ)))
        have hpos : 0 < s'.delta := by
          rw [hd]
          refine lt_min (lt_min (mul_pos (by linarith) ih2) (by norm_num [delta_max])) ?_
          unfold lambda_max
          linarith
        refine ⟨by linarith, hpos, fun h0 => absurd hg (not_lt.2 h0)⟩
      · exact absurd (ih3 hg.le).1 (not_le.2 hlam)
    · rw [hs']
      norm_num [lambda_min, delta0, delta_min]
    · have hdmin : delta_min ≤ s'.delta := by
        rw [hd]
        exact delta_min_le_clip _
      have hpos : (0 : ℝ) < delta_min := by norm_num [delta_min]
      refine ⟨by linarith, by linarith, fun h0 => ⟨?_, hdmin⟩⟩
      obtain ⟨h3, h4⟩ := ih3 h0
      have hle' : s'.delta ≤ s.delta := by
        rw [hd]
        exact clip_half_le _ h4
      linarith

theorem real_pow_gamma_le_eps_target (m : CMath ℝ) (schoofLen schoofVel : ℝ)
    (hpow : ∀ x y, m.pow x y = x ^ y) (hlog : ∀ x, m.log10 x = Real.logb 10 x)
    (hfloor : ∀ x, m.floor x = (⌊x⌋ : ℝ))
    (heps : 0 < eps_target m schoofLen schoofVel) :
    m.pow 10 (continuation_gamma m schoofLen schoofVel) ≤ eps_target m schoofLen schoofVel := by
  unfold continuation_gamma
  rw [hpow, hfloor, hlog]
  exact real_pow_gamma_le _ heps

/-- In exact real arithmetic with a desired regularization `eps > 0`, in every
configuration the loop of `update` goes through, a solve that converges with the
regularization still above `eps` is followed by the next iteration, with a `lambda` that
is strictly greater than the accepted `lambda` and at most `lambda_max`, and with a step
length `delta` that is strictly positive and at most `delta_max`. -/
theorem accepted_step_increases_lambda (m : CMath ℝ) (snes : SNES ℝ X)
    (schoofLen schoofVel : ℝ) (m_x : X)
    (hpow : ∀ x y, m.pow x y = x ^ y) (hlog : ∀ x, m.log10 x = Real.logb 10 x)
    (hfloor : ∀ x, m.floor x = (⌊x⌋ : ℝ))
    (heps : 0 < eps_target m schoofLen schoofVel)
    (N : Nat) (s : ContinuationState ℝ X) (log : List (LogEntry ℝ))
    (hreach : loop_reaches m snes (eps_target m schoofLen schoofVel)
      (continuation_gamma m schoofLen schoofVel) ⟨lambda_max, delta0, m_x, m_x⟩ N s log)
    (hr : 0 < (snes.solve N s.lambda (viscosity_eps m (eps_target m schoofLen schoofVel)
      (continuation_gamma m schoofLen schoofVel) s.lambda) s.m_x).reason)
    (he : eps_target m schoofLen schoofVel
      < viscosity_eps m (eps_target m schoofLen schoofVel)
          (continuation_gamma m schoofLen schoofVel) s.lambda) :
    ∃ s', (continuation_step m snes (eps_target m schoofLen schoofVel)
        (continuation_gamma m schoofLen schoofVel) N s).1 = StepOutcome.next s' ∧
      s.lambda < s'.lambda ∧ s'.lambda ≤ lambda_max ∧ 0 < s'.delta ∧
      s'.delta ≤ delta_max := by
  have hle := real_pow_gamma_le_eps_target m schoofLen schoofVel hpow hlog hfloor heps
  obtain ⟨-, hb2, hb3⟩ := loop_reaches_bounds m snes hpow _ _ hle m_x N s log hreach
  have hlam : s.lambda < 1 := by
    rcases real_accept_cases m hpow _ _ s.lambda hle he with ⟨-, h⟩ | ⟨hg, h⟩
    · exact h
    · exact absurd (hb3 hg.le).1 (not_le.2 h)
  have hg1 := one_le_growth N ((((snes.snes_max_it
    - (snes.solve N s.lambda (viscosity_eps m (eps_target m schoofLen schoofVel)
        (continuation_gamma m schoofLen schoofVel) s.lambda) s.m_x).snes_it
    : Int) : ℝ) / (snes.snes_max_it : ℝ)))
  refine ⟨_, continuation_step_accept m snes _ _ N s hr (not_le.2 he), ?_, ?_, ?_, ?_⟩
  · simp only [lt_add_iff_pos_right]
    refine lt_min (lt_min (mul_pos (by linarith) hb2) (by norm_num [delta_max])) ?_
    unfold lambda_max
    linarith
  · simp only []
    have h := min_le_right (min ((if 1 < N then 1 + A * ((((snes.snes_max_it
      - (snes.solve N s.lambda (viscosity_eps m (eps_target m schoofLen schoofVel)
          (continuation_gamma m schoofLen schoofVel) s.lambda) s.m_x).snes_it
      : Int) : ℝ) / (snes.snes_max_it : ℝ)) ^ 2) else 1) * s.delta) delta_max)
      (lambda_max - s.lambda)
    linarith
  · simp only []
    refine lt_min (lt_min (mul_pos (by linarith) hb2) (by norm_num [delta_max])) ?_
    unfold lambda_max
    linarith
  · exact le_trans (min_le_left _ _) (min_le_right _ _)

end continuation_real

/-! ## Concrete instances -/

/-- In exact real arithmetic, with `schoofLen = schoofVel = 1` (`eps = 1`) and a solver that always
converges, `update` reaches `bp_done` after one solve. -/
theorem update_first_solve_at_target_witness :
    (update ⟨fun x y => x ^ y, fun x => Real.logb 10 x, fun x => (⌊x⌋ : ℝ)⟩
      (stub_converges ℝ) 1 1 0).error = none ∧
    (update ⟨fun x y => x ^ y, fun x => Real.logb 10 x, fun x => (⌊x⌋ : ℝ)⟩
      (stub_converges ℝ) 1 1 0).log.length = 1 :=
  have h := (update_first_solve_at_target
    ⟨fun x y => x ^ y, fun x => Real.logb 10 x, fun x => (⌊x⌋ : ℝ)⟩
    (stub_converges ℝ) 1 1 0 (fun _ _ => rfl) (fun _ => rfl) (fun _ => rfl)
    (by simp [eps_target])).2.2.1 (by simp [stub_converges])
  ⟨h.1, h.2.1⟩

/-- Instance of C10: a solver that fails with a line search failure at step 0. -/
theorem update_first_solve_recoverable_witness :
    ∃ e0 e1 l, (update test_cmath (stub_fails_first ℚ) 10 1 5).log = e0 :: e1 :: l ∧
      e0.N = 0 ∧ e1.N = 1 ∧ e1.lambda = lambda_min ∧
      e1.reason = ((stub_fails_first ℚ).solve 1 lambda_min e1.m_viscosity_eps 0).reason :=
  (update_first_solve_recoverable test_cmath (stub_fails_first ℚ) 10 1 5
    (by simp [stub_fails_first]) (by simp [stub_fails_first])).2.2

/-- Instance of C2: a face with a node that is not `NODE_BOUNDARY` is not a part of the
marine boundary, even with the ice bottom below sea level. -/
theorem marine_boundary_iff_witness :
    marine_boundary 0 test_incident_nodes 0 (fun _ => 1) (fun _ => (-5 : ℚ)) (fun _ => 0)
      = false :=
  (marine_boundary_iff 0 test_incident_nodes 0 (fun _ => 1) (fun _ => (-5 : ℚ))
    (fun _ => 0)).2 ⟨0, by norm_num, by norm_num⟩ _ _

/-- Instance of C3: all nodes grounded. -/
theorem grounding_line_iff_witness : grounding_line (fun _ => (-1 : ℚ)) = false :=
  (grounding_line_iff (fun _ => (-1 : ℚ))).2.1 (fun _ _ => by norm_num)

/-- C4, counterexample: on the face 0 of an element whose lower nodes are exactly at sea
level and whose upper nodes are above it, `partially_submerged_face` is true although no
node of the face is strictly below sea level. -/
theorem partially_submerged_face_at_sea_level :
    partially_submerged_face test_incident_nodes 0 test_z (fun _ => 0) = true ∧
    ¬ ∃ n, n < 4 ∧ test_z (test_incident_nodes 0 n) < (fun _ => (0 : ℚ))
        (test_incident_nodes 0 n) := by
  constructor
  · rw [partially_submerged_face_iff]
    exact ⟨⟨2, by norm_num, by norm_num [test_z, test_incident_nodes]⟩,
      ⟨0, by norm_num, by norm_num [test_z, test_incident_nodes]⟩⟩
  · rw [exists_lt_four]
    norm_num [test_z, test_incident_nodes]

/-- Instance of C1: the node `(2, 2)` of the 5 × 5 test patch belongs to 4 icy elements
and is an interior node. -/
theorem compute_node_type_classifies_witness :
    owned test_info 2 2 ∧
    ((compute_node_type test_node_types test_info test_parameters 10
      test_zero).get 2 2).node_type = -1 :=
  ⟨by decide,
    (compute_node_type_classifies test_node_types test_info test_parameters 10
      test_zero 2 2 (by decide)).2.2.1 (by decide)⟩

/-- Instance of C6: the node type of the owned node `(2, 2)` does not depend on the node
types stored before the call. -/
theorem compute_node_type_idempotent_witness :
    ((compute_node_type test_node_types test_info
        ⟨fun a b => { test_parameters.get a b with node_type := test_zero.get a b }⟩ 10
        test_zero).get 2 2).node_type
      = ((compute_node_type test_node_types test_info test_parameters 10
        test_zero).get 2 2).node_type :=
  (compute_node_type_idempotent test_node_types test_info test_parameters 10
    test_zero test_zero 2 2).2 test_zero (by decide)

/-- Instance of C7: `Mz = 9` with the coarsening factor 2 and 3 multigrid levels is
accepted (`9 = 2 * 2 ^ 2 + 1`). -/
theorem setup_check_iff_witness : ∃ levels, setup_check 9 2 3 = Except.ok levels :=
  (setup_check_iff 9 2 3 (by norm_num) (by norm_num) (by norm_num)).2.1.2
    ⟨2, by norm_num, by decide⟩

/-- The levels computed for `Mz = 9`, the coarsening factor 2 and 3 multigrid levels. -/
theorem setup_check_accepts : setup_check 9 2 3 = Except.ok [9, 5, 3] := by rfl

/-- The check rejects `Mz = 10` with the coarsening factor 2 and 3 multigrid levels and
suggests 5, 9 and 13. -/
theorem setup_check_rejects : setup_check 10 2 3 = Except.error (5, 9, 13) := by rfl

/-- Instance of C11: a back-tracking step at `N = 3` from `lambda = 0.9` with
`delta = 0.05` continues with `delta = 0.025` and `lambda = 0.875`, restoring the
solution vector. -/
theorem update_backtracking_step_witness :
    (continuation_step test_cmath (stub_diverges ℚ) (1 / 2) 0 3 ⟨9 / 10, 1 / 20, 7, 4⟩).1
      = StepOutcome.next
          ⟨(9 / 10 - 1 / 20) + clip ((1 / 20 : ℚ) / 2) delta_min delta_max,
            clip ((1 / 20 : ℚ) / 2) delta_min delta_max, 4, 4⟩ :=
  (update_backtracking_step test_cmath (stub_diverges ℚ) (1 / 2) 0 3
    ⟨9 / 10, 1 / 20, 7, 4⟩ (by norm_num) (by simp [stub_diverges])
    (by simp [stub_diverges])).2.2 (by norm_num [lambda_min])
    (by norm_num [delta_min, abs_of_pos])

/-- Instance of C12: an accepted step at `N = 3` from `lambda = 0.8` with
`delta = 0.05` and `snes_it = 0`. -/
theorem update_accepted_step_witness :
    ∃ F g delta' : ℚ,
      F = (((50 - 0 : Int) : ℚ) / ((50 : Int) : ℚ)) ∧
      g = (if 1 < 3 then 1 + A * F ^ 2 else 1) ∧
      delta' = min (min (g * (1 / 20)) delta_max) (lambda_max - 4 / 5) ∧
      (continuation_step test_cmath (stub_converges ℚ) (1 / 2) 0 3 ⟨4 / 5, 1 / 20, 7, 4⟩).1
        = StepOutcome.next ⟨4 / 5 + delta', delta', 7, 7⟩ :=
  update_accepted_step test_cmath (stub_converges ℚ) (1 / 2) 0 3 ⟨4 / 5, 1 / 20, 7, 4⟩
    (by simp [stub_converges]) (by norm_num [viscosity_eps, test_cmath])

/-- Instance of C13: a breakdown of the linear solve at `N = 3`. -/
theorem update_other_failure_witness :
    (continuation_step test_cmath (stub_linear_solve_fails ℚ) (1 / 2) 0 3
      ⟨4 / 5, 1 / 20, 7, 4⟩).1
      = StepOutcome.failed "Blatter solver failed" ⟨4 / 5, 1 / 20, 8, 4⟩ :=
  (update_other_failure test_cmath (stub_linear_solve_fails ℚ) (1 / 2) 0 0 3
    ⟨4 / 5, 1 / 20, 7, 4⟩ [] (by simp [stub_linear_solve_fails])
    (by simp [stub_linear_solve_fails]) (by simp [stub_linear_solve_fails])).1

/-- C14, counterexample: with the real functions of `<cmath>`, `schoofLen = 10` and
`schoofVel = 1` (`eps = 1 / 100`) and a solver that fails with a line search failure at the
even steps and converges at the odd steps, `update` performs 21 nonlinear solves, more
than `Nc = 20`, before it throws "failed after 20 parameter continuation steps". -/
theorem update_twenty_one_solves :
    Nc < (update ⟨fun x y => x ^ y, fun x => Real.logb 10 x, fun x => (⌊x⌋ : ℝ)⟩
      (stub_alternating ℝ) 10 1 0).log.length ∧
    (update ⟨fun x y => x ^ y, fun x => Real.logb 10 x, fun x => (⌊x⌋ : ℝ)⟩
      (stub_alternating ℝ) 10 1 0).log.length = 21 ∧
    (update ⟨fun x y => x ^ y, fun x => Real.logb 10 x, fun x => (⌊x⌋ : ℝ)⟩
      (stub_alternating ℝ) 10 1 0).error
      = some "Blatter solver failed after 20 parameter continuation steps" := by
  obtain ⟨h1, h2, -⟩ := reaches_exhausted _ _ _ _ _ _ _
    (run_alternating ⟨fun x y => x ^ y, fun x => Real.logb 10 x, fun x => (⌊x⌋ : ℝ)⟩
      (fun _ _ => rfl) (fun _ => rfl) (fun _ => rfl))
  refine ⟨?_, h2, h1⟩
  rw [h2]
  decide

/-- C15, failing input: with the real functions of `<cmath>`, `schoofLen = 10` and
`schoofVel = 1` (`eps = 1 / 100`) and a solver that converges exactly for `lambda < 1`,
the back-tracking step at `N = 12` takes `lambda` past `lambda_max`: the solve at the step
`N = 13` is made with `lambda = 403 / 400 = 1.0075`. -/
theorem update_lambda_past_lambda_max :
    ∃ e ∈ (update ⟨fun x y => x ^ y, fun x => Real.logb 10 x, fun x => (⌊x⌋ : ℝ)⟩
        (stub_target_diverges ℝ) 10 1 0).log,
      e.N = 13 ∧ e.lambda = 403 / 400 ∧ lambda_max < e.lambda := by
  obtain ⟨h1, -⟩ := reaches_entry _ _ _ _ _ _ _ _
    (run_target_diverges ⟨fun x y => x ^ y, fun x => Real.logb 10 x, fun x => (⌊x⌋ : ℝ)⟩
      (fun _ _ => rfl) (fun _ => rfl) (fun _ => rfl))
  refine ⟨_, h1, ?_, ?_, ?_⟩
  · rw [continuation_step_entry]
  · rw [continuation_step_entry]
  · rw [continuation_step_entry]
    norm_num [lambda_max]

/-- Instance of C18: the real functions of `<cmath>`, `eps = 1 / 100` and the solver
`stub_backoff`. -/
theorem update_backoff_fails_witness :
    (update ⟨fun x y => x ^ y, fun x => Real.logb 10 x, fun x => (⌊x⌋ : ℝ)⟩
      (stub_backoff ℝ) 10 1 0).error
      = some "Blatter solver: cannot reduce the continuation step" ∧
    (update ⟨fun x y => x ^ y, fun x => Real.logb 10 x, fun x => (⌊x⌋ : ℝ)⟩
      (stub_backoff ℝ) 10 1 0).log.length = 6 :=
  have h := update_backoff_fails ⟨fun x y => x ^ y, fun x => Real.logb 10 x, fun x => (⌊x⌋ : ℝ)⟩
    (stub_backoff ℝ) 10 1 0
    (by
      intro N lambda eps x hl
      simp [stub_backoff, hl])
    (by
      intro N eps x
      simp [stub_backoff])
    (by
      rw [real_eps_target _ (fun _ _ => rfl),
        real_continuation_gamma _ (fun _ _ => rfl) (fun _ => rfl) (fun _ => rfl)]
      exact not_le.1 (real_viscosity_eps_gt _ (fun _ _ => rfl) _ (by norm_num [lambda_min])))
  ⟨h.1, h.2.1⟩

/-- Instance of C19: the real functions of `<cmath>`, `eps = 1 / 100` and the solver
`stub_converges_below`. -/
theorem update_converging_below_fails_witness :
    ∃ message, (update ⟨fun x y => x ^ y, fun x => Real.logb 10 x, fun x => (⌊x⌋ : ℝ)⟩
      (stub_converges_below ℝ) 10 1 0).error = some message :=
  (update_converging_below_fails ⟨fun x y => x ^ y, fun x => Real.logb 10 x, fun x => (⌊x⌋ : ℝ)⟩
    (stub_converges_below ℝ) 10 1 0
    (by
      intro N lambda eps x hl
      simp [stub_converges_below, hl])
    (by
      intro N lambda eps x hl
      simp [stub_converges_below, not_le.2 hl])
    (by
      intro lambda hl
      rw [real_eps_target _ (fun _ _ => rfl),
        real_continuation_gamma _ (fun _ _ => rfl) (fun _ => rfl) (fun _ => rfl)]
      exact not_le.1 (real_viscosity_eps_gt _ (fun _ _ => rfl) _ hl))).2.2

/-- Instance of C20: a 2 × 3 patch with the stencil width 1. -/
theorem points_with_ghosts_visits_witness :
    (PointsWithGhosts.new ⟨0, 2, 0, 3⟩ 1).visited 20
      = some ((intRange (0 - (1 : Nat)) (0 + 2 + (1 : Nat))).flatMap
          (fun i => (intRange (0 - (1 : Nat)) (0 + 3 + (1 : Nat))).map (fun j => (i, j)))) :=
  (points_with_ghosts_visits ⟨0, 2, 0, 3⟩ 1 20 (by decide) (by decide) (by decide)).1

/-- The points visited by `Points` on the 2 × 2 test patch. -/
theorem points_visits_test_grid :
    (Points test_grid).visited 4 = some [(0, 0), (0, 1), (1, 0), (1, 1)] := by
  decide

/-- C21, failing input: with the real functions of `<cmath>`, `schoofLen = 10` and
`schoofVel = 1` (`eps = 1 / 100`) and a solver that converges exactly for `lambda < 1`,
the solve at the step `N = 12`, made with the step length `delta = 1 / 400`, ends in a
recoverable divergence, and the back-tracking step continues with the larger step length
`delta = 1 / 100` at the step `N = 13`. -/
theorem backtracking_step_grows :
    ∃ e ∈ (update ⟨fun x y => x ^ y, fun x => Real.logb 10 x, fun x => (⌊x⌋ : ℝ)⟩
        (stub_target_diverges ℝ) 10 1 0).log,
      ∃ e' ∈ (update ⟨fun x y => x ^ y, fun x => Real.logb 10 x, fun x => (⌊x⌋ : ℝ)⟩
          (stub_target_diverges ℝ) 10 1 0).log,
        e.N = 12 ∧ recoverable (stub_target_diverges ℝ) e.reason ∧ e.delta = 1 / 400 ∧
        e'.N = 13 ∧ e'.delta = 1 / 100 ∧ e.delta < e'.delta := by
  obtain ⟨h12, -⟩ := reaches_entry _ _ _ _ _ _ _ _
    (run_target_diverges_capped ⟨fun x y => x ^ y, fun x => Real.logb 10 x, fun x => (⌊x⌋ : ℝ)⟩
      (fun _ _ => rfl) (fun _ => rfl) (fun _ => rfl))
  obtain ⟨h13, -⟩ := reaches_entry _ _ _ _ _ _ _ _
    (run_target_diverges ⟨fun x y => x ^ y, fun x => Real.logb 10 x, fun x => (⌊x⌋ : ℝ)⟩
      (fun _ _ => rfl) (fun _ => rfl) (fun _ => rfl))
  refine ⟨_, h12, _, h13, ?_, ?_, ?_, ?_, ?_, ?_⟩
  · rw [continuation_step_entry]
  · rw [continuation_step_entry]
    norm_num [recoverable, stub_target_diverges]
  · rw [continuation_step_entry]
  · rw [continuation_step_entry]
  · rw [continuation_step_entry]
  · rw [continuation_step_entry, continuation_step_entry]
    norm_num

/-- In exact real arithmetic, with `eps = 1 / 100` and the solver `stub_target_diverges`,
the accepted step at `N = 1`, after the reset at `N = 0`, increases `lambda`. -/
theorem accepted_step_increases_lambda_witness :
    ∃ s', (continuation_step ⟨fun x y => x ^ y, fun x => Real.logb 10 x, fun x => (⌊x⌋ : ℝ)⟩
        (stub_target_diverges ℝ)
        (eps_target ⟨fun x y => x ^ y, fun x => Real.logb 10 x, fun x => (⌊x⌋ : ℝ)⟩ 10 1)
        (continuation_gamma ⟨fun x y => x ^ y, fun x => Real.logb 10 x, fun x => (⌊x⌋ : ℝ)⟩
          10 1) 1 ⟨lambda_min, delta0, 0, 0⟩).1 = StepOutcome.next s' ∧
      lambda_min < s'.lambda ∧ s'.lambda ≤ lambda_max ∧ 0 < s'.delta ∧
      s'.delta ≤ delta_max :=
  accepted_step_increases_lambda ⟨fun x y => x ^ y, fun x => Real.logb 10 x, fun x => (⌊x⌋ : ℝ)⟩
    (stub_target_diverges ℝ) 10 1 0 (fun _ _ => rfl) (fun _ => rfl) (fun _ => rfl)
    (by rw [real_eps_target _ (fun _ _ => rfl)]; norm_num)
    1 ⟨lambda_min, delta0, 0, 0⟩ _
    (loop_reaches.step 0 _ _ [] loop_reaches.start (by decide)
      (continuation_step_zero_recoverable _ _ _ _ _
        (by norm_num [stub_target_diverges, lambda_max])
        (by norm_num [stub_target_diverges, lambda_max])))
    (by norm_num [stub_target_diverges, lambda_min])
    (by
      rw [real_eps_target _ (fun _ _ => rfl),
        real_continuation_gamma _ (fun _ _ => rfl) (fun _ => rfl) (fun _ => rfl)]
      exact not_le.1 (real_viscosity_eps_gt _ (fun _ _ => rfl) _ (by norm_num [lambda_min])))

/-- Instance of C24: the node `(0, 2)` on the left edge of a 5 × 5 patch covered by ice
belongs to 2 elements and is a boundary node. -/
theorem compute_node_type_domain_edge_witness :
    element_count test_info 0 2 ≤ 2 ∧
    ((compute_node_type test_node_types test_info test_all_icy 50 test_zero).get 0
      2).node_type = test_node_types.NODE_BOUNDARY :=
  have h := compute_node_type_domain_edge test_node_types test_info test_all_icy 50 test_zero
    0 2 (by decide) (Or.inl rfl)
  ⟨h.1, h.2.2.2 (fun _ _ => by simp [test_all_icy]) (by decide) (by decide) (by decide)
    (by decide)⟩

/-- Instance of C26: a column of 3 levels with the thickness 1000. -/
theorem compute_averaged_velocity_trapezoid_witness :
    (compute_averaged_velocity test_grid 3 test_thick_parameters test_velocity
        test_zero_velocity test_zero_velocity).get 0 0
      = ⟨Finset.sum (Finset.range ((3 : Int) - 1).toNat)
            (fun k => (test_velocity 0 0 k).u + (test_velocity 0 0 (k + 1)).u)
            / (2 * (((3 : Int) - 1 : Int) : ℚ)),
          Finset.sum (Finset.range ((3 : Int) - 1).toNat)
            (fun k => (test_velocity 0 0 k).v + (test_velocity 0 0 (k + 1)).v)
            / (2 * (((3 : Int) - 1 : Int) : ℚ))⟩ :=
  (compute_averaged_velocity_trapezoid test_grid 3 test_thick_parameters test_velocity
    test_zero_velocity test_zero_velocity 0 0 (by decide) (by decide) (by decide)).1
    (by norm_num [test_thick_parameters])

/-- The average of the velocities `(0, 0)`, `(1, 2)`, `(2, 4)` of a column of 3 levels is
`(1, 2)`. -/
theorem compute_averaged_velocity_test_grid :
    (compute_averaged_velocity test_grid 3 test_thick_parameters test_velocity
        test_zero_velocity test_zero_velocity).get 0 0 = ⟨1, 2⟩ := by
  rw [compute_averaged_velocity_get _ _ _ _ _ _ _ _ (by decide) (by decide),
    averaged_velocity_column_pos _ _ _ (by decide) (by norm_num [test_thick_parameters])]
  have h : ((3 : Int) - 1).toNat = 2 := by decide
  rw [h]
  norm_num [Finset.sum_range_succ, test_velocity]

/-- The desired regularization computed in double precision from `schoofLen = 1` and
`schoofVel = 1e-7`. -/
theorem double_eps_target :
    eps_target test_cmath_double 1 test_schoofVel = 3169126500570573 / 2 ^ 98 := by
  simp [eps_target, test_cmath_double, test_schoofVel]

theorem double_continuation_gamma :
    continuation_gamma test_cmath_double 1 test_schoofVel = -14 := by
  unfold continuation_gamma
  rw [double_eps_target]
  simp only [test_cmath_double, if_true]
  norm_num

theorem double_pow_gamma :
    test_cmath_double.pow 10 (lambda_max * -14) = 6338253001141147 / 2 ^ 99 := by
  simp only [test_cmath_double, lambda_max, one_mul]
  norm_num

/-- In double precision `pow(10.0, gamma)` exceeds `eps` for `schoofVel / schoofLen = 1e-7`. -/
theorem double_over :
    eps_target test_cmath_double 1 test_schoofVel
      < test_cmath_double.pow 10
          (lambda_max * continuation_gamma test_cmath_double 1 test_schoofVel) := by
  rw [double_eps_target, double_continuation_gamma, double_pow_gamma]
  norm_num

/-- C8, failing input: in IEEE double precision with `schoofLen = 1` and
`schoofVel = 1e-7`, `eps = pow(1e-7, 2.0)` is `9.999999999999998e-15`,
`gamma = floor(log10(eps))` is `-14` and `pow(10.0, gamma)` is one unit in the last place
above `eps`, against the comment "gamma is a number such that 10^gamma <= eps". The first
solve (step 0, `lambda = 1`) is made with a regularization above `eps`, and with a solver
that always converges with `iterations_used = 0` `update` does not reach `bp_done`: it
throws "failed after 20 parameter continuation steps" after 21 solves. -/
theorem update_first_solve_above_target :
    eps_target test_cmath_double 1 test_schoofVel
      < test_cmath_double.pow 10 (continuation_gamma test_cmath_double 1 test_schoofVel) ∧
    (∃ e l, (update test_cmath_double (stub_converges ℚ) 1 test_schoofVel 0).log = e :: l ∧
      e.N = 0 ∧ e.lambda = 1 ∧ 0 < e.reason ∧
      eps_target test_cmath_double 1 test_schoofVel < e.m_viscosity_eps) ∧
    (update test_cmath_double (stub_converges ℚ) 1 test_schoofVel 0).error
      = some "Blatter solver failed after 20 parameter continuation steps" ∧
    (update test_cmath_double (stub_converges ℚ) 1 test_schoofVel 0).log.length = 21 := by
  have hover := double_over
  have hloop := continuation_loop_stalls test_cmath_double (stub_converges ℚ) _ _ hover
    (fun _ _ _ _ => by simp [stub_converges]) (Nc + 1) 0 ⟨lambda_max, delta0, 0, 0⟩ [] rfl
    (by norm_num [delta0])
  refine ⟨?_, ?_, hloop.1, hloop.2⟩
  · have h := hover
    unfold lambda_max at h
    rw [one_mul] at h
    exact h
  · obtain ⟨l, hl⟩ := continuation_loop_log_first test_cmath_double (stub_converges ℚ)
      (eps_target test_cmath_double 1 test_schoofVel)
      (continuation_gamma test_cmath_double 1 test_schoofVel) Nc 0
      ⟨lambda_max, delta0, 0, 0⟩ []
    refine ⟨_, l, hl, ?_, ?_, ?_, ?_⟩
    · rw [continuation_step_entry]
    · rw [continuation_step_entry]
      rfl
    · rw [continuation_step_entry]
      simp [stub_converges]
    · rw [continuation_step_entry]
      exact lt_of_lt_of_le hover (le_max_left _ _)

/-- C22, failing input: in IEEE double precision with `schoofLen = 1` and
`schoofVel = 1e-7` (see `test_cmath_double`), the solve at the step 0, made in the initial
state of the loop with `lambda = lambda_max`, converges with the regularization above
`eps`: the step is accepted, and the next iteration is made with the same `lambda`, not a
greater one, and with the step length `delta = 0`, which is not positive. -/
theorem accepted_step_at_lambda_max :
    loop_reaches test_cmath_double (stub_converges ℚ)
      (eps_target test_cmath_double 1 test_schoofVel)
      (continuation_gamma test_cmath_double 1 test_schoofVel)
      ⟨lambda_max, delta0, 0, 0⟩ 0 ⟨lambda_max, delta0, 0, 0⟩ [] ∧
    0 < ((stub_converges ℚ).solve 0 lambda_max
      (viscosity_eps test_cmath_double (eps_target test_cmath_double 1 test_schoofVel)
        (continuation_gamma test_cmath_double 1 test_schoofVel) lambda_max) 0).reason ∧
    eps_target test_cmath_double 1 test_schoofVel
      < viscosity_eps test_cmath_double (eps_target test_cmath_double 1 test_schoofVel)
          (continuation_gamma test_cmath_double 1 test_schoofVel) lambda_max ∧
    (continuation_step test_cmath_double (stub_converges ℚ)
      (eps_target test_cmath_double 1 test_schoofVel)
      (continuation_gamma test_cmath_double 1 test_schoofVel) 0
      ⟨lambda_max, delta0, 0, 0⟩).1 = StepOutcome.next ⟨lambda_max, 0, 0, 0⟩ ∧
    (∃ e ∈ (update test_cmath_double (stub_converges ℚ) 1 test_schoofVel 0).log,
      e.N = 1 ∧ e.lambda = lambda_max ∧ e.delta = 0) := by
  have hover := double_over
  have hstep := continuation_step_stalls test_cmath_double (stub_converges ℚ)
    (eps_target test_cmath_double 1 test_schoofVel)
    (continuation_gamma test_cmath_double 1 test_schoofVel) 0 ⟨lambda_max, delta0, 0, 0⟩
    (by simp [stub_converges]) hover rfl (by norm_num [delta0])
  have hstep' : (continuation_step test_cmath_double (stub_converges ℚ)
      (eps_target test_cmath_double 1 test_schoofVel)
      (continuation_gamma test_cmath_double 1 test_schoofVel) 0
      ⟨lambda_max, delta0, 0, 0⟩).1 = StepOutcome.next ⟨lambda_max, 0, 0, 0⟩ := by
    rw [hstep]
    simp [stub_converges]
  refine ⟨loop_reaches.start, by simp [stub_converges],
    lt_of_lt_of_le hover (le_max_left _ _), hstep', ?_⟩
  have h0 := reaches_start test_cmath_double (stub_converges ℚ) 1 test_schoofVel 0
  have h1 := reaches_next _ _ _ _ _ _ _ _ _ h0 hstep'
  obtain ⟨hmem, -⟩ := reaches_entry _ _ _ _ _ 19 _ _ h1
  refine ⟨_, hmem, ?_, ?_, ?_⟩ <;> rw [continuation_step_entry]

end Blatter

namespace pism

/-- The body of the one-argument `gatherFromB` is that of the one-argument
`gatherFromA`. -/
theorem gatherFromB_eq_gatherFromA {K : Type} (t : IPTwoBlockVec K) (b : Vec K) :
    t.gatherFromB b = t.gatherFromA b := rfl

/-- C25, failing input: on one process, with `a = (1, 2)`, `b = (3, 4)` and `m_ab` filled
with zeros, `gatherFromA(a)` followed by the one-argument `gatherFromB(b)` leaves
`m_ab = (3, 4, 0, 0)`: `b` is written into the block A and the block B is not written,
and a following `scatter` returns `(3, 4)` and `(0, 0)`. The two-argument
`gatherFromB(b, m_ab)` and `gather(a, b)` give `m_ab = (1, 2, 3, 4)`, from which `scatter`
returns `a` and `b`. -/
theorem gatherFromB_writes_block_A :
    (((test_two_block.gatherFromA (test_vec 1 2)).gatherFromB (test_vec 3 4)).m_ab.entries 4
      = [3, 4, 0, 0]) ∧
    ((test_two_block.gatherFromA (test_vec 1 2)).gatherFromB_ab (test_vec 3 4)
        (test_two_block.gatherFromA (test_vec 1 2)).m_ab).entries 4 = [1, 2, 3, 4] ∧
    (test_two_block.gather (test_vec 1 2) (test_vec 3 4)).m_ab.entries 4 = [1, 2, 3, 4] ∧
    ((((test_two_block.gatherFromA (test_vec 1 2)).gatherFromB (test_vec 3 4)).scatter
        (test_vec 0 0) (test_vec 0 0)).1.entries 2 = [3, 4]) ∧
    ((((test_two_block.gatherFromA (test_vec 1 2)).gatherFromB (test_vec 3 4)).scatter
        (test_vec 0 0) (test_vec 0 0)).2.entries 2 = [0, 0]) ∧
    (((test_two_block.gather (test_vec 1 2) (test_vec 3 4)).scatter
        (test_vec 0 0) (test_vec 0 0)).1.entries 2 = [1, 2]) ∧
    (((test_two_block.gather (test_vec 1 2) (test_vec 3 4)).scatter
        (test_vec 0 0) (test_vec 0 0)).2.entries 2 = [3, 4]) := by
  decide

end pism
